import Mathlib

/-!
# A shallow embedding of the `liquid` LR(1)/LALR parser generator

This file embeds the core of the `liquid` parser-generator (grammar model and
group expansion, FIRST computation, LR(1) items, CLR/LALR automaton
construction, parse-table assembly with precedence/associativity conflict
resolution, the shift/reduce driver, and the lexer's post-processing) as
executable Lean definitions, and proves properties of the embedded code.

Conventions:
* TS strings are `String`; JS arrays are `List`s; JS `Record`s are association
  lists in insertion order.
* JS `Set`-based deduplication (`[...new Set(xs)]`) keeps first occurrences and
  is modelled by `jsDedup`.
* Unbounded `while` loops and non-structural recursion are modelled with an
  explicit fuel parameter; running out of fuel yields `none`, and theorems are
  either fuel-independent invariants or conditioned on success.
* Semantic actions are arbitrary JS functions; they are modelled symbolically:
  a rule carries an `Option Nat` action id and applying action `a` to a payload
  list `args` yields the opaque value `Value.act a args`.
* Thrown `LiquidParserError` / `LiquidSyntaxError` exceptions are modelled with
  `Except LiquidError`; a would-be JS `TypeError` crash is `LiquidError.typeError`.
-/

namespace Liquid

/-- `Grammar.Signs.ε` -/
def epsSign : String := "__LIQUID_RESERVED_EPSILON__"

/-- `Grammar.Signs.$` -/
def eofSign : String := "__LIQUID_RESERVED_EOF__"

/-- `Grammar.Signs.AUG` -/
def augSign : String := "__LIQUID_RESERVED_AUG__"

/-- JS `[...new Set(xs)]`: deduplicate keeping first occurrences, in order. -/
def jsDedupGo {α : Type} [DecidableEq α] : List α → List α → List α
  | [], _ => []
  | x :: xs, seen => if x ∈ seen then jsDedupGo xs seen else x :: jsDedupGo xs (x :: seen)

def jsDedup {α : Type} [DecidableEq α] (l : List α) : List α := jsDedupGo l []

theorem mem_jsDedupGo {α : Type} [DecidableEq α] {l : List α} {seen : List α} {x : α} :
    x ∈ jsDedupGo l seen ↔ x ∈ l ∧ x ∉ seen := by
  induction l generalizing seen with
  | nil => simp [jsDedupGo]
  | cons y ys ih =>
    simp only [jsDedupGo]
    by_cases h : y ∈ seen
    · simp only [if_pos h, ih, List.mem_cons]
      constructor
      · rintro ⟨hx, hns⟩; exact ⟨Or.inr hx, hns⟩
      · rintro ⟨hx | hx, hns⟩
        · exact absurd (hx ▸ h) hns
        · exact ⟨hx, hns⟩
    · simp only [if_neg h, List.mem_cons, ih]
      constructor
      · rintro (rfl | ⟨hx, hns⟩)
        · exact ⟨Or.inl rfl, h⟩
        · exact ⟨Or.inr hx, fun hc => hns (Or.inr hc)⟩
      · rintro ⟨rfl | hx, hns⟩
        · exact Or.inl rfl
        · by_cases hxy : x = y
          · exact Or.inl hxy
          · exact Or.inr ⟨hx, by simp [List.mem_cons, hxy, hns]⟩

theorem mem_jsDedup {α : Type} [DecidableEq α] {l : List α} {x : α} : x ∈ jsDedup l ↔ x ∈ l := by
  simp [jsDedup, mem_jsDedupGo]

/-! ## Grammar model (`src/core/grammar/grammar.ts`, `rule.ts`)

A `GrammarProductionRule` is `(lhs, rhs, action)`.  Semantic actions are
modelled by an optional action id (`GrammarProductionRule` always defaults the
action to `ACTIONS.PASS()`, so rules built by users always carry `some` id;
only the synthetic augmented LR item has none). -/

structure GrammarProductionRule where
  lhs : String
  rhs : List String
  action : Option Nat
deriving DecidableEq, Repr

/-- JS `String.prototype.startsWith`, on the character lists (the built-in
`String.startsWith` does not reduce in the kernel). -/
def jsStartsWith (s pre : String) : Bool := pre.data.isPrefixOf s.data

/-- JS `String.prototype.endsWith`. -/
def jsEndsWith (s post : String) : Bool := post.data.isSuffixOf s.data

/-- `symbol.startsWith(':') && symbol.endsWith(':')`: a `:GroupName:` occurrence. -/
def isGroupSym (s : String) : Bool := jsStartsWith s ":" && jsEndsWith s ":"

/-- `rule.rhs[groupIndex].slice(1, -1)`: the group name inside `:G:`. -/
def groupNameOf (s : String) : String := (s.drop 1).dropRight 1

/-- The lexer pattern data consumed by grammar construction and the parser:
`(name, groups, precedence?, associativity)`.  `associativity` defaults to
`'None'` in the `Pattern` constructor, so it is always present. -/
inductive Assoc
  | left
  | right
  | none
deriving DecidableEq, Repr

structure Pattern where
  name : String
  groups : List String
  precedence : Option Int
  associativity : Assoc
deriving DecidableEq, Repr

/-- `newRhs.splice(groupIndex, 1, pattern.name)`: replace the element at
position `i` with `name`. -/
def spliceAt (i : Nat) (name : String) (l : List String) : List String :=
  l.take i ++ name :: l.drop (i + 1)

/-- `Grammar._ungroup`, fuelled (the TS recursion diverges if a pattern name is
itself group-shaped; `none` models running out of fuel). -/
def ungroupF (pats : List Pattern) : Nat → GrammarProductionRule → Option (List GrammarProductionRule)
  | 0, _ => none
  | fuel + 1, r =>
    match r.rhs.findIdx? (fun s => isGroupSym s) with
    | Option.none => some [r]
    | some i =>
      match r.rhs.get? i with
      | Option.none => some [r]
      | some gsym =>
        let g := groupNameOf gsym
        let matching := pats.filter (fun p => p.groups.contains g)
        (matching.mapM (fun p =>
          ungroupF pats fuel { r with rhs := spliceAt i p.name r.rhs })).map List.flatten

/-- The `for (const rule of this.rules)` loop in the `Grammar` constructor:
JS `for..of` over an array that grows during iteration also visits the
appended elements.  `pending` is the part not yet visited, `acc` the whole
array contents so far. -/
def grammarCtorLoop (pats : List Pattern) (ufuel : Nat) :
    Nat → List GrammarProductionRule → List GrammarProductionRule →
    Option (List GrammarProductionRule)
  | 0, _, _ => none
  | _ + 1, [], acc => some acc
  | fuel + 1, r :: pending, acc =>
    if (r.rhs.findIdx? (fun s => isGroupSym s)).isSome then
      match ungroupF pats ufuel r with
      | Option.none => none
      | some populated => grammarCtorLoop pats ufuel fuel (pending ++ populated) (acc ++ populated)
    else
      grammarCtorLoop pats ufuel fuel pending acc

/-- The `Grammar` constructor's effect on the rule list: when patterns are
supplied, expand every rule containing a `:Group:` occurrence and then drop
every rule having an rhs symbol that starts with `:`. -/
def mkGrammarRules (input : List GrammarProductionRule) (pats : List Pattern)
    (ufuel lfuel : Nat) : Option (List GrammarProductionRule) :=
  if pats.length > 0 then
    (grammarCtorLoop pats ufuel lfuel input input).map
      (fun all => all.filter (fun r => r.rhs.all (fun s => !jsStartsWith s ":")))
  else
    some input

/-- A grammar is its (already constructed) ordered rule list. -/
structure Grammar where
  rules : List GrammarProductionRule
deriving DecidableEq, Repr

namespace Grammar

/-- `get variables()`: deduplicated rule left-hand sides. -/
def vars (g : Grammar) : List String := jsDedup (g.rules.map (·.lhs))

/-- `isVariable(symbol)` -/
def isVariable (g : Grammar) (s : String) : Bool := (vars g).contains s

/-- All symbols occurring in some rhs (before the ε filter). -/
def rhsSymbols (g : Grammar) : List String := g.rules.flatMap (·.rhs)

/-- `get terminals()`: deduplicated non-ε rhs symbols that are not variables. -/
def terminals (g : Grammar) : List String :=
  (jsDedup ((rhsSymbols g).filter (fun s => s ≠ epsSign))).filter
    (fun s => !isVariable g s)

/-- `get start()` -/
def start (g : Grammar) : String := (g.rules.head?.elim "" (·.lhs))

end Grammar

/-! ## FIRST sets

`Grammar.get firsts()` is a fixed-point loop over the rules; it is embedded
with an explicit fuel on the outer `while (changed)` loop.  The map is an
association list whose keys are exactly `g.variables`, in order. -/

/-- Record lookup, defaulting to `[]` (keys are pre-initialised for every
variable, so lookups in the source never miss). -/
def mget (m : List (String × List String)) (k : String) : List String :=
  ((m.find? (fun p => p.1 = k)).map (·.2)).getD []

/-- Record update on an existing key (no-op when the key is absent, which does
not happen for the keys used by the source). -/
def mset (m : List (String × List String)) (k : String) (v : List String) :
    List (String × List String) :=
  m.map (fun p => if p.1 = k then (k, v) else p)

/-- `[...new Set([...old, ...add])]` where `old` is already duplicate-free. -/
def jsUnion (old add : List String) : List String := jsDedup (old ++ add)

/-- The inner `for (let i = 0; ...)` loop of `get firsts()` for one rule
`lhs → rhs`; returns the updated map and the updated `changed` flag.
`rest` is the part of the rhs not yet visited. -/
def firstsRuleStep (g : Grammar) (lhs : String) :
    List String → List (String × List String) → Bool →
    List (String × List String) × Bool
  | [], m, ch => (m, ch)
  | sym :: rest, m, ch =>
    if !g.isVariable sym then
      -- non-variable: push (deduplicated) and break
      if (mget m lhs).contains sym then (m, ch)
      else (mset m lhs (mget m lhs ++ [sym]), true)
    else
      let fs := mget m sym
      if fs.contains epsSign then
        let old := mget m lhs
        let merged := jsUnion old (fs.filter (fun f => f ≠ epsSign))
        let ch1 := ch || decide (merged.length ≠ old.length)
        let m1 := mset m lhs merged
        -- `i === rhs.length - 1`: push ε when this is the last symbol
        let step :=
          if rest.isEmpty then
            if (mget m1 lhs).contains epsSign then (m1, ch1)
            else (mset m1 lhs (mget m1 lhs ++ [epsSign]), true)
          else (m1, ch1)
        firstsRuleStep g lhs rest step.1 step.2
      else
        let old := mget m lhs
        let merged := jsUnion old fs
        (mset m lhs merged, ch || decide (merged.length ≠ old.length))

/-- One full pass of the `while (changed)` body over all rules. -/
def firstsPass (g : Grammar) (m : List (String × List String)) :
    List (String × List String) × Bool :=
  g.rules.foldl (fun acc r => firstsRuleStep g r.lhs r.rhs acc.1 acc.2) (m, false)

/-- The outer `while (changed)` loop, fuelled. -/
def firstsIter (g : Grammar) : Nat → List (String × List String) → List (String × List String)
  | 0, m => m
  | fuel + 1, m =>
    let (m', ch) := firstsPass g m
    if ch then firstsIter g fuel m' else m'

/-- `get firsts()` with `fuel` iterations of the outer loop. -/
def firstsMap (g : Grammar) (fuel : Nat) : List (String × List String) :=
  firstsIter g fuel ((g.vars).map (fun v => (v, [])))

/-- `firstOfSequence`, walking the sequence with its running index.  Note the
source's `sequence.indexOf(symbol) === sequence.length - 1` test, which uses
the index of the *first* occurrence of the symbol. -/
def firstOfSeqGo (g : Grammar) (m : List (String × List String)) (seq : List String) :
    List String → List String → List String
  | acc, [] => acc
  | acc, sym :: rest =>
    if !g.isVariable sym then
      if acc.contains sym then acc else acc ++ [sym]
    else
      let fs := mget m sym
      if fs.contains epsSign then
        let acc1 := acc ++ fs.filter (fun f => f ≠ epsSign)
        let acc2 :=
          if seq.indexOf sym = seq.length - 1 then
            if acc1.contains epsSign then acc1 else acc1 ++ [epsSign]
          else acc1
        firstOfSeqGo g m seq acc2 rest
      else
        acc ++ fs

/-- `firstOfSequence(sequence)` (with the FIRST map already computed). -/
def firstOfSequence (g : Grammar) (m : List (String × List String))
    (seq : List String) : List String :=
  firstOfSeqGo g m seq [] seq

/-! ## LR(1) items (`LR1.Item`, extending `LR0.Item`) -/

structure Item where
  lhs : String
  rhs : List String
  index : Nat
  lookaheads : List String
  action : Option Nat
deriving DecidableEq, Repr

namespace Item

/-- `get nextSymbol()`: `rhs[index]`, possibly `undefined`. -/
def nextSymbol (it : Item) : Option String := it.rhs.get? it.index

/-- `get nextNextSymbol()`: `rhs[index + 1]`. -/
def nextNextSymbol (it : Item) : Option String := it.rhs.get? (it.index + 1)

/-- `isCompleted()`: `index >= rhs.filter(s => s !== ε).length`. -/
def isCompleted (it : Item) : Bool :=
  it.index ≥ (it.rhs.filter (fun s => s ≠ epsSign)).length

/-- `rhs.map(s => s.toString()).join('')` as used by `isEqualTo`. -/
def rhsJoin (it : Item) : String := String.join it.rhs

/-- `isEqualTo(operand, ignoreLookahead = true)`: core equality on
`(lhs, joined rhs, index)`. -/
def coreEq (a b : Item) : Bool :=
  a.lhs = b.lhs && rhsJoin a = rhsJoin b && a.index = b.index

/-- `isEqualTo(operand, ignoreLookahead)` with `this = a`, `operand = b`. -/
def itemEq (a b : Item) (ignoreLookahead : Bool) : Bool :=
  coreEq a b &&
    (ignoreLookahead ||
      (a.lookaheads.all (fun x => b.lookaheads.contains x) &&
        a.lookaheads.length = b.lookaheads.length))

end Item

/-! ## States and the automaton (`LR1.State`, `LR1.Automaton`)

Source states hold object references; here the automaton owns all states in a
vector and a state's `transitions` map symbols to state ids (= positions in
that vector, which is also how `register` assigns ids). -/

structure LRState where
  kernel : List Item
  closure : List Item
  transitions : List (String × Nat)
deriving DecidableEq, Repr

/-- `get expandables()`: deduplicated, defined, non-ε next symbols of the
closure, in closure order. -/
def expandables (st : LRState) : List String :=
  jsDedup ((st.closure.filterMap Item.nextSymbol).filter (fun s => s ≠ epsSign))

/-- `_computeClosure`: BFS from the kernel, deduplicating by full item
equality against the current closure.  `queue` is `insertingItems`. -/
def computeClosure (autoRules : List Item) (g : Grammar) :
    Nat → List Item → List Item → List Item
  | 0, closure, _ => closure
  | _ + 1, closure, [] => closure
  | fuel + 1, closure, item :: queue =>
    match item.nextSymbol with
    | some sym =>
      if g.isVariable sym then
        let newItems := autoRules.filter (fun r => r.lhs = sym)
        let step := newItems.foldl
          (fun (acc : List Item × List Item) ni =>
            if acc.1.any (fun r => Item.itemEq r ni false) then acc
            else (acc.1 ++ [ni], acc.2 ++ [ni]))
          (closure, queue)
        computeClosure autoRules g fuel step.1 step.2
      else computeClosure autoRules g fuel closure queue
    | none => computeClosure autoRules g fuel closure queue

/-- The cache key is `item.toString()`, which renders `(lhs, rhs split at the
dot, lookaheads list)`; it is modelled by that tuple of joined strings. -/
structure LAKey where
  lhs : String
  pre : String
  post : String
  la : String
deriving DecidableEq, Repr

def laKeyOf (it : Item) : LAKey :=
  { lhs := it.lhs
    pre := String.intercalate " " (it.rhs.take it.index)
    post := String.intercalate " " (it.rhs.drop it.index)
    la := String.intercalate ", " it.lookaheads }

/-- `automaton.cache.lookaheads` -/
abbrev Cache := List (LAKey × List String)

def cacheFind (c : Cache) (k : LAKey) : Option (List String) :=
  (c.find? (fun p => p.1 = k)).map (·.2)

def cacheAdd (c : Cache) (k : LAKey) (v : List String) : Cache := c ++ [(k, v)]

/-- One dequeue of `_computeLookaheads`' processing queue.  A queue entry is
either a kernel-item snapshot (the initial seeds, whose lookaheads are never
mutated by this function) or the index of a closure item (the source enqueues
object references into the closure). -/
def laProcessOne (g : Grammar) (m : List (String × List String))
    (kernel closure : List Item) (cache : Cache) (pit : Item) :
    List Item × Cache × List (Sum Item Nat) :=
  match pit.nextSymbol with
  | Option.none => (closure, cache, [])
  | some nextSym =>
    -- `closure.filter(i => kernel.some(k => !k.isEqualTo(i, true))).filter(lhs = nextSym)`
    let targets := (List.range closure.length).filter (fun i =>
      match closure.get? i with
      | some it =>
        (kernel.any (fun k => !Item.itemEq k it true)) && it.lhs = nextSym
      | Option.none => false)
    let (lookaheads, cache1) :=
      match cacheFind cache (laKeyOf pit) with
      | some v => (v, cache)
      | Option.none =>
        let beta := pit.rhs.drop (pit.index + 1)
        let fob := firstOfSequence g m beta
        let las :=
          if beta.length = 0 || fob.contains epsSign then
            pit.lookaheads ++ fob.filter (fun f => f ≠ epsSign)
          else fob
        (las, cacheAdd cache (laKeyOf pit) las)
    let step := targets.foldl
      (fun (acc : List Item × List (Sum Item Nat)) i =>
        match acc.1.get? i with
        | some it =>
          let newLA := jsDedup (it.lookaheads ++ lookaheads)
          let cl' := acc.1.set i { it with lookaheads := newLA }
          if newLA.length ≠ it.lookaheads.length then (cl', acc.2 ++ [Sum.inr i])
          else (cl', acc.2)
        | Option.none => acc)
      (closure, [])
    (step.1, cache1, step.2)

/-- The `while (processingQueue.length > 0)` worklist of `_computeLookaheads`. -/
def computeLAGo (g : Grammar) (m : List (String × List String)) (kernel : List Item) :
    Nat → List Item → Cache → List (Sum Item Nat) → List Item × Cache
  | 0, closure, cache, _ => (closure, cache)
  | _ + 1, closure, cache, [] => (closure, cache)
  | fuel + 1, closure, cache, e :: queue =>
    let pit? := match e with
      | Sum.inl it => some it
      | Sum.inr i => closure.get? i
    match pit? with
    | Option.none => computeLAGo g m kernel fuel closure cache queue
    | some pit =>
      let (closure', cache', enq) := laProcessOne g m kernel closure cache pit
      computeLAGo g m kernel fuel closure' cache' (queue ++ enq)

/-- `State.resolve()`: closure (seeded and queued with the kernel) followed by
lookahead propagation (queue seeded with the kernel items). -/
def resolveState (autoRules : List Item) (g : Grammar)
    (m : List (String × List String)) (fuel : Nat) (kernel : List Item)
    (cache : Cache) : List Item × Cache :=
  let cl := computeClosure autoRules g fuel kernel kernel
  computeLAGo g m kernel fuel cl cache (kernel.map Sum.inl)

/-- The automaton: LR(1) items of all rules, the owned states (position =
id), the lookahead cache, and `_newStates` as a queue of ids. -/
structure Automaton where
  rules : List Item
  states : List LRState
  cache : Cache
  queue : List Nat
deriving DecidableEq, Repr

/-- The synthetic item `AUG → • start, {$}` (rule 0 of the automaton). -/
def augItemOf (g : Grammar) : Item :=
  { lhs := augSign, rhs := [g.start], index := 0, lookaheads := [eofSign], action := none }

/-- The automaton's LR(1) items: the augmented item followed by the grammar's
rules with empty lookaheads. -/
def mkAutoRules (g : Grammar) : List Item :=
  augItemOf g ::
    g.rules.map (fun r => { lhs := r.lhs, rhs := r.rhs, index := 0, lookaheads := [], action := r.action })

/-- `findStateByKernel(kernel, ignoreLookahead)`: the first state whose kernel
contains every given item (`hasAllRules`), scanning in id order. -/
def findStateByKernel (states : List LRState) (kernel : List Item)
    (ignoreLookahead : Bool) : Option Nat :=
  states.findIdx? (fun st =>
    kernel.all (fun r => st.kernel.any (fun k => Item.itemEq k r ignoreLookahead)))

/-- `register(state)`: assign the next id, push, resolve, enqueue. -/
def register (g : Grammar) (m : List (String × List String)) (fuel : Nat)
    (a : Automaton) (kernel : List Item) : Automaton :=
  let (closure, cache') := resolveState a.rules g m fuel kernel a.cache
  { a with
    states := a.states ++ [{ kernel := kernel, closure := closure, transitions := [] }]
    cache := cache'
    queue := a.queue ++ [a.states.length] }

/-- Record-style transition update (`this.transitions[symbol] = state`). -/
def rsetNat (m : List (String × Nat)) (k : String) (v : Nat) : List (String × Nat) :=
  if m.any (fun p => p.1 = k) then m.map (fun p => if p.1 = k then (k, v) else p)
  else m ++ [(k, v)]

def setTransition (a : Automaton) (id : Nat) (sym : String) (target : Nat) : Automaton :=
  match a.states.get? id with
  | some st =>
    { a with states := a.states.set id { st with transitions := rsetNat st.transitions sym target } }
  | Option.none => a

/-- Advancing the dot over `sym` on every matching closure item: the candidate
kernel of the `sym`-transition. -/
def advanceKernel (closure : List Item) (sym : String) : List Item :=
  (closure.filter (fun r => r.nextSymbol = some sym)).map
    (fun r => { r with index := r.index + 1 })

/-! ### LALR expansion (`LALRState.expand` / `_updateLookaheads`) -/

mutual

/-- The `for (const symbol of this.expandables)` loop of `LALRState.expand`,
with `syms` the remaining symbols (the iterable is evaluated once in the
source, but the closure is re-read on every iteration). -/
def lalrExpandGo (g : Grammar) (m : List (String × List String)) :
    Nat → Automaton → Nat → List String → Automaton
  | 0, a, _, _ => a
  | _ + 1, a, _, [] => a
  | fuel + 1, a, id, sym :: syms =>
    match a.states.get? id with
    | Option.none => a
    | some st =>
      let newKernel := advanceKernel st.closure sym
      match findStateByKernel a.states newKernel true with
      | Option.none =>
        let a1 := setTransition a id sym a.states.length
        let a2 := register g m fuel a1 newKernel
        lalrExpandGo g m fuel a2 id syms
      | some fid =>
        let a1 := setTransition a id sym fid
        let exact := findStateByKernel a1.states newKernel false
        if exact = some fid then
          lalrExpandGo g m fuel a1 id syms
        else
          let (newClosure, cache') := resolveState a1.rules g m fuel newKernel a1.cache
          let a2 := { a1 with cache := cache' }
          let a3 := lalrUpdateLA g m fuel a2 fid newClosure
          lalrExpandGo g m fuel a3 id syms

/-- `LALRState.expand()` on the state with the given id. -/
def lalrExpand (g : Grammar) (m : List (String × List String)) :
    Nat → Automaton → Nat → Automaton
  | 0, a, _ => a
  | fuel + 1, a, id =>
    match a.states.get? id with
    | Option.none => a
    | some st => lalrExpandGo g m fuel a id (expandables st)

/-- `LALRState._updateLookaheads(reference)`: merge the reference closure's
lookaheads into core-matching closure (and kernel) items; re-expand the state
when anything grew. -/
def lalrUpdateLA (g : Grammar) (m : List (String × List String)) :
    Nat → Automaton → Nat → List Item → Automaton
  | 0, a, _, _ => a
  | fuel + 1, a, id, refClosure =>
    let step := refClosure.foldl
      (fun (acc : Automaton × Bool) item =>
        match acc.1.states.get? id with
        | Option.none => acc
        | some st =>
          match st.closure.findIdx? (fun r => Item.itemEq r item true) with
          | Option.none => acc
          | some ci =>
            match st.closure.get? ci with
            | Option.none => acc
            | some cit =>
              let newLA := jsDedup (cit.lookaheads ++ item.lookaheads)
              if newLA.length ≠ cit.lookaheads.length then
                let cl1 := st.closure.set ci { cit with lookaheads := newLA }
                let k1 :=
                  match st.kernel.findIdx? (fun r => Item.itemEq r item true) with
                  | some ki =>
                    match st.kernel.get? ki with
                    | some kit => st.kernel.set ki { kit with lookaheads := newLA }
                    | Option.none => st.kernel
                  | Option.none => st.kernel
                ({ acc.1 with
                    states := acc.1.states.set id { st with closure := cl1, kernel := k1 } }, true)
              else acc)
      (a, false)
    if step.2 then lalrExpand g m fuel step.1 id else step.1

end

/-! ### CLR expansion (`CLRState.expand`): full-equality kernel lookup, no
lookahead merging. -/

def clrExpandGo (g : Grammar) (m : List (String × List String)) :
    Nat → Automaton → Nat → List String → Automaton
  | 0, a, _, _ => a
  | _ + 1, a, _, [] => a
  | fuel + 1, a, id, sym :: syms =>
    match a.states.get? id with
    | Option.none => a
    | some st =>
      let newKernel := advanceKernel st.closure sym
      match findStateByKernel a.states newKernel false with
      | Option.none =>
        let a1 := setTransition a id sym a.states.length
        let a2 := register g m fuel a1 newKernel
        clrExpandGo g m fuel a2 id syms
      | some fid =>
        clrExpandGo g m fuel (setTransition a id sym fid) id syms

def clrExpand (g : Grammar) (m : List (String × List String)) :
    Nat → Automaton → Nat → Automaton
  | 0, a, _ => a
  | fuel + 1, a, id =>
    match a.states.get? id with
    | Option.none => a
    | some st => clrExpandGo g m fuel a id (expandables st)

/-! ### Population (`Automaton.populate`) -/

inductive Variant
  | clr
  | lalr
deriving DecidableEq, Repr

def expandState (v : Variant) (g : Grammar) (m : List (String × List String))
    (fuel : Nat) (a : Automaton) (id : Nat) : Automaton :=
  match v with
  | Variant.clr => clrExpand g m fuel a id
  | Variant.lalr => lalrExpand g m fuel a id

/-- `populate`: register the start state, then expand queued states until the
queue empties (or fuel runs out). -/
def populateLoop (v : Variant) (g : Grammar) (m : List (String × List String)) :
    Nat → Automaton → Automaton
  | 0, a => a
  | fuel + 1, a =>
    match a.queue with
    | [] => a
    | id :: rest => populateLoop v g m fuel (expandState v g m fuel { a with queue := rest } id)

/-- Build the automaton of a grammar: items, state 0 from the augmented item,
breadth-first population.  `m` is `grammar.firsts` computed with the same
fuel. -/
def buildAutomaton (v : Variant) (g : Grammar) (fuel : Nat) : Automaton :=
  populateLoop v g (firstsMap g fuel) fuel
    (register g (firstsMap g fuel) fuel
      { rules := mkAutoRules g, states := [], cache := [], queue := [] } [augItemOf g])

/-- One-step unfolding of `populateLoop` on a non-empty queue (used to walk
concrete constructions state by state). -/
theorem populateLoop_cons (v : Variant) (g : Grammar) (m : List (String × List String))
    (f1 f0 : Nat) (hf : f1 = f0 + 1) (a : Automaton) (id : Nat) (rest : List Nat)
    (hq : a.queue = id :: rest) :
    populateLoop v g m f1 a =
      populateLoop v g m f0 (expandState v g m f0 { a with queue := rest } id) := by
  subst hf
  simp only [populateLoop, hq]

/-- `populateLoop` is the identity on an empty queue. -/
theorem populateLoop_nil (v : Variant) (g : Grammar) (m : List (String × List String))
    (fuel : Nat) (a : Automaton) (hq : a.queue = []) :
    populateLoop v g m fuel a = a := by
  cases fuel with
  | zero => simp only [populateLoop]
  | succ f => simp only [populateLoop, hq]

/-! ## Tokens and operator properties -/

/-- A JS number-or-undefined precedence; the lexer's EOF token uses
`-Infinity`. -/
inductive Prec
  | undef
  | negInf
  | num (n : Int)
deriving DecidableEq, Repr

/-- A token literal: the EOF token's `{}` or the symbolic result of a
pattern's `transform` on the lexeme. -/
inductive Lit
  | emptyObj
  | trans (transformId : Nat) (lexeme : String)
deriving DecidableEq, Repr

structure Token where
  ty : String
  lexeme : String
  groups : List String
  precedence : Prec
  associativity : Assoc
  literal : Lit
  start : Nat
  stop : Nat
deriving DecidableEq, Repr

/-- `_operatorsProperty` entries. -/
structure OpProp where
  associativity : Option Assoc
  precedence : Option Int
deriving DecidableEq, Repr

/-- `_generateOperatorsProperty(patterns)`: associativity is always assigned
(every `'Left' | 'Right' | 'None'` string is truthy); precedence only when
truthy (defined and non-zero). -/
def opsUpsert (ops : List (String × OpProp)) (name : String)
    (f : OpProp → OpProp) : List (String × OpProp) :=
  if ops.any (fun p => p.1 = name) then
    ops.map (fun p => if p.1 = name then (name, f p.2) else p)
  else ops ++ [(name, f { associativity := none, precedence := none })]

def opsOfPatterns (pats : List Pattern) : List (String × OpProp) :=
  pats.foldl
    (fun ops p =>
      let ops1 := opsUpsert ops p.name (fun e => { e with associativity := some p.associativity })
      match p.precedence with
      | some n => if n ≠ 0 then opsUpsert ops1 p.name (fun e => { e with precedence := some n }) else ops1
      | Option.none => ops1)
    []

def opLookup (ops : List (String × OpProp)) (name : String) : Option OpProp :=
  (ops.find? (fun p => p.1 = name)).map (·.2)

/-- A rule's precedence: `rhs.reduce((acc, s) => ops[s] ? max(acc, ops[s].precedence ?? 0) : acc, 0)`. -/
def rulePrecedence (ops : List (String × OpProp)) (rhs : List String) : Int :=
  rhs.foldl
    (fun acc sym =>
      match opLookup ops sym with
      | some e => max acc (e.precedence.getD 0)
      | Option.none => acc)
    0

/-! ## Parse table (`LR1.Parser._generateParseTable` / `_resolveConflicts`) -/

inductive Action
  | shift (id : Nat)
  | goto (id : Nat)
  | reduce (rule : Item)
  | accept
deriving DecidableEq, Repr

/-- Thrown errors (`LiquidParserError`, `LiquidSyntaxError`,
`LiquidLexerError`), plus `typeError` for a would-be JS `TypeError` crash and
`fuelExhausted` for running out of modelling fuel. -/
inductive LiquidError
  | grammarNotLR1SR (stateId : Nat) (terminal : String)
  | grammarNotLR1RR (stateId : Nat) (terminal : String)
  | unexpectedToken (lexeme : String) (loc : Nat) (expected : List String)
  | iterationLimit
  | lexerInvalidToken (lexeme : String) (loc : Nat)
  | typeError
  | fuelExhausted
deriving DecidableEq, Repr

deriving instance DecidableEq for Except

abbrev Row := List (String × List Action)
abbrev Table := List Row

def rlookup (row : Row) (k : String) : Option (List Action) :=
  (row.find? (fun p => p.1 = k)).map (·.2)

/-- `row[k] = v` (JS `Record` assignment: overwrite or append). -/
def rowSet (row : Row) (k : String) (v : List Action) : Row :=
  if row.any (fun p => p.1 = k) then row.map (fun p => if p.1 = k then (k, v) else p)
  else row ++ [(k, v)]

/-- `row[k].push(a)`; `none` when the key is absent (a JS `TypeError`). -/
def rowPush (row : Row) (k : String) (a : Action) : Option Row :=
  if row.any (fun p => p.1 = k) then
    some (row.map (fun p => if p.1 = k then (k, p.2 ++ [a]) else p))
  else none

def tlookup (ts : List (String × Nat)) (k : String) : Option Nat :=
  (ts.find? (fun p => p.1 = k)).map (·.2)

/-- One state's table row: initialise all terminal/variable/`$` cells to `[]`,
push Shifts for terminal transitions, Gotos for variable transitions, an
Accept under `$` for a completed augmented item, and a Reduce under every
lookahead of every other completed closure item. -/
def generateRow (g : Grammar) (st : LRState) : Option Row :=
  let row1 := rowSet ((g.terminals ++ g.vars).foldl (fun r k => rowSet r k []) []) eofSign []
  let rowShift := g.terminals.foldlM
    (fun (r : Row) t =>
      match tlookup st.transitions t with
      | some id => rowPush r t (Action.shift id)
      | Option.none => some r)
    row1
  let rowGoto := rowShift.bind (fun r =>
    g.vars.foldlM
      (fun (r : Row) v =>
        match tlookup st.transitions v with
        | some id => rowPush r v (Action.goto id)
        | Option.none => some r)
      r)
  rowGoto.bind (fun r =>
    (st.closure.filter (fun rule => rule.isCompleted)).foldlM
      (fun (r : Row) rule =>
        if rule.lhs = augSign then rowPush r eofSign Action.accept
        else
          rule.lookaheads.foldlM (fun (r : Row) la => rowPush r la (Action.reduce rule)) r)
      r)

def generateParseTable (g : Grammar) (a : Automaton) : Option Table :=
  a.states.mapM (generateRow g)

inductive Favor
  | shift
  | reduce
  | none
deriving DecidableEq, Repr

structure Config where
  maxIterations : Nat
  debug : Bool
  favor : Favor
deriving DecidableEq, Repr

def defaultConfig : Config := { maxIterations := 5000, debug := false, favor := Favor.none }

def isShiftA : Action → Bool
  | Action.shift _ => true
  | _ => false

def isReduceA : Action → Bool
  | Action.reduce _ => true
  | _ => false

/-- The precedence the conflict resolver assigns to a Reduce action (`0` for
the impossible non-Reduce case, as in the source's `map`). -/
def reducePrecOf (ops : List (String × OpProp)) : Action → Int
  | Action.reduce r => rulePrecedence ops r.rhs
  | _ => 0

/-- JS `Math.max(...l)` for a non-empty list (`0` is never used: callers pass
non-empty lists). -/
def maxInt : List Int → Int
  | [] => 0
  | x :: xs => xs.foldl max x

/-- `_resolveConflicts` on one `(state, terminal)` cell: the Shift/Reduce
phase (on the first shift and the first reduce), then the Reduce/Reduce phase
on the *original* action list, each phase rewriting the cell or throwing. -/
def resolveCell (ops : List (String × OpProp)) (favor : Favor) (stateId : Nat)
    (terminal : String) (cell : List Action) : Except LiquidError (List Action) :=
  if cell.length > 1 then
    let shiftActions := cell.filter isShiftA
    let reduceActions := cell.filter isReduceA
    let step1 : Except LiquidError (List Action) :=
      if 0 < shiftActions.length ∧ 0 < reduceActions.length then
        match shiftActions.head?, reduceActions.head? with
        | some (Action.shift sid), some (Action.reduce rrule) =>
          let shiftPrec := ((opLookup ops terminal).bind (·.precedence)).getD 0
          let reducePrec := rulePrecedence ops rrule.rhs
          if shiftPrec = reducePrec then
            if ((opLookup ops terminal).bind (·.associativity)) = some Assoc.left
                ∨ favor = Favor.reduce then
              Except.ok [Action.reduce rrule]
            else if ((opLookup ops terminal).bind (·.associativity)) = some Assoc.right
                ∨ favor = Favor.shift then
              Except.ok [Action.shift sid]
            else
              Except.error (LiquidError.grammarNotLR1SR stateId terminal)
          else if shiftPrec > reducePrec then Except.ok [Action.shift sid]
          else Except.ok [Action.reduce rrule]
        | _, _ => Except.ok cell
      else Except.ok cell
    match step1 with
    | Except.error e => Except.error e
    | Except.ok cell1 =>
      if reduceActions.length > 1 then
        let reducePrecedences := reduceActions.map (reducePrecOf ops)
        if (jsDedup reducePrecedences).length ≠ 1 then
          Except.error (LiquidError.grammarNotLR1RR stateId terminal)
        else
          match reduceActions.get? (reducePrecedences.indexOf (maxInt reducePrecedences)) with
          | some a => Except.ok [a]
          | Option.none => Except.ok []
      else Except.ok cell1
  else Except.ok cell

/-- `_resolveConflicts` over one state's row: every grammar terminal's cell. -/
def resolveRow (g : Grammar) (ops : List (String × OpProp)) (favor : Favor)
    (stateId : Nat) (row : Row) : Except LiquidError Row :=
  g.terminals.foldlM
    (fun (r : Row) term =>
      match rlookup r term with
      | Option.none => Except.error LiquidError.typeError
      | some cell => (resolveCell ops favor stateId term cell).map (fun cell' => rowSet r term cell'))
    row

/-- `_resolveConflicts` over the whole table (state order = id order). -/
def resolveConflicts (g : Grammar) (ops : List (String × OpProp)) (favor : Favor)
    (t : Table) : Except LiquidError Table :=
  (List.range t.length).foldlM
    (fun (tt : Table) sid =>
      match tt.get? sid with
      | Option.none => Except.error LiquidError.typeError
      | some row => (resolveRow g ops favor sid row).map (fun row' => tt.set sid row'))
    t

/-- The whole `_generateParseTable` (generation then conflict resolution). -/
def buildTable (g : Grammar) (ops : List (String × OpProp)) (favor : Favor)
    (a : Automaton) : Except LiquidError Table :=
  match generateParseTable g a with
  | Option.none => Except.error LiquidError.typeError
  | some t => resolveConflicts g ops favor t

/-! ## The driver (`LR1.Parser.parse`)

Semantic values (`unknown` in the source) are modelled symbolically: a
reduction without an action keeps the collected payload array, a reduction
with action id `a` yields the opaque `Value.act a args`. -/

inductive Value
  | undef
  | tok (t : Token)
  | arr (l : List Value)
  | act (id : Nat) (args : List Value)

/-- `ParserStackElement.{State, Terminal, Variable}`; `poison` stands for a
JS `undefined` pushed onto the stack (only reachable on corrupt tables). -/
inductive StackElem
  | state (id : Nat)
  | term (t : Token)
  | varE (sym : String) (ctx : Value)
  | poison

/-- The suggestion list built for `UnexpectedToken`: every key of the state's
table row, variables replaced by their FIRST set, flattened, deduplicated,
with ε and `$` removed. -/
def expectedOf (g : Grammar) (m : List (String × List String)) (row : Row) : List String :=
  (jsDedup ((row.map (fun p => if g.isVariable p.1 then mget m p.1 else [p.1])).flatten)).filter
    (fun s => s ≠ epsSign && s ≠ eofSign)

/-- `Accept`: return `(stack[1] as Variable).context` (`stack[1]` counts from
the bottom; a non-Variable there yields JS `undefined`, an absent element a
crash). -/
def acceptResult (stack : List StackElem) : Except LiquidError Value :=
  match (stack.reverse).get? 1 with
  | some (StackElem.varE _ ctx) => Except.ok ctx
  | some _ => Except.ok Value.undef
  | Option.none => Except.error LiquidError.typeError

/-- One `Reduce(r)` application to the stack, returning the new stack (or the
modelled crash).  Pops `2 * |rhs \ {ε}|` frames, collects Variable contexts
and Terminal tokens in pop order, reverses them into the action's argument
list, and pushes the new Variable frame and the Goto state. -/
def reduceStep (table : Table) (rule : Item) (stack : List StackElem) :
    Except LiquidError (List StackElem) :=
  let n := (rule.rhs.filter (fun s => s ≠ epsSign)).length
  let popped := stack.take (2 * n)
  let rest := stack.drop (2 * n)
  let ctxs := popped.foldl
    (fun (acc : List Value) e =>
      match e with
      | StackElem.state _ => acc
      | StackElem.varE _ c => acc ++ [c]
      | StackElem.term t => acc ++ [Value.tok t]
      | StackElem.poison => acc)
    []
  match rest.head? with
  | some (StackElem.state sb) =>
    let ctx :=
      match rule.action with
      | some aid => Value.act aid ctxs.reverse
      | Option.none => Value.arr ctxs
    match table.get? sb with
    | Option.none => Except.error LiquidError.typeError
    | some row2 =>
      match rlookup row2 rule.lhs with
      | Option.none => Except.error LiquidError.typeError
      | some cell2 =>
        match cell2.head? with
        | Option.none => Except.error LiquidError.typeError
        | some (Action.goto gid) =>
          Except.ok (StackElem.state gid :: StackElem.varE rule.lhs ctx :: rest)
        | some (Action.shift gid) =>
          Except.ok (StackElem.state gid :: StackElem.varE rule.lhs ctx :: rest)
        | some _ =>
          Except.ok (StackElem.poison :: StackElem.varE rule.lhs ctx :: rest)
  | _ => Except.error LiquidError.typeError

/-- The driver loop.  The fuel is the number of remaining allowed iterations:
entering an iteration with no fuel left models `iteration > maxIterations`
and throws `Max iterations reached`. -/
def parseGo (g : Grammar) (m : List (String × List String)) (table : Table) :
    Nat → List Token → List StackElem → Except LiquidError Value
  | 0, _, _ => Except.error LiquidError.iterationLimit
  | rem + 1, tokens, stack =>
    match tokens.head? with
    | Option.none => Except.error LiquidError.typeError
    | some token =>
      match stack.head? with
      | some (StackElem.state sid) =>
        match table.get? sid with
        | Option.none => Except.error LiquidError.typeError
        | some row =>
          match rlookup row token.ty with
          | Option.none => Except.error LiquidError.typeError
          | some cell =>
            match cell.head? with
            | Option.none =>
              Except.error (LiquidError.unexpectedToken token.lexeme token.start (expectedOf g m row))
            | some (Action.shift id) =>
              parseGo g m table rem tokens.tail
                (StackElem.state id :: StackElem.term token :: stack)
            | some (Action.goto _) =>
              -- not Shift/Reduce/Accept-handled: the loop continues unchanged
              parseGo g m table rem tokens stack
            | some Action.accept => acceptResult stack
            | some (Action.reduce rule) =>
              match reduceStep table rule stack with
              | Except.error e => Except.error e
              | Except.ok stack' => parseGo g m table rem tokens stack'
      | _ => Except.error LiquidError.typeError

/-- `parse` on an already-lexed token list: start from `[State(0)]`. -/
def parseTokens (g : Grammar) (m : List (String × List String)) (table : Table)
    (cfg : Config) (tokens : List Token) : Except LiquidError Value :=
  parseGo g m table cfg.maxIterations tokens [StackElem.state 0]

/-! ## The lexer (`Lexer.tokenize` / `Lexer.purge`)

Pattern identifiers are literal strings or regexes; regex matching
(`batch.match(id)`) is abstracted by an oracle `ro : Nat → String → Option
String` giving `match[0]` for regex `id` on a batch. -/

inductive Ident
  | str (s : String)
  | regex (id : Nat)
deriving DecidableEq, Repr

structure LexPattern where
  name : String
  identifier : List Ident
  groups : List String
  precedence : Prec
  associativity : Assoc
  transformId : Nat
deriving DecidableEq, Repr

def mkToken (p : LexPattern) (lexeme : String) (loc : Nat) : Token :=
  { ty := p.name
    groups := p.groups
    lexeme := lexeme
    precedence := p.precedence
    associativity := p.associativity
    literal := Lit.trans p.transformId lexeme
    start := loc
    stop := loc + lexeme.length }

/-- `tokenizeBatch(batch, location)`: the first pattern (and first identifier)
that matches the batch. -/
def tokenizeBatch (pats : List LexPattern) (ro : Nat → String → Option String)
    (batch : String) (loc : Nat) : Option Token :=
  pats.findSome? (fun p =>
    p.identifier.findSome? (fun id =>
      match id with
      | Ident.regex rid => (ro rid batch).map (fun mt => mkToken p mt loc)
      | Ident.str s => if batch = s then some (mkToken p s loc) else none))

/-- The inner `while (cursor <= stream.length)` scan for the longest match
(`>` keeps the first of equally long matches). -/
def scanLongest (pats : List LexPattern) (ro : Nat → String → Option String)
    (stream : String) (loc : Nat) : Option Token :=
  (List.range stream.length).foldl
    (fun best c =>
      let batch := stream.take (c + 1)
      match tokenizeBatch pats ro batch loc with
      | some tok =>
        match best with
        | Option.none => some tok
        | some b => if tok.lexeme.length > b.lexeme.length then some tok else some b
      | Option.none => best)
    none

/-- The EOF token appended by `tokenize`. -/
def eofToken (loc : Nat) : Token :=
  { ty := eofSign
    groups := []
    lexeme := "\x00"
    literal := Lit.emptyObj
    precedence := Prec.negInf
    associativity := Assoc.none
    start := loc
    stop := loc }

/-- `purge(tokens)`: drop every token whose `groups` include `'Ignored'`. -/
def purge (ts : List Token) : List Token :=
  ts.filter (fun t => !(t.groups.contains "Ignored"))

/-- The outer `while (stream.length)` loop of `tokenize`. -/
def tokenizeGo (pats : List LexPattern) (ro : Nat → String → Option String) :
    Nat → String → Nat → List Token → Except LiquidError (List Token)
  | 0, _, _, _ => Except.error LiquidError.fuelExhausted
  | fuel + 1, stream, loc, acc =>
    if stream.length = 0 then
      Except.ok (purge (acc ++ [eofToken loc]))
    else
      match scanLongest pats ro stream loc with
      | some tok =>
        tokenizeGo pats ro fuel (stream.drop tok.lexeme.length)
          (loc + tok.lexeme.length) (acc ++ [tok])
      | Option.none => Except.error (LiquidError.lexerInvalidToken (stream.take 1) loc)

/-- `tokenize(input)` (location starts at 1). -/
def tokenize (pats : List LexPattern) (ro : Nat → String → Option String)
    (fuel : Nat) (input : String) : Except LiquidError (List Token) :=
  tokenizeGo pats ro fuel input 1 []


/-! ## Concrete constructions

Small grammars exercising the claims, with their LALR automatons computed
state by state (each `..._build` theorem walks `populateLoop` one queue entry
at a time through pre-evaluated intermediate automatons) and their parse
tables. -/

/-- A user rule: `GrammarProductionRule` always carries an action (the
constructor defaults it to `ACTIONS.PASS()`). -/
def mkRule (l : String) (rs : List String) (a : Nat) : GrammarProductionRule :=
  { lhs := l, rhs := rs, action := some a }

/-- `S → A a | B a, A → ε, B → ε`: a Reduce/Reduce conflict under `a`. -/
def gC1 : Grammar :=
  ⟨[mkRule "S" ["A", "a"] 0, mkRule "S" ["B", "a"] 1, mkRule "A" [epsSign] 2, mkRule "B" [epsSign] 3]⟩

/-- `E → E p E | n`: a Shift/Reduce conflict under `p`. -/
def gC2 : Grammar := ⟨[mkRule "E" ["E", "p", "E"] 0, mkRule "E" ["n"] 1]⟩

/-- `S → A | B, A → a, B → a`: a Reduce/Reduce conflict under `$`. -/
def gC4 : Grammar :=
  ⟨[mkRule "S" ["A"] 0, mkRule "S" ["B"] 1, mkRule "A" ["a"] 2, mkRule "B" ["a"] 3]⟩

/-- `S → a D | b A, D → A | B, A → z, B → z`: the `z`-successor kernel of the
`b`-state is a strict core-subset of the `z`-successor kernel of the
`a`-state. -/
def gC5 : Grammar :=
  ⟨[mkRule "S" ["a", "D"] 0, mkRule "S" ["b", "A"] 1, mkRule "D" ["A"] 2,
    mkRule "D" ["B"] 3, mkRule "A" ["z"] 4, mkRule "B" ["z"] 5]⟩

/-- `S → a b`: for driver-level tests. -/
def gC6 : Grammar := ⟨[mkRule "S" ["a", "b"] 0]⟩

/-- The pattern list for `gC2`: `p` with precedence 1, Right-associative. -/
def patsC2 : List Pattern :=
  [{ name := "p", groups := [], precedence := some 1, associativity := Assoc.right }]

def gC1M : List (String × List String) :=
  [("S", ["a"]), ("A", ["__LIQUID_RESERVED_EPSILON__"]), ("B", ["__LIQUID_RESERVED_EPSILON__"])]

def gC1A0 : Automaton :=
  { rules := [{ lhs := "__LIQUID_RESERVED_AUG__", rhs := ["S"], index := 0, lookaheads := ["__LIQUID_RESERVED_EOF__"], action := none }, { lhs := "S", rhs := ["A", "a"], index := 0, lookaheads := [], action := some 0 }, { lhs := "S", rhs := ["B", "a"], index := 0, lookaheads := [], action := some 1 }, { lhs := "A", rhs := ["__LIQUID_RESERVED_EPSILON__"], index := 0, lookaheads := [], action := some 2 }, { lhs := "B", rhs := ["__LIQUID_RESERVED_EPSILON__"], index := 0, lookaheads := [], action := some 3 }], states := [{ kernel := [{ lhs := "__LIQUID_RESERVED_AUG__", rhs := ["S"], index := 0, lookaheads := ["__LIQUID_RESERVED_EOF__"], action := none }], closure := [{ lhs := "__LIQUID_RESERVED_AUG__", rhs := ["S"], index := 0, lookaheads := ["__LIQUID_RESERVED_EOF__"], action := none }, { lhs := "S", rhs := ["A", "a"], index := 0, lookaheads := ["__LIQUID_RESERVED_EOF__"], action := some 0 }, { lhs := "S", rhs := ["B", "a"], index := 0, lookaheads := ["__LIQUID_RESERVED_EOF__"], action := some 1 }, { lhs := "A", rhs := ["__LIQUID_RESERVED_EPSILON__"], index := 0, lookaheads := ["a"], action := some 2 }, { lhs := "B", rhs := ["__LIQUID_RESERVED_EPSILON__"], index := 0, lookaheads := ["a"], action := some 3 }], transitions := [] }], cache := [({ lhs := "__LIQUID_RESERVED_AUG__", pre := "", post := "S", la := "__LIQUID_RESERVED_EOF__" }, ["__LIQUID_RESERVED_EOF__"]), ({ lhs := "S", pre := "", post := "A a", la := "__LIQUID_RESERVED_EOF__" }, ["a"]), ({ lhs := "S", pre := "", post := "B a", la := "__LIQUID_RESERVED_EOF__" }, ["a"]), ({ lhs := "A", pre := "", post := "__LIQUID_RESERVED_EPSILON__", la := "a" }, ["a"]), ({ lhs := "B", pre := "", post := "__LIQUID_RESERVED_EPSILON__", la := "a" }, ["a"])], queue := [0] }

def gC1A1 : Automaton :=
  { rules := [{ lhs := "__LIQUID_RESERVED_AUG__", rhs := ["S"], index := 0, lookaheads := ["__LIQUID_RESERVED_EOF__"], action := none }, { lhs := "S", rhs := ["A", "a"], index := 0, lookaheads := [], action := some 0 }, { lhs := "S", rhs := ["B", "a"], index := 0, lookaheads := [], action := some 1 }, { lhs := "A", rhs := ["__LIQUID_RESERVED_EPSILON__"], index := 0, lookaheads := [], action := some 2 }, { lhs := "B", rhs := ["__LIQUID_RESERVED_EPSILON__"], index := 0, lookaheads := [], action := some 3 }], states := [{ kernel := [{ lhs := "__LIQUID_RESERVED_AUG__", rhs := ["S"], index := 0, lookaheads := ["__LIQUID_RESERVED_EOF__"], action := none }], closure := [{ lhs := "__LIQUID_RESERVED_AUG__", rhs := ["S"], index := 0, lookaheads := ["__LIQUID_RESERVED_EOF__"], action := none }, { lhs := "S", rhs := ["A", "a"], index := 0, lookaheads := ["__LIQUID_RESERVED_EOF__"], action := some 0 }, { lhs := "S", rhs := ["B", "a"], index := 0, lookaheads := ["__LIQUID_RESERVED_EOF__"], action := some 1 }, { lhs := "A", rhs := ["__LIQUID_RESERVED_EPSILON__"], index := 0, lookaheads := ["a"], action := some 2 }, { lhs := "B", rhs := ["__LIQUID_RESERVED_EPSILON__"], index := 0, lookaheads := ["a"], action := some 3 }], transitions := [("S", 1), ("A", 2), ("B", 3)] }, { kernel := [{ lhs := "__LIQUID_RESERVED_AUG__", rhs := ["S"], index := 1, lookaheads := ["__LIQUID_RESERVED_EOF__"], action := none }], closure := [{ lhs := "__LIQUID_RESERVED_AUG__", rhs := ["S"], index := 1, lookaheads := ["__LIQUID_RESERVED_EOF__"], action := none }], transitions := [] }, { kernel := [{ lhs := "S", rhs := ["A", "a"], index := 1, lookaheads := ["__LIQUID_RESERVED_EOF__"], action := some 0 }], closure := [{ lhs := "S", rhs := ["A", "a"], index := 1, lookaheads := ["__LIQUID_RESERVED_EOF__"], action := some 0 }], transitions := [] }, { kernel := [{ lhs := "S", rhs := ["B", "a"], index := 1, lookaheads := ["__LIQUID_RESERVED_EOF__"], action := some 1 }], closure := [{ lhs := "S", rhs := ["B", "a"], index := 1, lookaheads := ["__LIQUID_RESERVED_EOF__"], action := some 1 }], transitions := [] }], cache := [({ lhs := "__LIQUID_RESERVED_AUG__", pre := "", post := "S", la := "__LIQUID_RESERVED_EOF__" }, ["__LIQUID_RESERVED_EOF__"]), ({ lhs := "S", pre := "", post := "A a", la := "__LIQUID_RESERVED_EOF__" }, ["a"]), ({ lhs := "S", pre := "", post := "B a", la := "__LIQUID_RESERVED_EOF__" }, ["a"]), ({ lhs := "A", pre := "", post := "__LIQUID_RESERVED_EPSILON__", la := "a" }, ["a"]), ({ lhs := "B", pre := "", post := "__LIQUID_RESERVED_EPSILON__", la := "a" }, ["a"]), ({ lhs := "S", pre := "A", post := "a", la := "__LIQUID_RESERVED_EOF__" }, ["__LIQUID_RESERVED_EOF__"]), ({ lhs := "S", pre := "B", post := "a", la := "__LIQUID_RESERVED_EOF__" }, ["__LIQUID_RESERVED_EOF__"])], queue := [1, 2, 3] }

def gC1A2 : Automaton :=
  { rules := [{ lhs := "__LIQUID_RESERVED_AUG__", rhs := ["S"], index := 0, lookaheads := ["__LIQUID_RESERVED_EOF__"], action := none }, { lhs := "S", rhs := ["A", "a"], index := 0, lookaheads := [], action := some 0 }, { lhs := "S", rhs := ["B", "a"], index := 0, lookaheads := [], action := some 1 }, { lhs := "A", rhs := ["__LIQUID_RESERVED_EPSILON__"], index := 0, lookaheads := [], action := some 2 }, { lhs := "B", rhs := ["__LIQUID_RESERVED_EPSILON__"], index := 0, lookaheads := [], action := some 3 }], states := [{ kernel := [{ lhs := "__LIQUID_RESERVED_AUG__", rhs := ["S"], index := 0, lookaheads := ["__LIQUID_RESERVED_EOF__"], action := none }], closure := [{ lhs := "__LIQUID_RESERVED_AUG__", rhs := ["S"], index := 0, lookaheads := ["__LIQUID_RESERVED_EOF__"], action := none }, { lhs := "S", rhs := ["A", "a"], index := 0, lookaheads := ["__LIQUID_RESERVED_EOF__"], action := some 0 }, { lhs := "S", rhs := ["B", "a"], index := 0, lookaheads := ["__LIQUID_RESERVED_EOF__"], action := some 1 }, { lhs := "A", rhs := ["__LIQUID_RESERVED_EPSILON__"], index := 0, lookaheads := ["a"], action := some 2 }, { lhs := "B", rhs := ["__LIQUID_RESERVED_EPSILON__"], index := 0, lookaheads := ["a"], action := some 3 }], transitions := [("S", 1), ("A", 2), ("B", 3)] }, { kernel := [{ lhs := "__LIQUID_RESERVED_AUG__", rhs := ["S"], index := 1, lookaheads := ["__LIQUID_RESERVED_EOF__"], action := none }], closure := [{ lhs := "__LIQUID_RESERVED_AUG__", rhs := ["S"], index := 1, lookaheads := ["__LIQUID_RESERVED_EOF__"], action := none }], transitions := [] }, { kernel := [{ lhs := "S", rhs := ["A", "a"], index := 1, lookaheads := ["__LIQUID_RESERVED_EOF__"], action := some 0 }], closure := [{ lhs := "S", rhs := ["A", "a"], index := 1, lookaheads := ["__LIQUID_RESERVED_EOF__"], action := some 0 }], transitions := [] }, { kernel := [{ lhs := "S", rhs := ["B", "a"], index := 1, lookaheads := ["__LIQUID_RESERVED_EOF__"], action := some 1 }], closure := [{ lhs := "S", rhs := ["B", "a"], index := 1, lookaheads := ["__LIQUID_RESERVED_EOF__"], action := some 1 }], transitions := [] }], cache := [({ lhs := "__LIQUID_RESERVED_AUG__", pre := "", post := "S", la := "__LIQUID_RESERVED_EOF__" }, ["__LIQUID_RESERVED_EOF__"]), ({ lhs := "S", pre := "", post := "A a", la := "__LIQUID_RESERVED_EOF__" }, ["a"]), ({ lhs := "S", pre := "", post := "B a", la := "__LIQUID_RESERVED_EOF__" }, ["a"]), ({ lhs := "A", pre := "", post := "__LIQUID_RESERVED_EPSILON__", la := "a" }, ["a"]), ({ lhs := "B", pre := "", post := "__LIQUID_RESERVED_EPSILON__", la := "a" }, ["a"]), ({ lhs := "S", pre := "A", post := "a", la := "__LIQUID_RESERVED_EOF__" }, ["__LIQUID_RESERVED_EOF__"]), ({ lhs := "S", pre := "B", post := "a", la := "__LIQUID_RESERVED_EOF__" }, ["__LIQUID_RESERVED_EOF__"])], queue := [2, 3] }

def gC1A3 : Automaton :=
  { rules := [{ lhs := "__LIQUID_RESERVED_AUG__", rhs := ["S"], index := 0, lookaheads := ["__LIQUID_RESERVED_EOF__"], action := none }, { lhs := "S", rhs := ["A", "a"], index := 0, lookaheads := [], action := some 0 }, { lhs := "S", rhs := ["B", "a"], index := 0, lookaheads := [], action := some 1 }, { lhs := "A", rhs := ["__LIQUID_RESERVED_EPSILON__"], index := 0, lookaheads := [], action := some 2 }, { lhs := "B", rhs := ["__LIQUID_RESERVED_EPSILON__"], index := 0, lookaheads := [], action := some 3 }], states := [{ kernel := [{ lhs := "__LIQUID_RESERVED_AUG__", rhs := ["S"], index := 0, lookaheads := ["__LIQUID_RESERVED_EOF__"], action := none }], closure := [{ lhs := "__LIQUID_RESERVED_AUG__", rhs := ["S"], index := 0, lookaheads := ["__LIQUID_RESERVED_EOF__"], action := none }, { lhs := "S", rhs := ["A", "a"], index := 0, lookaheads := ["__LIQUID_RESERVED_EOF__"], action := some 0 }, { lhs := "S", rhs := ["B", "a"], index := 0, lookaheads := ["__LIQUID_RESERVED_EOF__"], action := some 1 }, { lhs := "A", rhs := ["__LIQUID_RESERVED_EPSILON__"], index := 0, lookaheads := ["a"], action := some 2 }, { lhs := "B", rhs := ["__LIQUID_RESERVED_EPSILON__"], index := 0, lookaheads := ["a"], action := some 3 }], transitions := [("S", 1), ("A", 2), ("B", 3)] }, { kernel := [{ lhs := "__LIQUID_RESERVED_AUG__", rhs := ["S"], index := 1, lookaheads := ["__LIQUID_RESERVED_EOF__"], action := none }], closure := [{ lhs := "__LIQUID_RESERVED_AUG__", rhs := ["S"], index := 1, lookaheads := ["__LIQUID_RESERVED_EOF__"], action := none }], transitions := [] }, { kernel := [{ lhs := "S", rhs := ["A", "a"], index := 1, lookaheads := ["__LIQUID_RESERVED_EOF__"], action := some 0 }], closure := [{ lhs := "S", rhs := ["A", "a"], index := 1, lookaheads := ["__LIQUID_RESERVED_EOF__"], action := some 0 }], transitions := [("a", 4)] }, { kernel := [{ lhs := "S", rhs := ["B", "a"], index := 1, lookaheads := ["__LIQUID_RESERVED_EOF__"], action := some 1 }], closure := [{ lhs := "S", rhs := ["B", "a"], index := 1, lookaheads := ["__LIQUID_RESERVED_EOF__"], action := some 1 }], transitions := [] }, { kernel := [{ lhs := "S", rhs := ["A", "a"], index := 2, lookaheads := ["__LIQUID_RESERVED_EOF__"], action := some 0 }], closure := [{ lhs := "S", rhs := ["A", "a"], index := 2, lookaheads := ["__LIQUID_RESERVED_EOF__"], action := some 0 }], transitions := [] }], cache := [({ lhs := "__LIQUID_RESERVED_AUG__", pre := "", post := "S", la := "__LIQUID_RESERVED_EOF__" }, ["__LIQUID_RESERVED_EOF__"]), ({ lhs := "S", pre := "", post := "A a", la := "__LIQUID_RESERVED_EOF__" }, ["a"]), ({ lhs := "S", pre := "", post := "B a", la := "__LIQUID_RESERVED_EOF__" }, ["a"]), ({ lhs := "A", pre := "", post := "__LIQUID_RESERVED_EPSILON__", la := "a" }, ["a"]), ({ lhs := "B", pre := "", post := "__LIQUID_RESERVED_EPSILON__", la := "a" }, ["a"]), ({ lhs := "S", pre := "A", post := "a", la := "__LIQUID_RESERVED_EOF__" }, ["__LIQUID_RESERVED_EOF__"]), ({ lhs := "S", pre := "B", post := "a", la := "__LIQUID_RESERVED_EOF__" }, ["__LIQUID_RESERVED_EOF__"])], queue := [3, 4] }

def gC1A4 : Automaton :=
  { rules := [{ lhs := "__LIQUID_RESERVED_AUG__", rhs := ["S"], index := 0, lookaheads := ["__LIQUID_RESERVED_EOF__"], action := none }, { lhs := "S", rhs := ["A", "a"], index := 0, lookaheads := [], action := some 0 }, { lhs := "S", rhs := ["B", "a"], index := 0, lookaheads := [], action := some 1 }, { lhs := "A", rhs := ["__LIQUID_RESERVED_EPSILON__"], index := 0, lookaheads := [], action := some 2 }, { lhs := "B", rhs := ["__LIQUID_RESERVED_EPSILON__"], index := 0, lookaheads := [], action := some 3 }], states := [{ kernel := [{ lhs := "__LIQUID_RESERVED_AUG__", rhs := ["S"], index := 0, lookaheads := ["__LIQUID_RESERVED_EOF__"], action := none }], closure := [{ lhs := "__LIQUID_RESERVED_AUG__", rhs := ["S"], index := 0, lookaheads := ["__LIQUID_RESERVED_EOF__"], action := none }, { lhs := "S", rhs := ["A", "a"], index := 0, lookaheads := ["__LIQUID_RESERVED_EOF__"], action := some 0 }, { lhs := "S", rhs := ["B", "a"], index := 0, lookaheads := ["__LIQUID_RESERVED_EOF__"], action := some 1 }, { lhs := "A", rhs := ["__LIQUID_RESERVED_EPSILON__"], index := 0, lookaheads := ["a"], action := some 2 }, { lhs := "B", rhs := ["__LIQUID_RESERVED_EPSILON__"], index := 0, lookaheads := ["a"], action := some 3 }], transitions := [("S", 1), ("A", 2), ("B", 3)] }, { kernel := [{ lhs := "__LIQUID_RESERVED_AUG__", rhs := ["S"], index := 1, lookaheads := ["__LIQUID_RESERVED_EOF__"], action := none }], closure := [{ lhs := "__LIQUID_RESERVED_AUG__", rhs := ["S"], index := 1, lookaheads := ["__LIQUID_RESERVED_EOF__"], action := none }], transitions := [] }, { kernel := [{ lhs := "S", rhs := ["A", "a"], index := 1, lookaheads := ["__LIQUID_RESERVED_EOF__"], action := some 0 }], closure := [{ lhs := "S", rhs := ["A", "a"], index := 1, lookaheads := ["__LIQUID_RESERVED_EOF__"], action := some 0 }], transitions := [("a", 4)] }, { kernel := [{ lhs := "S", rhs := ["B", "a"], index := 1, lookaheads := ["__LIQUID_RESERVED_EOF__"], action := some 1 }], closure := [{ lhs := "S", rhs := ["B", "a"], index := 1, lookaheads := ["__LIQUID_RESERVED_EOF__"], action := some 1 }], transitions := [("a", 5)] }, { kernel := [{ lhs := "S", rhs := ["A", "a"], index := 2, lookaheads := ["__LIQUID_RESERVED_EOF__"], action := some 0 }], closure := [{ lhs := "S", rhs := ["A", "a"], index := 2, lookaheads := ["__LIQUID_RESERVED_EOF__"], action := some 0 }], transitions := [] }, { kernel := [{ lhs := "S", rhs := ["B", "a"], index := 2, lookaheads := ["__LIQUID_RESERVED_EOF__"], action := some 1 }], closure := [{ lhs := "S", rhs := ["B", "a"], index := 2, lookaheads := ["__LIQUID_RESERVED_EOF__"], action := some 1 }], transitions := [] }], cache := [({ lhs := "__LIQUID_RESERVED_AUG__", pre := "", post := "S", la := "__LIQUID_RESERVED_EOF__" }, ["__LIQUID_RESERVED_EOF__"]), ({ lhs := "S", pre := "", post := "A a", la := "__LIQUID_RESERVED_EOF__" }, ["a"]), ({ lhs := "S", pre := "", post := "B a", la := "__LIQUID_RESERVED_EOF__" }, ["a"]), ({ lhs := "A", pre := "", post := "__LIQUID_RESERVED_EPSILON__", la := "a" }, ["a"]), ({ lhs := "B", pre := "", post := "__LIQUID_RESERVED_EPSILON__", la := "a" }, ["a"]), ({ lhs := "S", pre := "A", post := "a", la := "__LIQUID_RESERVED_EOF__" }, ["__LIQUID_RESERVED_EOF__"]), ({ lhs := "S", pre := "B", post := "a", la := "__LIQUID_RESERVED_EOF__" }, ["__LIQUID_RESERVED_EOF__"])], queue := [4, 5] }

def gC1A5 : Automaton :=
  { rules := [{ lhs := "__LIQUID_RESERVED_AUG__", rhs := ["S"], index := 0, lookaheads := ["__LIQUID_RESERVED_EOF__"], action := none }, { lhs := "S", rhs := ["A", "a"], index := 0, lookaheads := [], action := some 0 }, { lhs := "S", rhs := ["B", "a"], index := 0, lookaheads := [], action := some 1 }, { lhs := "A", rhs := ["__LIQUID_RESERVED_EPSILON__"], index := 0, lookaheads := [], action := some 2 }, { lhs := "B", rhs := ["__LIQUID_RESERVED_EPSILON__"], index := 0, lookaheads := [], action := some 3 }], states := [{ kernel := [{ lhs := "__LIQUID_RESERVED_AUG__", rhs := ["S"], index := 0, lookaheads := ["__LIQUID_RESERVED_EOF__"], action := none }], closure := [{ lhs := "__LIQUID_RESERVED_AUG__", rhs := ["S"], index := 0, lookaheads := ["__LIQUID_RESERVED_EOF__"], action := none }, { lhs := "S", rhs := ["A", "a"], index := 0, lookaheads := ["__LIQUID_RESERVED_EOF__"], action := some 0 }, { lhs := "S", rhs := ["B", "a"], index := 0, lookaheads := ["__LIQUID_RESERVED_EOF__"], action := some 1 }, { lhs := "A", rhs := ["__LIQUID_RESERVED_EPSILON__"], index := 0, lookaheads := ["a"], action := some 2 }, { lhs := "B", rhs := ["__LIQUID_RESERVED_EPSILON__"], index := 0, lookaheads := ["a"], action := some 3 }], transitions := [("S", 1), ("A", 2), ("B", 3)] }, { kernel := [{ lhs := "__LIQUID_RESERVED_AUG__", rhs := ["S"], index := 1, lookaheads := ["__LIQUID_RESERVED_EOF__"], action := none }], closure := [{ lhs := "__LIQUID_RESERVED_AUG__", rhs := ["S"], index := 1, lookaheads := ["__LIQUID_RESERVED_EOF__"], action := none }], transitions := [] }, { kernel := [{ lhs := "S", rhs := ["A", "a"], index := 1, lookaheads := ["__LIQUID_RESERVED_EOF__"], action := some 0 }], closure := [{ lhs := "S", rhs := ["A", "a"], index := 1, lookaheads := ["__LIQUID_RESERVED_EOF__"], action := some 0 }], transitions := [("a", 4)] }, { kernel := [{ lhs := "S", rhs := ["B", "a"], index := 1, lookaheads := ["__LIQUID_RESERVED_EOF__"], action := some 1 }], closure := [{ lhs := "S", rhs := ["B", "a"], index := 1, lookaheads := ["__LIQUID_RESERVED_EOF__"], action := some 1 }], transitions := [("a", 5)] }, { kernel := [{ lhs := "S", rhs := ["A", "a"], index := 2, lookaheads := ["__LIQUID_RESERVED_EOF__"], action := some 0 }], closure := [{ lhs := "S", rhs := ["A", "a"], index := 2, lookaheads := ["__LIQUID_RESERVED_EOF__"], action := some 0 }], transitions := [] }, { kernel := [{ lhs := "S", rhs := ["B", "a"], index := 2, lookaheads := ["__LIQUID_RESERVED_EOF__"], action := some 1 }], closure := [{ lhs := "S", rhs := ["B", "a"], index := 2, lookaheads := ["__LIQUID_RESERVED_EOF__"], action := some 1 }], transitions := [] }], cache := [({ lhs := "__LIQUID_RESERVED_AUG__", pre := "", post := "S", la := "__LIQUID_RESERVED_EOF__" }, ["__LIQUID_RESERVED_EOF__"]), ({ lhs := "S", pre := "", post := "A a", la := "__LIQUID_RESERVED_EOF__" }, ["a"]), ({ lhs := "S", pre := "", post := "B a", la := "__LIQUID_RESERVED_EOF__" }, ["a"]), ({ lhs := "A", pre := "", post := "__LIQUID_RESERVED_EPSILON__", la := "a" }, ["a"]), ({ lhs := "B", pre := "", post := "__LIQUID_RESERVED_EPSILON__", la := "a" }, ["a"]), ({ lhs := "S", pre := "A", post := "a", la := "__LIQUID_RESERVED_EOF__" }, ["__LIQUID_RESERVED_EOF__"]), ({ lhs := "S", pre := "B", post := "a", la := "__LIQUID_RESERVED_EOF__" }, ["__LIQUID_RESERVED_EOF__"])], queue := [5] }

def gC1A6 : Automaton :=
  { rules := [{ lhs := "__LIQUID_RESERVED_AUG__", rhs := ["S"], index := 0, lookaheads := ["__LIQUID_RESERVED_EOF__"], action := none }, { lhs := "S", rhs := ["A", "a"], index := 0, lookaheads := [], action := some 0 }, { lhs := "S", rhs := ["B", "a"], index := 0, lookaheads := [], action := some 1 }, { lhs := "A", rhs := ["__LIQUID_RESERVED_EPSILON__"], index := 0, lookaheads := [], action := some 2 }, { lhs := "B", rhs := ["__LIQUID_RESERVED_EPSILON__"], index := 0, lookaheads := [], action := some 3 }], states := [{ kernel := [{ lhs := "__LIQUID_RESERVED_AUG__", rhs := ["S"], index := 0, lookaheads := ["__LIQUID_RESERVED_EOF__"], action := none }], closure := [{ lhs := "__LIQUID_RESERVED_AUG__", rhs := ["S"], index := 0, lookaheads := ["__LIQUID_RESERVED_EOF__"], action := none }, { lhs := "S", rhs := ["A", "a"], index := 0, lookaheads := ["__LIQUID_RESERVED_EOF__"], action := some 0 }, { lhs := "S", rhs := ["B", "a"], index := 0, lookaheads := ["__LIQUID_RESERVED_EOF__"], action := some 1 }, { lhs := "A", rhs := ["__LIQUID_RESERVED_EPSILON__"], index := 0, lookaheads := ["a"], action := some 2 }, { lhs := "B", rhs := ["__LIQUID_RESERVED_EPSILON__"], index := 0, lookaheads := ["a"], action := some 3 }], transitions := [("S", 1), ("A", 2), ("B", 3)] }, { kernel := [{ lhs := "__LIQUID_RESERVED_AUG__", rhs := ["S"], index := 1, lookaheads := ["__LIQUID_RESERVED_EOF__"], action := none }], closure := [{ lhs := "__LIQUID_RESERVED_AUG__", rhs := ["S"], index := 1, lookaheads := ["__LIQUID_RESERVED_EOF__"], action := none }], transitions := [] }, { kernel := [{ lhs := "S", rhs := ["A", "a"], index := 1, lookaheads := ["__LIQUID_RESERVED_EOF__"], action := some 0 }], closure := [{ lhs := "S", rhs := ["A", "a"], index := 1, lookaheads := ["__LIQUID_RESERVED_EOF__"], action := some 0 }], transitions := [("a", 4)] }, { kernel := [{ lhs := "S", rhs := ["B", "a"], index := 1, lookaheads := ["__LIQUID_RESERVED_EOF__"], action := some 1 }], closure := [{ lhs := "S", rhs := ["B", "a"], index := 1, lookaheads := ["__LIQUID_RESERVED_EOF__"], action := some 1 }], transitions := [("a", 5)] }, { kernel := [{ lhs := "S", rhs := ["A", "a"], index := 2, lookaheads := ["__LIQUID_RESERVED_EOF__"], action := some 0 }], closure := [{ lhs := "S", rhs := ["A", "a"], index := 2, lookaheads := ["__LIQUID_RESERVED_EOF__"], action := some 0 }], transitions := [] }, { kernel := [{ lhs := "S", rhs := ["B", "a"], index := 2, lookaheads := ["__LIQUID_RESERVED_EOF__"], action := some 1 }], closure := [{ lhs := "S", rhs := ["B", "a"], index := 2, lookaheads := ["__LIQUID_RESERVED_EOF__"], action := some 1 }], transitions := [] }], cache := [({ lhs := "__LIQUID_RESERVED_AUG__", pre := "", post := "S", la := "__LIQUID_RESERVED_EOF__" }, ["__LIQUID_RESERVED_EOF__"]), ({ lhs := "S", pre := "", post := "A a", la := "__LIQUID_RESERVED_EOF__" }, ["a"]), ({ lhs := "S", pre := "", post := "B a", la := "__LIQUID_RESERVED_EOF__" }, ["a"]), ({ lhs := "A", pre := "", post := "__LIQUID_RESERVED_EPSILON__", la := "a" }, ["a"]), ({ lhs := "B", pre := "", post := "__LIQUID_RESERVED_EPSILON__", la := "a" }, ["a"]), ({ lhs := "S", pre := "A", post := "a", la := "__LIQUID_RESERVED_EOF__" }, ["__LIQUID_RESERVED_EOF__"]), ({ lhs := "S", pre := "B", post := "a", la := "__LIQUID_RESERVED_EOF__" }, ["__LIQUID_RESERVED_EOF__"])], queue := [] }


def gC2M : List (String × List String) :=
  [("E", ["n"])]

def gC2A0 : Automaton :=
  { rules := [{ lhs := "__LIQUID_RESERVED_AUG__", rhs := ["E"], index := 0, lookaheads := ["__LIQUID_RESERVED_EOF__"], action := none }, { lhs := "E", rhs := ["E", "p", "E"], index := 0, lookaheads := [], action := some 0 }, { lhs := "E", rhs := ["n"], index := 0, lookaheads := [], action := some 1 }], states := [{ kernel := [{ lhs := "__LIQUID_RESERVED_AUG__", rhs := ["E"], index := 0, lookaheads := ["__LIQUID_RESERVED_EOF__"], action := none }], closure := [{ lhs := "__LIQUID_RESERVED_AUG__", rhs := ["E"], index := 0, lookaheads := ["__LIQUID_RESERVED_EOF__"], action := none }, { lhs := "E", rhs := ["E", "p", "E"], index := 0, lookaheads := ["__LIQUID_RESERVED_EOF__", "p"], action := some 0 }, { lhs := "E", rhs := ["n"], index := 0, lookaheads := ["__LIQUID_RESERVED_EOF__", "p"], action := some 1 }], transitions := [] }], cache := [({ lhs := "__LIQUID_RESERVED_AUG__", pre := "", post := "E", la := "__LIQUID_RESERVED_EOF__" }, ["__LIQUID_RESERVED_EOF__"]), ({ lhs := "E", pre := "", post := "E p E", la := "__LIQUID_RESERVED_EOF__" }, ["p"]), ({ lhs := "E", pre := "", post := "n", la := "__LIQUID_RESERVED_EOF__, p" }, ["__LIQUID_RESERVED_EOF__", "p"]), ({ lhs := "E", pre := "", post := "E p E", la := "__LIQUID_RESERVED_EOF__, p" }, ["p"])], queue := [0] }

def gC2A1 : Automaton :=
  { rules := [{ lhs := "__LIQUID_RESERVED_AUG__", rhs := ["E"], index := 0, lookaheads := ["__LIQUID_RESERVED_EOF__"], action := none }, { lhs := "E", rhs := ["E", "p", "E"], index := 0, lookaheads := [], action := some 0 }, { lhs := "E", rhs := ["n"], index := 0, lookaheads := [], action := some 1 }], states := [{ kernel := [{ lhs := "__LIQUID_RESERVED_AUG__", rhs := ["E"], index := 0, lookaheads := ["__LIQUID_RESERVED_EOF__"], action := none }], closure := [{ lhs := "__LIQUID_RESERVED_AUG__", rhs := ["E"], index := 0, lookaheads := ["__LIQUID_RESERVED_EOF__"], action := none }, { lhs := "E", rhs := ["E", "p", "E"], index := 0, lookaheads := ["__LIQUID_RESERVED_EOF__", "p"], action := some 0 }, { lhs := "E", rhs := ["n"], index := 0, lookaheads := ["__LIQUID_RESERVED_EOF__", "p"], action := some 1 }], transitions := [("E", 1), ("n", 2)] }, { kernel := [{ lhs := "__LIQUID_RESERVED_AUG__", rhs := ["E"], index := 1, lookaheads := ["__LIQUID_RESERVED_EOF__"], action := none }, { lhs := "E", rhs := ["E", "p", "E"], index := 1, lookaheads := ["__LIQUID_RESERVED_EOF__", "p"], action := some 0 }], closure := [{ lhs := "__LIQUID_RESERVED_AUG__", rhs := ["E"], index := 1, lookaheads := ["__LIQUID_RESERVED_EOF__"], action := none }, { lhs := "E", rhs := ["E", "p", "E"], index := 1, lookaheads := ["__LIQUID_RESERVED_EOF__", "p"], action := some 0 }], transitions := [] }, { kernel := [{ lhs := "E", rhs := ["n"], index := 1, lookaheads := ["__LIQUID_RESERVED_EOF__", "p"], action := some 1 }], closure := [{ lhs := "E", rhs := ["n"], index := 1, lookaheads := ["__LIQUID_RESERVED_EOF__", "p"], action := some 1 }], transitions := [] }], cache := [({ lhs := "__LIQUID_RESERVED_AUG__", pre := "", post := "E", la := "__LIQUID_RESERVED_EOF__" }, ["__LIQUID_RESERVED_EOF__"]), ({ lhs := "E", pre := "", post := "E p E", la := "__LIQUID_RESERVED_EOF__" }, ["p"]), ({ lhs := "E", pre := "", post := "n", la := "__LIQUID_RESERVED_EOF__, p" }, ["__LIQUID_RESERVED_EOF__", "p"]), ({ lhs := "E", pre := "", post := "E p E", la := "__LIQUID_RESERVED_EOF__, p" }, ["p"]), ({ lhs := "E", pre := "E", post := "p E", la := "__LIQUID_RESERVED_EOF__, p" }, ["n"])], queue := [1, 2] }

def gC2A2 : Automaton :=
  { rules := [{ lhs := "__LIQUID_RESERVED_AUG__", rhs := ["E"], index := 0, lookaheads := ["__LIQUID_RESERVED_EOF__"], action := none }, { lhs := "E", rhs := ["E", "p", "E"], index := 0, lookaheads := [], action := some 0 }, { lhs := "E", rhs := ["n"], index := 0, lookaheads := [], action := some 1 }], states := [{ kernel := [{ lhs := "__LIQUID_RESERVED_AUG__", rhs := ["E"], index := 0, lookaheads := ["__LIQUID_RESERVED_EOF__"], action := none }], closure := [{ lhs := "__LIQUID_RESERVED_AUG__", rhs := ["E"], index := 0, lookaheads := ["__LIQUID_RESERVED_EOF__"], action := none }, { lhs := "E", rhs := ["E", "p", "E"], index := 0, lookaheads := ["__LIQUID_RESERVED_EOF__", "p"], action := some 0 }, { lhs := "E", rhs := ["n"], index := 0, lookaheads := ["__LIQUID_RESERVED_EOF__", "p"], action := some 1 }], transitions := [("E", 1), ("n", 2)] }, { kernel := [{ lhs := "__LIQUID_RESERVED_AUG__", rhs := ["E"], index := 1, lookaheads := ["__LIQUID_RESERVED_EOF__"], action := none }, { lhs := "E", rhs := ["E", "p", "E"], index := 1, lookaheads := ["__LIQUID_RESERVED_EOF__", "p"], action := some 0 }], closure := [{ lhs := "__LIQUID_RESERVED_AUG__", rhs := ["E"], index := 1, lookaheads := ["__LIQUID_RESERVED_EOF__"], action := none }, { lhs := "E", rhs := ["E", "p", "E"], index := 1, lookaheads := ["__LIQUID_RESERVED_EOF__", "p"], action := some 0 }], transitions := [("p", 3)] }, { kernel := [{ lhs := "E", rhs := ["n"], index := 1, lookaheads := ["__LIQUID_RESERVED_EOF__", "p"], action := some 1 }], closure := [{ lhs := "E", rhs := ["n"], index := 1, lookaheads := ["__LIQUID_RESERVED_EOF__", "p"], action := some 1 }], transitions := [] }, { kernel := [{ lhs := "E", rhs := ["E", "p", "E"], index := 2, lookaheads := ["__LIQUID_RESERVED_EOF__", "p"], action := some 0 }], closure := [{ lhs := "E", rhs := ["E", "p", "E"], index := 2, lookaheads := ["__LIQUID_RESERVED_EOF__", "p"], action := some 0 }, { lhs := "E", rhs := ["E", "p", "E"], index := 0, lookaheads := ["__LIQUID_RESERVED_EOF__", "p"], action := some 0 }, { lhs := "E", rhs := ["n"], index := 0, lookaheads := ["__LIQUID_RESERVED_EOF__", "p"], action := some 1 }], transitions := [] }], cache := [({ lhs := "__LIQUID_RESERVED_AUG__", pre := "", post := "E", la := "__LIQUID_RESERVED_EOF__" }, ["__LIQUID_RESERVED_EOF__"]), ({ lhs := "E", pre := "", post := "E p E", la := "__LIQUID_RESERVED_EOF__" }, ["p"]), ({ lhs := "E", pre := "", post := "n", la := "__LIQUID_RESERVED_EOF__, p" }, ["__LIQUID_RESERVED_EOF__", "p"]), ({ lhs := "E", pre := "", post := "E p E", la := "__LIQUID_RESERVED_EOF__, p" }, ["p"]), ({ lhs := "E", pre := "E", post := "p E", la := "__LIQUID_RESERVED_EOF__, p" }, ["n"]), ({ lhs := "E", pre := "E p", post := "E", la := "__LIQUID_RESERVED_EOF__, p" }, ["__LIQUID_RESERVED_EOF__", "p"])], queue := [2, 3] }

def gC2A3 : Automaton :=
  { rules := [{ lhs := "__LIQUID_RESERVED_AUG__", rhs := ["E"], index := 0, lookaheads := ["__LIQUID_RESERVED_EOF__"], action := none }, { lhs := "E", rhs := ["E", "p", "E"], index := 0, lookaheads := [], action := some 0 }, { lhs := "E", rhs := ["n"], index := 0, lookaheads := [], action := some 1 }], states := [{ kernel := [{ lhs := "__LIQUID_RESERVED_AUG__", rhs := ["E"], index := 0, lookaheads := ["__LIQUID_RESERVED_EOF__"], action := none }], closure := [{ lhs := "__LIQUID_RESERVED_AUG__", rhs := ["E"], index := 0, lookaheads := ["__LIQUID_RESERVED_EOF__"], action := none }, { lhs := "E", rhs := ["E", "p", "E"], index := 0, lookaheads := ["__LIQUID_RESERVED_EOF__", "p"], action := some 0 }, { lhs := "E", rhs := ["n"], index := 0, lookaheads := ["__LIQUID_RESERVED_EOF__", "p"], action := some 1 }], transitions := [("E", 1), ("n", 2)] }, { kernel := [{ lhs := "__LIQUID_RESERVED_AUG__", rhs := ["E"], index := 1, lookaheads := ["__LIQUID_RESERVED_EOF__"], action := none }, { lhs := "E", rhs := ["E", "p", "E"], index := 1, lookaheads := ["__LIQUID_RESERVED_EOF__", "p"], action := some 0 }], closure := [{ lhs := "__LIQUID_RESERVED_AUG__", rhs := ["E"], index := 1, lookaheads := ["__LIQUID_RESERVED_EOF__"], action := none }, { lhs := "E", rhs := ["E", "p", "E"], index := 1, lookaheads := ["__LIQUID_RESERVED_EOF__", "p"], action := some 0 }], transitions := [("p", 3)] }, { kernel := [{ lhs := "E", rhs := ["n"], index := 1, lookaheads := ["__LIQUID_RESERVED_EOF__", "p"], action := some 1 }], closure := [{ lhs := "E", rhs := ["n"], index := 1, lookaheads := ["__LIQUID_RESERVED_EOF__", "p"], action := some 1 }], transitions := [] }, { kernel := [{ lhs := "E", rhs := ["E", "p", "E"], index := 2, lookaheads := ["__LIQUID_RESERVED_EOF__", "p"], action := some 0 }], closure := [{ lhs := "E", rhs := ["E", "p", "E"], index := 2, lookaheads := ["__LIQUID_RESERVED_EOF__", "p"], action := some 0 }, { lhs := "E", rhs := ["E", "p", "E"], index := 0, lookaheads := ["__LIQUID_RESERVED_EOF__", "p"], action := some 0 }, { lhs := "E", rhs := ["n"], index := 0, lookaheads := ["__LIQUID_RESERVED_EOF__", "p"], action := some 1 }], transitions := [] }], cache := [({ lhs := "__LIQUID_RESERVED_AUG__", pre := "", post := "E", la := "__LIQUID_RESERVED_EOF__" }, ["__LIQUID_RESERVED_EOF__"]), ({ lhs := "E", pre := "", post := "E p E", la := "__LIQUID_RESERVED_EOF__" }, ["p"]), ({ lhs := "E", pre := "", post := "n", la := "__LIQUID_RESERVED_EOF__, p" }, ["__LIQUID_RESERVED_EOF__", "p"]), ({ lhs := "E", pre := "", post := "E p E", la := "__LIQUID_RESERVED_EOF__, p" }, ["p"]), ({ lhs := "E", pre := "E", post := "p E", la := "__LIQUID_RESERVED_EOF__, p" }, ["n"]), ({ lhs := "E", pre := "E p", post := "E", la := "__LIQUID_RESERVED_EOF__, p" }, ["__LIQUID_RESERVED_EOF__", "p"])], queue := [3] }

def gC2A4 : Automaton :=
  { rules := [{ lhs := "__LIQUID_RESERVED_AUG__", rhs := ["E"], index := 0, lookaheads := ["__LIQUID_RESERVED_EOF__"], action := none }, { lhs := "E", rhs := ["E", "p", "E"], index := 0, lookaheads := [], action := some 0 }, { lhs := "E", rhs := ["n"], index := 0, lookaheads := [], action := some 1 }], states := [{ kernel := [{ lhs := "__LIQUID_RESERVED_AUG__", rhs := ["E"], index := 0, lookaheads := ["__LIQUID_RESERVED_EOF__"], action := none }], closure := [{ lhs := "__LIQUID_RESERVED_AUG__", rhs := ["E"], index := 0, lookaheads := ["__LIQUID_RESERVED_EOF__"], action := none }, { lhs := "E", rhs := ["E", "p", "E"], index := 0, lookaheads := ["__LIQUID_RESERVED_EOF__", "p"], action := some 0 }, { lhs := "E", rhs := ["n"], index := 0, lookaheads := ["__LIQUID_RESERVED_EOF__", "p"], action := some 1 }], transitions := [("E", 1), ("n", 2)] }, { kernel := [{ lhs := "__LIQUID_RESERVED_AUG__", rhs := ["E"], index := 1, lookaheads := ["__LIQUID_RESERVED_EOF__"], action := none }, { lhs := "E", rhs := ["E", "p", "E"], index := 1, lookaheads := ["__LIQUID_RESERVED_EOF__", "p"], action := some 0 }], closure := [{ lhs := "__LIQUID_RESERVED_AUG__", rhs := ["E"], index := 1, lookaheads := ["__LIQUID_RESERVED_EOF__"], action := none }, { lhs := "E", rhs := ["E", "p", "E"], index := 1, lookaheads := ["__LIQUID_RESERVED_EOF__", "p"], action := some 0 }], transitions := [("p", 3)] }, { kernel := [{ lhs := "E", rhs := ["n"], index := 1, lookaheads := ["__LIQUID_RESERVED_EOF__", "p"], action := some 1 }], closure := [{ lhs := "E", rhs := ["n"], index := 1, lookaheads := ["__LIQUID_RESERVED_EOF__", "p"], action := some 1 }], transitions := [] }, { kernel := [{ lhs := "E", rhs := ["E", "p", "E"], index := 2, lookaheads := ["__LIQUID_RESERVED_EOF__", "p"], action := some 0 }], closure := [{ lhs := "E", rhs := ["E", "p", "E"], index := 2, lookaheads := ["__LIQUID_RESERVED_EOF__", "p"], action := some 0 }, { lhs := "E", rhs := ["E", "p", "E"], index := 0, lookaheads := ["__LIQUID_RESERVED_EOF__", "p"], action := some 0 }, { lhs := "E", rhs := ["n"], index := 0, lookaheads := ["__LIQUID_RESERVED_EOF__", "p"], action := some 1 }], transitions := [("E", 4), ("n", 2)] }, { kernel := [{ lhs := "E", rhs := ["E", "p", "E"], index := 3, lookaheads := ["__LIQUID_RESERVED_EOF__", "p"], action := some 0 }, { lhs := "E", rhs := ["E", "p", "E"], index := 1, lookaheads := ["__LIQUID_RESERVED_EOF__", "p"], action := some 0 }], closure := [{ lhs := "E", rhs := ["E", "p", "E"], index := 3, lookaheads := ["__LIQUID_RESERVED_EOF__", "p"], action := some 0 }, { lhs := "E", rhs := ["E", "p", "E"], index := 1, lookaheads := ["__LIQUID_RESERVED_EOF__", "p"], action := some 0 }], transitions := [] }], cache := [({ lhs := "__LIQUID_RESERVED_AUG__", pre := "", post := "E", la := "__LIQUID_RESERVED_EOF__" }, ["__LIQUID_RESERVED_EOF__"]), ({ lhs := "E", pre := "", post := "E p E", la := "__LIQUID_RESERVED_EOF__" }, ["p"]), ({ lhs := "E", pre := "", post := "n", la := "__LIQUID_RESERVED_EOF__, p" }, ["__LIQUID_RESERVED_EOF__", "p"]), ({ lhs := "E", pre := "", post := "E p E", la := "__LIQUID_RESERVED_EOF__, p" }, ["p"]), ({ lhs := "E", pre := "E", post := "p E", la := "__LIQUID_RESERVED_EOF__, p" }, ["n"]), ({ lhs := "E", pre := "E p", post := "E", la := "__LIQUID_RESERVED_EOF__, p" }, ["__LIQUID_RESERVED_EOF__", "p"])], queue := [4] }

def gC2A5 : Automaton :=
  { rules := [{ lhs := "__LIQUID_RESERVED_AUG__", rhs := ["E"], index := 0, lookaheads := ["__LIQUID_RESERVED_EOF__"], action := none }, { lhs := "E", rhs := ["E", "p", "E"], index := 0, lookaheads := [], action := some 0 }, { lhs := "E", rhs := ["n"], index := 0, lookaheads := [], action := some 1 }], states := [{ kernel := [{ lhs := "__LIQUID_RESERVED_AUG__", rhs := ["E"], index := 0, lookaheads := ["__LIQUID_RESERVED_EOF__"], action := none }], closure := [{ lhs := "__LIQUID_RESERVED_AUG__", rhs := ["E"], index := 0, lookaheads := ["__LIQUID_RESERVED_EOF__"], action := none }, { lhs := "E", rhs := ["E", "p", "E"], index := 0, lookaheads := ["__LIQUID_RESERVED_EOF__", "p"], action := some 0 }, { lhs := "E", rhs := ["n"], index := 0, lookaheads := ["__LIQUID_RESERVED_EOF__", "p"], action := some 1 }], transitions := [("E", 1), ("n", 2)] }, { kernel := [{ lhs := "__LIQUID_RESERVED_AUG__", rhs := ["E"], index := 1, lookaheads := ["__LIQUID_RESERVED_EOF__"], action := none }, { lhs := "E", rhs := ["E", "p", "E"], index := 1, lookaheads := ["__LIQUID_RESERVED_EOF__", "p"], action := some 0 }], closure := [{ lhs := "__LIQUID_RESERVED_AUG__", rhs := ["E"], index := 1, lookaheads := ["__LIQUID_RESERVED_EOF__"], action := none }, { lhs := "E", rhs := ["E", "p", "E"], index := 1, lookaheads := ["__LIQUID_RESERVED_EOF__", "p"], action := some 0 }], transitions := [("p", 3)] }, { kernel := [{ lhs := "E", rhs := ["n"], index := 1, lookaheads := ["__LIQUID_RESERVED_EOF__", "p"], action := some 1 }], closure := [{ lhs := "E", rhs := ["n"], index := 1, lookaheads := ["__LIQUID_RESERVED_EOF__", "p"], action := some 1 }], transitions := [] }, { kernel := [{ lhs := "E", rhs := ["E", "p", "E"], index := 2, lookaheads := ["__LIQUID_RESERVED_EOF__", "p"], action := some 0 }], closure := [{ lhs := "E", rhs := ["E", "p", "E"], index := 2, lookaheads := ["__LIQUID_RESERVED_EOF__", "p"], action := some 0 }, { lhs := "E", rhs := ["E", "p", "E"], index := 0, lookaheads := ["__LIQUID_RESERVED_EOF__", "p"], action := some 0 }, { lhs := "E", rhs := ["n"], index := 0, lookaheads := ["__LIQUID_RESERVED_EOF__", "p"], action := some 1 }], transitions := [("E", 4), ("n", 2)] }, { kernel := [{ lhs := "E", rhs := ["E", "p", "E"], index := 3, lookaheads := ["__LIQUID_RESERVED_EOF__", "p"], action := some 0 }, { lhs := "E", rhs := ["E", "p", "E"], index := 1, lookaheads := ["__LIQUID_RESERVED_EOF__", "p"], action := some 0 }], closure := [{ lhs := "E", rhs := ["E", "p", "E"], index := 3, lookaheads := ["__LIQUID_RESERVED_EOF__", "p"], action := some 0 }, { lhs := "E", rhs := ["E", "p", "E"], index := 1, lookaheads := ["__LIQUID_RESERVED_EOF__", "p"], action := some 0 }], transitions := [("p", 3)] }], cache := [({ lhs := "__LIQUID_RESERVED_AUG__", pre := "", post := "E", la := "__LIQUID_RESERVED_EOF__" }, ["__LIQUID_RESERVED_EOF__"]), ({ lhs := "E", pre := "", post := "E p E", la := "__LIQUID_RESERVED_EOF__" }, ["p"]), ({ lhs := "E", pre := "", post := "n", la := "__LIQUID_RESERVED_EOF__, p" }, ["__LIQUID_RESERVED_EOF__", "p"]), ({ lhs := "E", pre := "", post := "E p E", la := "__LIQUID_RESERVED_EOF__, p" }, ["p"]), ({ lhs := "E", pre := "E", post := "p E", la := "__LIQUID_RESERVED_EOF__, p" }, ["n"]), ({ lhs := "E", pre := "E p", post := "E", la := "__LIQUID_RESERVED_EOF__, p" }, ["__LIQUID_RESERVED_EOF__", "p"])], queue := [] }


def gC4M : List (String × List String) :=
  [("S", ["a"]), ("A", ["a"]), ("B", ["a"])]

def gC4A0 : Automaton :=
  { rules := [{ lhs := "__LIQUID_RESERVED_AUG__", rhs := ["S"], index := 0, lookaheads := ["__LIQUID_RESERVED_EOF__"], action := none }, { lhs := "S", rhs := ["A"], index := 0, lookaheads := [], action := some 0 }, { lhs := "S", rhs := ["B"], index := 0, lookaheads := [], action := some 1 }, { lhs := "A", rhs := ["a"], index := 0, lookaheads := [], action := some 2 }, { lhs := "B", rhs := ["a"], index := 0, lookaheads := [], action := some 3 }], states := [{ kernel := [{ lhs := "__LIQUID_RESERVED_AUG__", rhs := ["S"], index := 0, lookaheads := ["__LIQUID_RESERVED_EOF__"], action := none }], closure := [{ lhs := "__LIQUID_RESERVED_AUG__", rhs := ["S"], index := 0, lookaheads := ["__LIQUID_RESERVED_EOF__"], action := none }, { lhs := "S", rhs := ["A"], index := 0, lookaheads := ["__LIQUID_RESERVED_EOF__"], action := some 0 }, { lhs := "S", rhs := ["B"], index := 0, lookaheads := ["__LIQUID_RESERVED_EOF__"], action := some 1 }, { lhs := "A", rhs := ["a"], index := 0, lookaheads := ["__LIQUID_RESERVED_EOF__"], action := some 2 }, { lhs := "B", rhs := ["a"], index := 0, lookaheads := ["__LIQUID_RESERVED_EOF__"], action := some 3 }], transitions := [] }], cache := [({ lhs := "__LIQUID_RESERVED_AUG__", pre := "", post := "S", la := "__LIQUID_RESERVED_EOF__" }, ["__LIQUID_RESERVED_EOF__"]), ({ lhs := "S", pre := "", post := "A", la := "__LIQUID_RESERVED_EOF__" }, ["__LIQUID_RESERVED_EOF__"]), ({ lhs := "S", pre := "", post := "B", la := "__LIQUID_RESERVED_EOF__" }, ["__LIQUID_RESERVED_EOF__"]), ({ lhs := "A", pre := "", post := "a", la := "__LIQUID_RESERVED_EOF__" }, ["__LIQUID_RESERVED_EOF__"]), ({ lhs := "B", pre := "", post := "a", la := "__LIQUID_RESERVED_EOF__" }, ["__LIQUID_RESERVED_EOF__"])], queue := [0] }

def gC4A1 : Automaton :=
  { rules := [{ lhs := "__LIQUID_RESERVED_AUG__", rhs := ["S"], index := 0, lookaheads := ["__LIQUID_RESERVED_EOF__"], action := none }, { lhs := "S", rhs := ["A"], index := 0, lookaheads := [], action := some 0 }, { lhs := "S", rhs := ["B"], index := 0, lookaheads := [], action := some 1 }, { lhs := "A", rhs := ["a"], index := 0, lookaheads := [], action := some 2 }, { lhs := "B", rhs := ["a"], index := 0, lookaheads := [], action := some 3 }], states := [{ kernel := [{ lhs := "__LIQUID_RESERVED_AUG__", rhs := ["S"], index := 0, lookaheads := ["__LIQUID_RESERVED_EOF__"], action := none }], closure := [{ lhs := "__LIQUID_RESERVED_AUG__", rhs := ["S"], index := 0, lookaheads := ["__LIQUID_RESERVED_EOF__"], action := none }, { lhs := "S", rhs := ["A"], index := 0, lookaheads := ["__LIQUID_RESERVED_EOF__"], action := some 0 }, { lhs := "S", rhs := ["B"], index := 0, lookaheads := ["__LIQUID_RESERVED_EOF__"], action := some 1 }, { lhs := "A", rhs := ["a"], index := 0, lookaheads := ["__LIQUID_RESERVED_EOF__"], action := some 2 }, { lhs := "B", rhs := ["a"], index := 0, lookaheads := ["__LIQUID_RESERVED_EOF__"], action := some 3 }], transitions := [("S", 1), ("A", 2), ("B", 3), ("a", 4)] }, { kernel := [{ lhs := "__LIQUID_RESERVED_AUG__", rhs := ["S"], index := 1, lookaheads := ["__LIQUID_RESERVED_EOF__"], action := none }], closure := [{ lhs := "__LIQUID_RESERVED_AUG__", rhs := ["S"], index := 1, lookaheads := ["__LIQUID_RESERVED_EOF__"], action := none }], transitions := [] }, { kernel := [{ lhs := "S", rhs := ["A"], index := 1, lookaheads := ["__LIQUID_RESERVED_EOF__"], action := some 0 }], closure := [{ lhs := "S", rhs := ["A"], index := 1, lookaheads := ["__LIQUID_RESERVED_EOF__"], action := some 0 }], transitions := [] }, { kernel := [{ lhs := "S", rhs := ["B"], index := 1, lookaheads := ["__LIQUID_RESERVED_EOF__"], action := some 1 }], closure := [{ lhs := "S", rhs := ["B"], index := 1, lookaheads := ["__LIQUID_RESERVED_EOF__"], action := some 1 }], transitions := [] }, { kernel := [{ lhs := "A", rhs := ["a"], index := 1, lookaheads := ["__LIQUID_RESERVED_EOF__"], action := some 2 }, { lhs := "B", rhs := ["a"], index := 1, lookaheads := ["__LIQUID_RESERVED_EOF__"], action := some 3 }], closure := [{ lhs := "A", rhs := ["a"], index := 1, lookaheads := ["__LIQUID_RESERVED_EOF__"], action := some 2 }, { lhs := "B", rhs := ["a"], index := 1, lookaheads := ["__LIQUID_RESERVED_EOF__"], action := some 3 }], transitions := [] }], cache := [({ lhs := "__LIQUID_RESERVED_AUG__", pre := "", post := "S", la := "__LIQUID_RESERVED_EOF__" }, ["__LIQUID_RESERVED_EOF__"]), ({ lhs := "S", pre := "", post := "A", la := "__LIQUID_RESERVED_EOF__" }, ["__LIQUID_RESERVED_EOF__"]), ({ lhs := "S", pre := "", post := "B", la := "__LIQUID_RESERVED_EOF__" }, ["__LIQUID_RESERVED_EOF__"]), ({ lhs := "A", pre := "", post := "a", la := "__LIQUID_RESERVED_EOF__" }, ["__LIQUID_RESERVED_EOF__"]), ({ lhs := "B", pre := "", post := "a", la := "__LIQUID_RESERVED_EOF__" }, ["__LIQUID_RESERVED_EOF__"])], queue := [1, 2, 3, 4] }

def gC4A2 : Automaton :=
  { rules := [{ lhs := "__LIQUID_RESERVED_AUG__", rhs := ["S"], index := 0, lookaheads := ["__LIQUID_RESERVED_EOF__"], action := none }, { lhs := "S", rhs := ["A"], index := 0, lookaheads := [], action := some 0 }, { lhs := "S", rhs := ["B"], index := 0, lookaheads := [], action := some 1 }, { lhs := "A", rhs := ["a"], index := 0, lookaheads := [], action := some 2 }, { lhs := "B", rhs := ["a"], index := 0, lookaheads := [], action := some 3 }], states := [{ kernel := [{ lhs := "__LIQUID_RESERVED_AUG__", rhs := ["S"], index := 0, lookaheads := ["__LIQUID_RESERVED_EOF__"], action := none }], closure := [{ lhs := "__LIQUID_RESERVED_AUG__", rhs := ["S"], index := 0, lookaheads := ["__LIQUID_RESERVED_EOF__"], action := none }, { lhs := "S", rhs := ["A"], index := 0, lookaheads := ["__LIQUID_RESERVED_EOF__"], action := some 0 }, { lhs := "S", rhs := ["B"], index := 0, lookaheads := ["__LIQUID_RESERVED_EOF__"], action := some 1 }, { lhs := "A", rhs := ["a"], index := 0, lookaheads := ["__LIQUID_RESERVED_EOF__"], action := some 2 }, { lhs := "B", rhs := ["a"], index := 0, lookaheads := ["__LIQUID_RESERVED_EOF__"], action := some 3 }], transitions := [("S", 1), ("A", 2), ("B", 3), ("a", 4)] }, { kernel := [{ lhs := "__LIQUID_RESERVED_AUG__", rhs := ["S"], index := 1, lookaheads := ["__LIQUID_RESERVED_EOF__"], action := none }], closure := [{ lhs := "__LIQUID_RESERVED_AUG__", rhs := ["S"], index := 1, lookaheads := ["__LIQUID_RESERVED_EOF__"], action := none }], transitions := [] }, { kernel := [{ lhs := "S", rhs := ["A"], index := 1, lookaheads := ["__LIQUID_RESERVED_EOF__"], action := some 0 }], closure := [{ lhs := "S", rhs := ["A"], index := 1, lookaheads := ["__LIQUID_RESERVED_EOF__"], action := some 0 }], transitions := [] }, { kernel := [{ lhs := "S", rhs := ["B"], index := 1, lookaheads := ["__LIQUID_RESERVED_EOF__"], action := some 1 }], closure := [{ lhs := "S", rhs := ["B"], index := 1, lookaheads := ["__LIQUID_RESERVED_EOF__"], action := some 1 }], transitions := [] }, { kernel := [{ lhs := "A", rhs := ["a"], index := 1, lookaheads := ["__LIQUID_RESERVED_EOF__"], action := some 2 }, { lhs := "B", rhs := ["a"], index := 1, lookaheads := ["__LIQUID_RESERVED_EOF__"], action := some 3 }], closure := [{ lhs := "A", rhs := ["a"], index := 1, lookaheads := ["__LIQUID_RESERVED_EOF__"], action := some 2 }, { lhs := "B", rhs := ["a"], index := 1, lookaheads := ["__LIQUID_RESERVED_EOF__"], action := some 3 }], transitions := [] }], cache := [({ lhs := "__LIQUID_RESERVED_AUG__", pre := "", post := "S", la := "__LIQUID_RESERVED_EOF__" }, ["__LIQUID_RESERVED_EOF__"]), ({ lhs := "S", pre := "", post := "A", la := "__LIQUID_RESERVED_EOF__" }, ["__LIQUID_RESERVED_EOF__"]), ({ lhs := "S", pre := "", post := "B", la := "__LIQUID_RESERVED_EOF__" }, ["__LIQUID_RESERVED_EOF__"]), ({ lhs := "A", pre := "", post := "a", la := "__LIQUID_RESERVED_EOF__" }, ["__LIQUID_RESERVED_EOF__"]), ({ lhs := "B", pre := "", post := "a", la := "__LIQUID_RESERVED_EOF__" }, ["__LIQUID_RESERVED_EOF__"])], queue := [2, 3, 4] }

def gC4A3 : Automaton :=
  { rules := [{ lhs := "__LIQUID_RESERVED_AUG__", rhs := ["S"], index := 0, lookaheads := ["__LIQUID_RESERVED_EOF__"], action := none }, { lhs := "S", rhs := ["A"], index := 0, lookaheads := [], action := some 0 }, { lhs := "S", rhs := ["B"], index := 0, lookaheads := [], action := some 1 }, { lhs := "A", rhs := ["a"], index := 0, lookaheads := [], action := some 2 }, { lhs := "B", rhs := ["a"], index := 0, lookaheads := [], action := some 3 }], states := [{ kernel := [{ lhs := "__LIQUID_RESERVED_AUG__", rhs := ["S"], index := 0, lookaheads := ["__LIQUID_RESERVED_EOF__"], action := none }], closure := [{ lhs := "__LIQUID_RESERVED_AUG__", rhs := ["S"], index := 0, lookaheads := ["__LIQUID_RESERVED_EOF__"], action := none }, { lhs := "S", rhs := ["A"], index := 0, lookaheads := ["__LIQUID_RESERVED_EOF__"], action := some 0 }, { lhs := "S", rhs := ["B"], index := 0, lookaheads := ["__LIQUID_RESERVED_EOF__"], action := some 1 }, { lhs := "A", rhs := ["a"], index := 0, lookaheads := ["__LIQUID_RESERVED_EOF__"], action := some 2 }, { lhs := "B", rhs := ["a"], index := 0, lookaheads := ["__LIQUID_RESERVED_EOF__"], action := some 3 }], transitions := [("S", 1), ("A", 2), ("B", 3), ("a", 4)] }, { kernel := [{ lhs := "__LIQUID_RESERVED_AUG__", rhs := ["S"], index := 1, lookaheads := ["__LIQUID_RESERVED_EOF__"], action := none }], closure := [{ lhs := "__LIQUID_RESERVED_AUG__", rhs := ["S"], index := 1, lookaheads := ["__LIQUID_RESERVED_EOF__"], action := none }], transitions := [] }, { kernel := [{ lhs := "S", rhs := ["A"], index := 1, lookaheads := ["__LIQUID_RESERVED_EOF__"], action := some 0 }], closure := [{ lhs := "S", rhs := ["A"], index := 1, lookaheads := ["__LIQUID_RESERVED_EOF__"], action := some 0 }], transitions := [] }, { kernel := [{ lhs := "S", rhs := ["B"], index := 1, lookaheads := ["__LIQUID_RESERVED_EOF__"], action := some 1 }], closure := [{ lhs := "S", rhs := ["B"], index := 1, lookaheads := ["__LIQUID_RESERVED_EOF__"], action := some 1 }], transitions := [] }, { kernel := [{ lhs := "A", rhs := ["a"], index := 1, lookaheads := ["__LIQUID_RESERVED_EOF__"], action := some 2 }, { lhs := "B", rhs := ["a"], index := 1, lookaheads := ["__LIQUID_RESERVED_EOF__"], action := some 3 }], closure := [{ lhs := "A", rhs := ["a"], index := 1, lookaheads := ["__LIQUID_RESERVED_EOF__"], action := some 2 }, { lhs := "B", rhs := ["a"], index := 1, lookaheads := ["__LIQUID_RESERVED_EOF__"], action := some 3 }], transitions := [] }], cache := [({ lhs := "__LIQUID_RESERVED_AUG__", pre := "", post := "S", la := "__LIQUID_RESERVED_EOF__" }, ["__LIQUID_RESERVED_EOF__"]), ({ lhs := "S", pre := "", post := "A", la := "__LIQUID_RESERVED_EOF__" }, ["__LIQUID_RESERVED_EOF__"]), ({ lhs := "S", pre := "", post := "B", la := "__LIQUID_RESERVED_EOF__" }, ["__LIQUID_RESERVED_EOF__"]), ({ lhs := "A", pre := "", post := "a", la := "__LIQUID_RESERVED_EOF__" }, ["__LIQUID_RESERVED_EOF__"]), ({ lhs := "B", pre := "", post := "a", la := "__LIQUID_RESERVED_EOF__" }, ["__LIQUID_RESERVED_EOF__"])], queue := [3, 4] }

def gC4A4 : Automaton :=
  { rules := [{ lhs := "__LIQUID_RESERVED_AUG__", rhs := ["S"], index := 0, lookaheads := ["__LIQUID_RESERVED_EOF__"], action := none }, { lhs := "S", rhs := ["A"], index := 0, lookaheads := [], action := some 0 }, { lhs := "S", rhs := ["B"], index := 0, lookaheads := [], action := some 1 }, { lhs := "A", rhs := ["a"], index := 0, lookaheads := [], action := some 2 }, { lhs := "B", rhs := ["a"], index := 0, lookaheads := [], action := some 3 }], states := [{ kernel := [{ lhs := "__LIQUID_RESERVED_AUG__", rhs := ["S"], index := 0, lookaheads := ["__LIQUID_RESERVED_EOF__"], action := none }], closure := [{ lhs := "__LIQUID_RESERVED_AUG__", rhs := ["S"], index := 0, lookaheads := ["__LIQUID_RESERVED_EOF__"], action := none }, { lhs := "S", rhs := ["A"], index := 0, lookaheads := ["__LIQUID_RESERVED_EOF__"], action := some 0 }, { lhs := "S", rhs := ["B"], index := 0, lookaheads := ["__LIQUID_RESERVED_EOF__"], action := some 1 }, { lhs := "A", rhs := ["a"], index := 0, lookaheads := ["__LIQUID_RESERVED_EOF__"], action := some 2 }, { lhs := "B", rhs := ["a"], index := 0, lookaheads := ["__LIQUID_RESERVED_EOF__"], action := some 3 }], transitions := [("S", 1), ("A", 2), ("B", 3), ("a", 4)] }, { kernel := [{ lhs := "__LIQUID_RESERVED_AUG__", rhs := ["S"], index := 1, lookaheads := ["__LIQUID_RESERVED_EOF__"], action := none }], closure := [{ lhs := "__LIQUID_RESERVED_AUG__", rhs := ["S"], index := 1, lookaheads := ["__LIQUID_RESERVED_EOF__"], action := none }], transitions := [] }, { kernel := [{ lhs := "S", rhs := ["A"], index := 1, lookaheads := ["__LIQUID_RESERVED_EOF__"], action := some 0 }], closure := [{ lhs := "S", rhs := ["A"], index := 1, lookaheads := ["__LIQUID_RESERVED_EOF__"], action := some 0 }], transitions := [] }, { kernel := [{ lhs := "S", rhs := ["B"], index := 1, lookaheads := ["__LIQUID_RESERVED_EOF__"], action := some 1 }], closure := [{ lhs := "S", rhs := ["B"], index := 1, lookaheads := ["__LIQUID_RESERVED_EOF__"], action := some 1 }], transitions := [] }, { kernel := [{ lhs := "A", rhs := ["a"], index := 1, lookaheads := ["__LIQUID_RESERVED_EOF__"], action := some 2 }, { lhs := "B", rhs := ["a"], index := 1, lookaheads := ["__LIQUID_RESERVED_EOF__"], action := some 3 }], closure := [{ lhs := "A", rhs := ["a"], index := 1, lookaheads := ["__LIQUID_RESERVED_EOF__"], action := some 2 }, { lhs := "B", rhs := ["a"], index := 1, lookaheads := ["__LIQUID_RESERVED_EOF__"], action := some 3 }], transitions := [] }], cache := [({ lhs := "__LIQUID_RESERVED_AUG__", pre := "", post := "S", la := "__LIQUID_RESERVED_EOF__" }, ["__LIQUID_RESERVED_EOF__"]), ({ lhs := "S", pre := "", post := "A", la := "__LIQUID_RESERVED_EOF__" }, ["__LIQUID_RESERVED_EOF__"]), ({ lhs := "S", pre := "", post := "B", la := "__LIQUID_RESERVED_EOF__" }, ["__LIQUID_RESERVED_EOF__"]), ({ lhs := "A", pre := "", post := "a", la := "__LIQUID_RESERVED_EOF__" }, ["__LIQUID_RESERVED_EOF__"]), ({ lhs := "B", pre := "", post := "a", la := "__LIQUID_RESERVED_EOF__" }, ["__LIQUID_RESERVED_EOF__"])], queue := [4] }

def gC4A5 : Automaton :=
  { rules := [{ lhs := "__LIQUID_RESERVED_AUG__", rhs := ["S"], index := 0, lookaheads := ["__LIQUID_RESERVED_EOF__"], action := none }, { lhs := "S", rhs := ["A"], index := 0, lookaheads := [], action := some 0 }, { lhs := "S", rhs := ["B"], index := 0, lookaheads := [], action := some 1 }, { lhs := "A", rhs := ["a"], index := 0, lookaheads := [], action := some 2 }, { lhs := "B", rhs := ["a"], index := 0, lookaheads := [], action := some 3 }], states := [{ kernel := [{ lhs := "__LIQUID_RESERVED_AUG__", rhs := ["S"], index := 0, lookaheads := ["__LIQUID_RESERVED_EOF__"], action := none }], closure := [{ lhs := "__LIQUID_RESERVED_AUG__", rhs := ["S"], index := 0, lookaheads := ["__LIQUID_RESERVED_EOF__"], action := none }, { lhs := "S", rhs := ["A"], index := 0, lookaheads := ["__LIQUID_RESERVED_EOF__"], action := some 0 }, { lhs := "S", rhs := ["B"], index := 0, lookaheads := ["__LIQUID_RESERVED_EOF__"], action := some 1 }, { lhs := "A", rhs := ["a"], index := 0, lookaheads := ["__LIQUID_RESERVED_EOF__"], action := some 2 }, { lhs := "B", rhs := ["a"], index := 0, lookaheads := ["__LIQUID_RESERVED_EOF__"], action := some 3 }], transitions := [("S", 1), ("A", 2), ("B", 3), ("a", 4)] }, { kernel := [{ lhs := "__LIQUID_RESERVED_AUG__", rhs := ["S"], index := 1, lookaheads := ["__LIQUID_RESERVED_EOF__"], action := none }], closure := [{ lhs := "__LIQUID_RESERVED_AUG__", rhs := ["S"], index := 1, lookaheads := ["__LIQUID_RESERVED_EOF__"], action := none }], transitions := [] }, { kernel := [{ lhs := "S", rhs := ["A"], index := 1, lookaheads := ["__LIQUID_RESERVED_EOF__"], action := some 0 }], closure := [{ lhs := "S", rhs := ["A"], index := 1, lookaheads := ["__LIQUID_RESERVED_EOF__"], action := some 0 }], transitions := [] }, { kernel := [{ lhs := "S", rhs := ["B"], index := 1, lookaheads := ["__LIQUID_RESERVED_EOF__"], action := some 1 }], closure := [{ lhs := "S", rhs := ["B"], index := 1, lookaheads := ["__LIQUID_RESERVED_EOF__"], action := some 1 }], transitions := [] }, { kernel := [{ lhs := "A", rhs := ["a"], index := 1, lookaheads := ["__LIQUID_RESERVED_EOF__"], action := some 2 }, { lhs := "B", rhs := ["a"], index := 1, lookaheads := ["__LIQUID_RESERVED_EOF__"], action := some 3 }], closure := [{ lhs := "A", rhs := ["a"], index := 1, lookaheads := ["__LIQUID_RESERVED_EOF__"], action := some 2 }, { lhs := "B", rhs := ["a"], index := 1, lookaheads := ["__LIQUID_RESERVED_EOF__"], action := some 3 }], transitions := [] }], cache := [({ lhs := "__LIQUID_RESERVED_AUG__", pre := "", post := "S", la := "__LIQUID_RESERVED_EOF__" }, ["__LIQUID_RESERVED_EOF__"]), ({ lhs := "S", pre := "", post := "A", la := "__LIQUID_RESERVED_EOF__" }, ["__LIQUID_RESERVED_EOF__"]), ({ lhs := "S", pre := "", post := "B", la := "__LIQUID_RESERVED_EOF__" }, ["__LIQUID_RESERVED_EOF__"]), ({ lhs := "A", pre := "", post := "a", la := "__LIQUID_RESERVED_EOF__" }, ["__LIQUID_RESERVED_EOF__"]), ({ lhs := "B", pre := "", post := "a", la := "__LIQUID_RESERVED_EOF__" }, ["__LIQUID_RESERVED_EOF__"])], queue := [] }


def gC5M : List (String × List String) :=
  [("S", ["a", "b"]), ("D", ["z"]), ("A", ["z"]), ("B", ["z"])]

def gC5A0 : Automaton :=
  { rules := [{ lhs := "__LIQUID_RESERVED_AUG__", rhs := ["S"], index := 0, lookaheads := ["__LIQUID_RESERVED_EOF__"], action := none }, { lhs := "S", rhs := ["a", "D"], index := 0, lookaheads := [], action := some 0 }, { lhs := "S", rhs := ["b", "A"], index := 0, lookaheads := [], action := some 1 }, { lhs := "D", rhs := ["A"], index := 0, lookaheads := [], action := some 2 }, { lhs := "D", rhs := ["B"], index := 0, lookaheads := [], action := some 3 }, { lhs := "A", rhs := ["z"], index := 0, lookaheads := [], action := some 4 }, { lhs := "B", rhs := ["z"], index := 0, lookaheads := [], action := some 5 }], states := [{ kernel := [{ lhs := "__LIQUID_RESERVED_AUG__", rhs := ["S"], index := 0, lookaheads := ["__LIQUID_RESERVED_EOF__"], action := none }], closure := [{ lhs := "__LIQUID_RESERVED_AUG__", rhs := ["S"], index := 0, lookaheads := ["__LIQUID_RESERVED_EOF__"], action := none }, { lhs := "S", rhs := ["a", "D"], index := 0, lookaheads := ["__LIQUID_RESERVED_EOF__"], action := some 0 }, { lhs := "S", rhs := ["b", "A"], index := 0, lookaheads := ["__LIQUID_RESERVED_EOF__"], action := some 1 }], transitions := [] }], cache := [({ lhs := "__LIQUID_RESERVED_AUG__", pre := "", post := "S", la := "__LIQUID_RESERVED_EOF__" }, ["__LIQUID_RESERVED_EOF__"]), ({ lhs := "S", pre := "", post := "a D", la := "__LIQUID_RESERVED_EOF__" }, ["z"]), ({ lhs := "S", pre := "", post := "b A", la := "__LIQUID_RESERVED_EOF__" }, ["z"])], queue := [0] }

def gC5A1 : Automaton :=
  { rules := [{ lhs := "__LIQUID_RESERVED_AUG__", rhs := ["S"], index := 0, lookaheads := ["__LIQUID_RESERVED_EOF__"], action := none }, { lhs := "S", rhs := ["a", "D"], index := 0, lookaheads := [], action := some 0 }, { lhs := "S", rhs := ["b", "A"], index := 0, lookaheads := [], action := some 1 }, { lhs := "D", rhs := ["A"], index := 0, lookaheads := [], action := some 2 }, { lhs := "D", rhs := ["B"], index := 0, lookaheads := [], action := some 3 }, { lhs := "A", rhs := ["z"], index := 0, lookaheads := [], action := some 4 }, { lhs := "B", rhs := ["z"], index := 0, lookaheads := [], action := some 5 }], states := [{ kernel := [{ lhs := "__LIQUID_RESERVED_AUG__", rhs := ["S"], index := 0, lookaheads := ["__LIQUID_RESERVED_EOF__"], action := none }], closure := [{ lhs := "__LIQUID_RESERVED_AUG__", rhs := ["S"], index := 0, lookaheads := ["__LIQUID_RESERVED_EOF__"], action := none }, { lhs := "S", rhs := ["a", "D"], index := 0, lookaheads := ["__LIQUID_RESERVED_EOF__"], action := some 0 }, { lhs := "S", rhs := ["b", "A"], index := 0, lookaheads := ["__LIQUID_RESERVED_EOF__"], action := some 1 }], transitions := [("S", 1), ("a", 2), ("b", 3)] }, { kernel := [{ lhs := "__LIQUID_RESERVED_AUG__", rhs := ["S"], index := 1, lookaheads := ["__LIQUID_RESERVED_EOF__"], action := none }], closure := [{ lhs := "__LIQUID_RESERVED_AUG__", rhs := ["S"], index := 1, lookaheads := ["__LIQUID_RESERVED_EOF__"], action := none }], transitions := [] }, { kernel := [{ lhs := "S", rhs := ["a", "D"], index := 1, lookaheads := ["__LIQUID_RESERVED_EOF__"], action := some 0 }], closure := [{ lhs := "S", rhs := ["a", "D"], index := 1, lookaheads := ["__LIQUID_RESERVED_EOF__"], action := some 0 }, { lhs := "D", rhs := ["A"], index := 0, lookaheads := ["__LIQUID_RESERVED_EOF__"], action := some 2 }, { lhs := "D", rhs := ["B"], index := 0, lookaheads := ["__LIQUID_RESERVED_EOF__"], action := some 3 }, { lhs := "A", rhs := ["z"], index := 0, lookaheads := ["__LIQUID_RESERVED_EOF__"], action := some 4 }, { lhs := "B", rhs := ["z"], index := 0, lookaheads := ["__LIQUID_RESERVED_EOF__"], action := some 5 }], transitions := [] }, { kernel := [{ lhs := "S", rhs := ["b", "A"], index := 1, lookaheads := ["__LIQUID_RESERVED_EOF__"], action := some 1 }], closure := [{ lhs := "S", rhs := ["b", "A"], index := 1, lookaheads := ["__LIQUID_RESERVED_EOF__"], action := some 1 }, { lhs := "A", rhs := ["z"], index := 0, lookaheads := ["__LIQUID_RESERVED_EOF__"], action := some 4 }], transitions := [] }], cache := [({ lhs := "__LIQUID_RESERVED_AUG__", pre := "", post := "S", la := "__LIQUID_RESERVED_EOF__" }, ["__LIQUID_RESERVED_EOF__"]), ({ lhs := "S", pre := "", post := "a D", la := "__LIQUID_RESERVED_EOF__" }, ["z"]), ({ lhs := "S", pre := "", post := "b A", la := "__LIQUID_RESERVED_EOF__" }, ["z"]), ({ lhs := "S", pre := "a", post := "D", la := "__LIQUID_RESERVED_EOF__" }, ["__LIQUID_RESERVED_EOF__"]), ({ lhs := "D", pre := "", post := "A", la := "__LIQUID_RESERVED_EOF__" }, ["__LIQUID_RESERVED_EOF__"]), ({ lhs := "D", pre := "", post := "B", la := "__LIQUID_RESERVED_EOF__" }, ["__LIQUID_RESERVED_EOF__"]), ({ lhs := "A", pre := "", post := "z", la := "__LIQUID_RESERVED_EOF__" }, ["__LIQUID_RESERVED_EOF__"]), ({ lhs := "B", pre := "", post := "z", la := "__LIQUID_RESERVED_EOF__" }, ["__LIQUID_RESERVED_EOF__"]), ({ lhs := "S", pre := "b", post := "A", la := "__LIQUID_RESERVED_EOF__" }, ["__LIQUID_RESERVED_EOF__"])], queue := [1, 2, 3] }

def gC5A2 : Automaton :=
  { rules := [{ lhs := "__LIQUID_RESERVED_AUG__", rhs := ["S"], index := 0, lookaheads := ["__LIQUID_RESERVED_EOF__"], action := none }, { lhs := "S", rhs := ["a", "D"], index := 0, lookaheads := [], action := some 0 }, { lhs := "S", rhs := ["b", "A"], index := 0, lookaheads := [], action := some 1 }, { lhs := "D", rhs := ["A"], index := 0, lookaheads := [], action := some 2 }, { lhs := "D", rhs := ["B"], index := 0, lookaheads := [], action := some 3 }, { lhs := "A", rhs := ["z"], index := 0, lookaheads := [], action := some 4 }, { lhs := "B", rhs := ["z"], index := 0, lookaheads := [], action := some 5 }], states := [{ kernel := [{ lhs := "__LIQUID_RESERVED_AUG__", rhs := ["S"], index := 0, lookaheads := ["__LIQUID_RESERVED_EOF__"], action := none }], closure := [{ lhs := "__LIQUID_RESERVED_AUG__", rhs := ["S"], index := 0, lookaheads := ["__LIQUID_RESERVED_EOF__"], action := none }, { lhs := "S", rhs := ["a", "D"], index := 0, lookaheads := ["__LIQUID_RESERVED_EOF__"], action := some 0 }, { lhs := "S", rhs := ["b", "A"], index := 0, lookaheads := ["__LIQUID_RESERVED_EOF__"], action := some 1 }], transitions := [("S", 1), ("a", 2), ("b", 3)] }, { kernel := [{ lhs := "__LIQUID_RESERVED_AUG__", rhs := ["S"], index := 1, lookaheads := ["__LIQUID_RESERVED_EOF__"], action := none }], closure := [{ lhs := "__LIQUID_RESERVED_AUG__", rhs := ["S"], index := 1, lookaheads := ["__LIQUID_RESERVED_EOF__"], action := none }], transitions := [] }, { kernel := [{ lhs := "S", rhs := ["a", "D"], index := 1, lookaheads := ["__LIQUID_RESERVED_EOF__"], action := some 0 }], closure := [{ lhs := "S", rhs := ["a", "D"], index := 1, lookaheads := ["__LIQUID_RESERVED_EOF__"], action := some 0 }, { lhs := "D", rhs := ["A"], index := 0, lookaheads := ["__LIQUID_RESERVED_EOF__"], action := some 2 }, { lhs := "D", rhs := ["B"], index := 0, lookaheads := ["__LIQUID_RESERVED_EOF__"], action := some 3 }, { lhs := "A", rhs := ["z"], index := 0, lookaheads := ["__LIQUID_RESERVED_EOF__"], action := some 4 }, { lhs := "B", rhs := ["z"], index := 0, lookaheads := ["__LIQUID_RESERVED_EOF__"], action := some 5 }], transitions := [] }, { kernel := [{ lhs := "S", rhs := ["b", "A"], index := 1, lookaheads := ["__LIQUID_RESERVED_EOF__"], action := some 1 }], closure := [{ lhs := "S", rhs := ["b", "A"], index := 1, lookaheads := ["__LIQUID_RESERVED_EOF__"], action := some 1 }, { lhs := "A", rhs := ["z"], index := 0, lookaheads := ["__LIQUID_RESERVED_EOF__"], action := some 4 }], transitions := [] }], cache := [({ lhs := "__LIQUID_RESERVED_AUG__", pre := "", post := "S", la := "__LIQUID_RESERVED_EOF__" }, ["__LIQUID_RESERVED_EOF__"]), ({ lhs := "S", pre := "", post := "a D", la := "__LIQUID_RESERVED_EOF__" }, ["z"]), ({ lhs := "S", pre := "", post := "b A", la := "__LIQUID_RESERVED_EOF__" }, ["z"]), ({ lhs := "S", pre := "a", post := "D", la := "__LIQUID_RESERVED_EOF__" }, ["__LIQUID_RESERVED_EOF__"]), ({ lhs := "D", pre := "", post := "A", la := "__LIQUID_RESERVED_EOF__" }, ["__LIQUID_RESERVED_EOF__"]), ({ lhs := "D", pre := "", post := "B", la := "__LIQUID_RESERVED_EOF__" }, ["__LIQUID_RESERVED_EOF__"]), ({ lhs := "A", pre := "", post := "z", la := "__LIQUID_RESERVED_EOF__" }, ["__LIQUID_RESERVED_EOF__"]), ({ lhs := "B", pre := "", post := "z", la := "__LIQUID_RESERVED_EOF__" }, ["__LIQUID_RESERVED_EOF__"]), ({ lhs := "S", pre := "b", post := "A", la := "__LIQUID_RESERVED_EOF__" }, ["__LIQUID_RESERVED_EOF__"])], queue := [2, 3] }

def gC5A3 : Automaton :=
  { rules := [{ lhs := "__LIQUID_RESERVED_AUG__", rhs := ["S"], index := 0, lookaheads := ["__LIQUID_RESERVED_EOF__"], action := none }, { lhs := "S", rhs := ["a", "D"], index := 0, lookaheads := [], action := some 0 }, { lhs := "S", rhs := ["b", "A"], index := 0, lookaheads := [], action := some 1 }, { lhs := "D", rhs := ["A"], index := 0, lookaheads := [], action := some 2 }, { lhs := "D", rhs := ["B"], index := 0, lookaheads := [], action := some 3 }, { lhs := "A", rhs := ["z"], index := 0, lookaheads := [], action := some 4 }, { lhs := "B", rhs := ["z"], index := 0, lookaheads := [], action := some 5 }], states := [{ kernel := [{ lhs := "__LIQUID_RESERVED_AUG__", rhs := ["S"], index := 0, lookaheads := ["__LIQUID_RESERVED_EOF__"], action := none }], closure := [{ lhs := "__LIQUID_RESERVED_AUG__", rhs := ["S"], index := 0, lookaheads := ["__LIQUID_RESERVED_EOF__"], action := none }, { lhs := "S", rhs := ["a", "D"], index := 0, lookaheads := ["__LIQUID_RESERVED_EOF__"], action := some 0 }, { lhs := "S", rhs := ["b", "A"], index := 0, lookaheads := ["__LIQUID_RESERVED_EOF__"], action := some 1 }], transitions := [("S", 1), ("a", 2), ("b", 3)] }, { kernel := [{ lhs := "__LIQUID_RESERVED_AUG__", rhs := ["S"], index := 1, lookaheads := ["__LIQUID_RESERVED_EOF__"], action := none }], closure := [{ lhs := "__LIQUID_RESERVED_AUG__", rhs := ["S"], index := 1, lookaheads := ["__LIQUID_RESERVED_EOF__"], action := none }], transitions := [] }, { kernel := [{ lhs := "S", rhs := ["a", "D"], index := 1, lookaheads := ["__LIQUID_RESERVED_EOF__"], action := some 0 }], closure := [{ lhs := "S", rhs := ["a", "D"], index := 1, lookaheads := ["__LIQUID_RESERVED_EOF__"], action := some 0 }, { lhs := "D", rhs := ["A"], index := 0, lookaheads := ["__LIQUID_RESERVED_EOF__"], action := some 2 }, { lhs := "D", rhs := ["B"], index := 0, lookaheads := ["__LIQUID_RESERVED_EOF__"], action := some 3 }, { lhs := "A", rhs := ["z"], index := 0, lookaheads := ["__LIQUID_RESERVED_EOF__"], action := some 4 }, { lhs := "B", rhs := ["z"], index := 0, lookaheads := ["__LIQUID_RESERVED_EOF__"], action := some 5 }], transitions := [("D", 4), ("A", 5), ("B", 6), ("z", 7)] }, { kernel := [{ lhs := "S", rhs := ["b", "A"], index := 1, lookaheads := ["__LIQUID_RESERVED_EOF__"], action := some 1 }], closure := [{ lhs := "S", rhs := ["b", "A"], index := 1, lookaheads := ["__LIQUID_RESERVED_EOF__"], action := some 1 }, { lhs := "A", rhs := ["z"], index := 0, lookaheads := ["__LIQUID_RESERVED_EOF__"], action := some 4 }], transitions := [] }, { kernel := [{ lhs := "S", rhs := ["a", "D"], index := 2, lookaheads := ["__LIQUID_RESERVED_EOF__"], action := some 0 }], closure := [{ lhs := "S", rhs := ["a", "D"], index := 2, lookaheads := ["__LIQUID_RESERVED_EOF__"], action := some 0 }], transitions := [] }, { kernel := [{ lhs := "D", rhs := ["A"], index := 1, lookaheads := ["__LIQUID_RESERVED_EOF__"], action := some 2 }], closure := [{ lhs := "D", rhs := ["A"], index := 1, lookaheads := ["__LIQUID_RESERVED_EOF__"], action := some 2 }], transitions := [] }, { kernel := [{ lhs := "D", rhs := ["B"], index := 1, lookaheads := ["__LIQUID_RESERVED_EOF__"], action := some 3 }], closure := [{ lhs := "D", rhs := ["B"], index := 1, lookaheads := ["__LIQUID_RESERVED_EOF__"], action := some 3 }], transitions := [] }, { kernel := [{ lhs := "A", rhs := ["z"], index := 1, lookaheads := ["__LIQUID_RESERVED_EOF__"], action := some 4 }, { lhs := "B", rhs := ["z"], index := 1, lookaheads := ["__LIQUID_RESERVED_EOF__"], action := some 5 }], closure := [{ lhs := "A", rhs := ["z"], index := 1, lookaheads := ["__LIQUID_RESERVED_EOF__"], action := some 4 }, { lhs := "B", rhs := ["z"], index := 1, lookaheads := ["__LIQUID_RESERVED_EOF__"], action := some 5 }], transitions := [] }], cache := [({ lhs := "__LIQUID_RESERVED_AUG__", pre := "", post := "S", la := "__LIQUID_RESERVED_EOF__" }, ["__LIQUID_RESERVED_EOF__"]), ({ lhs := "S", pre := "", post := "a D", la := "__LIQUID_RESERVED_EOF__" }, ["z"]), ({ lhs := "S", pre := "", post := "b A", la := "__LIQUID_RESERVED_EOF__" }, ["z"]), ({ lhs := "S", pre := "a", post := "D", la := "__LIQUID_RESERVED_EOF__" }, ["__LIQUID_RESERVED_EOF__"]), ({ lhs := "D", pre := "", post := "A", la := "__LIQUID_RESERVED_EOF__" }, ["__LIQUID_RESERVED_EOF__"]), ({ lhs := "D", pre := "", post := "B", la := "__LIQUID_RESERVED_EOF__" }, ["__LIQUID_RESERVED_EOF__"]), ({ lhs := "A", pre := "", post := "z", la := "__LIQUID_RESERVED_EOF__" }, ["__LIQUID_RESERVED_EOF__"]), ({ lhs := "B", pre := "", post := "z", la := "__LIQUID_RESERVED_EOF__" }, ["__LIQUID_RESERVED_EOF__"]), ({ lhs := "S", pre := "b", post := "A", la := "__LIQUID_RESERVED_EOF__" }, ["__LIQUID_RESERVED_EOF__"])], queue := [3, 4, 5, 6, 7] }

def gC5A4 : Automaton :=
  { rules := [{ lhs := "__LIQUID_RESERVED_AUG__", rhs := ["S"], index := 0, lookaheads := ["__LIQUID_RESERVED_EOF__"], action := none }, { lhs := "S", rhs := ["a", "D"], index := 0, lookaheads := [], action := some 0 }, { lhs := "S", rhs := ["b", "A"], index := 0, lookaheads := [], action := some 1 }, { lhs := "D", rhs := ["A"], index := 0, lookaheads := [], action := some 2 }, { lhs := "D", rhs := ["B"], index := 0, lookaheads := [], action := some 3 }, { lhs := "A", rhs := ["z"], index := 0, lookaheads := [], action := some 4 }, { lhs := "B", rhs := ["z"], index := 0, lookaheads := [], action := some 5 }], states := [{ kernel := [{ lhs := "__LIQUID_RESERVED_AUG__", rhs := ["S"], index := 0, lookaheads := ["__LIQUID_RESERVED_EOF__"], action := none }], closure := [{ lhs := "__LIQUID_RESERVED_AUG__", rhs := ["S"], index := 0, lookaheads := ["__LIQUID_RESERVED_EOF__"], action := none }, { lhs := "S", rhs := ["a", "D"], index := 0, lookaheads := ["__LIQUID_RESERVED_EOF__"], action := some 0 }, { lhs := "S", rhs := ["b", "A"], index := 0, lookaheads := ["__LIQUID_RESERVED_EOF__"], action := some 1 }], transitions := [("S", 1), ("a", 2), ("b", 3)] }, { kernel := [{ lhs := "__LIQUID_RESERVED_AUG__", rhs := ["S"], index := 1, lookaheads := ["__LIQUID_RESERVED_EOF__"], action := none }], closure := [{ lhs := "__LIQUID_RESERVED_AUG__", rhs := ["S"], index := 1, lookaheads := ["__LIQUID_RESERVED_EOF__"], action := none }], transitions := [] }, { kernel := [{ lhs := "S", rhs := ["a", "D"], index := 1, lookaheads := ["__LIQUID_RESERVED_EOF__"], action := some 0 }], closure := [{ lhs := "S", rhs := ["a", "D"], index := 1, lookaheads := ["__LIQUID_RESERVED_EOF__"], action := some 0 }, { lhs := "D", rhs := ["A"], index := 0, lookaheads := ["__LIQUID_RESERVED_EOF__"], action := some 2 }, { lhs := "D", rhs := ["B"], index := 0, lookaheads := ["__LIQUID_RESERVED_EOF__"], action := some 3 }, { lhs := "A", rhs := ["z"], index := 0, lookaheads := ["__LIQUID_RESERVED_EOF__"], action := some 4 }, { lhs := "B", rhs := ["z"], index := 0, lookaheads := ["__LIQUID_RESERVED_EOF__"], action := some 5 }], transitions := [("D", 4), ("A", 5), ("B", 6), ("z", 7)] }, { kernel := [{ lhs := "S", rhs := ["b", "A"], index := 1, lookaheads := ["__LIQUID_RESERVED_EOF__"], action := some 1 }], closure := [{ lhs := "S", rhs := ["b", "A"], index := 1, lookaheads := ["__LIQUID_RESERVED_EOF__"], action := some 1 }, { lhs := "A", rhs := ["z"], index := 0, lookaheads := ["__LIQUID_RESERVED_EOF__"], action := some 4 }], transitions := [("A", 8), ("z", 7)] }, { kernel := [{ lhs := "S", rhs := ["a", "D"], index := 2, lookaheads := ["__LIQUID_RESERVED_EOF__"], action := some 0 }], closure := [{ lhs := "S", rhs := ["a", "D"], index := 2, lookaheads := ["__LIQUID_RESERVED_EOF__"], action := some 0 }], transitions := [] }, { kernel := [{ lhs := "D", rhs := ["A"], index := 1, lookaheads := ["__LIQUID_RESERVED_EOF__"], action := some 2 }], closure := [{ lhs := "D", rhs := ["A"], index := 1, lookaheads := ["__LIQUID_RESERVED_EOF__"], action := some 2 }], transitions := [] }, { kernel := [{ lhs := "D", rhs := ["B"], index := 1, lookaheads := ["__LIQUID_RESERVED_EOF__"], action := some 3 }], closure := [{ lhs := "D", rhs := ["B"], index := 1, lookaheads := ["__LIQUID_RESERVED_EOF__"], action := some 3 }], transitions := [] }, { kernel := [{ lhs := "A", rhs := ["z"], index := 1, lookaheads := ["__LIQUID_RESERVED_EOF__"], action := some 4 }, { lhs := "B", rhs := ["z"], index := 1, lookaheads := ["__LIQUID_RESERVED_EOF__"], action := some 5 }], closure := [{ lhs := "A", rhs := ["z"], index := 1, lookaheads := ["__LIQUID_RESERVED_EOF__"], action := some 4 }, { lhs := "B", rhs := ["z"], index := 1, lookaheads := ["__LIQUID_RESERVED_EOF__"], action := some 5 }], transitions := [] }, { kernel := [{ lhs := "S", rhs := ["b", "A"], index := 2, lookaheads := ["__LIQUID_RESERVED_EOF__"], action := some 1 }], closure := [{ lhs := "S", rhs := ["b", "A"], index := 2, lookaheads := ["__LIQUID_RESERVED_EOF__"], action := some 1 }], transitions := [] }], cache := [({ lhs := "__LIQUID_RESERVED_AUG__", pre := "", post := "S", la := "__LIQUID_RESERVED_EOF__" }, ["__LIQUID_RESERVED_EOF__"]), ({ lhs := "S", pre := "", post := "a D", la := "__LIQUID_RESERVED_EOF__" }, ["z"]), ({ lhs := "S", pre := "", post := "b A", la := "__LIQUID_RESERVED_EOF__" }, ["z"]), ({ lhs := "S", pre := "a", post := "D", la := "__LIQUID_RESERVED_EOF__" }, ["__LIQUID_RESERVED_EOF__"]), ({ lhs := "D", pre := "", post := "A", la := "__LIQUID_RESERVED_EOF__" }, ["__LIQUID_RESERVED_EOF__"]), ({ lhs := "D", pre := "", post := "B", la := "__LIQUID_RESERVED_EOF__" }, ["__LIQUID_RESERVED_EOF__"]), ({ lhs := "A", pre := "", post := "z", la := "__LIQUID_RESERVED_EOF__" }, ["__LIQUID_RESERVED_EOF__"]), ({ lhs := "B", pre := "", post := "z", la := "__LIQUID_RESERVED_EOF__" }, ["__LIQUID_RESERVED_EOF__"]), ({ lhs := "S", pre := "b", post := "A", la := "__LIQUID_RESERVED_EOF__" }, ["__LIQUID_RESERVED_EOF__"])], queue := [4, 5, 6, 7, 8] }

def gC5A5 : Automaton :=
  { rules := [{ lhs := "__LIQUID_RESERVED_AUG__", rhs := ["S"], index := 0, lookaheads := ["__LIQUID_RESERVED_EOF__"], action := none }, { lhs := "S", rhs := ["a", "D"], index := 0, lookaheads := [], action := some 0 }, { lhs := "S", rhs := ["b", "A"], index := 0, lookaheads := [], action := some 1 }, { lhs := "D", rhs := ["A"], index := 0, lookaheads := [], action := some 2 }, { lhs := "D", rhs := ["B"], index := 0, lookaheads := [], action := some 3 }, { lhs := "A", rhs := ["z"], index := 0, lookaheads := [], action := some 4 }, { lhs := "B", rhs := ["z"], index := 0, lookaheads := [], action := some 5 }], states := [{ kernel := [{ lhs := "__LIQUID_RESERVED_AUG__", rhs := ["S"], index := 0, lookaheads := ["__LIQUID_RESERVED_EOF__"], action := none }], closure := [{ lhs := "__LIQUID_RESERVED_AUG__", rhs := ["S"], index := 0, lookaheads := ["__LIQUID_RESERVED_EOF__"], action := none }, { lhs := "S", rhs := ["a", "D"], index := 0, lookaheads := ["__LIQUID_RESERVED_EOF__"], action := some 0 }, { lhs := "S", rhs := ["b", "A"], index := 0, lookaheads := ["__LIQUID_RESERVED_EOF__"], action := some 1 }], transitions := [("S", 1), ("a", 2), ("b", 3)] }, { kernel := [{ lhs := "__LIQUID_RESERVED_AUG__", rhs := ["S"], index := 1, lookaheads := ["__LIQUID_RESERVED_EOF__"], action := none }], closure := [{ lhs := "__LIQUID_RESERVED_AUG__", rhs := ["S"], index := 1, lookaheads := ["__LIQUID_RESERVED_EOF__"], action := none }], transitions := [] }, { kernel := [{ lhs := "S", rhs := ["a", "D"], index := 1, lookaheads := ["__LIQUID_RESERVED_EOF__"], action := some 0 }], closure := [{ lhs := "S", rhs := ["a", "D"], index := 1, lookaheads := ["__LIQUID_RESERVED_EOF__"], action := some 0 }, { lhs := "D", rhs := ["A"], index := 0, lookaheads := ["__LIQUID_RESERVED_EOF__"], action := some 2 }, { lhs := "D", rhs := ["B"], index := 0, lookaheads := ["__LIQUID_RESERVED_EOF__"], action := some 3 }, { lhs := "A", rhs := ["z"], index := 0, lookaheads := ["__LIQUID_RESERVED_EOF__"], action := some 4 }, { lhs := "B", rhs := ["z"], index := 0, lookaheads := ["__LIQUID_RESERVED_EOF__"], action := some 5 }], transitions := [("D", 4), ("A", 5), ("B", 6), ("z", 7)] }, { kernel := [{ lhs := "S", rhs := ["b", "A"], index := 1, lookaheads := ["__LIQUID_RESERVED_EOF__"], action := some 1 }], closure := [{ lhs := "S", rhs := ["b", "A"], index := 1, lookaheads := ["__LIQUID_RESERVED_EOF__"], action := some 1 }, { lhs := "A", rhs := ["z"], index := 0, lookaheads := ["__LIQUID_RESERVED_EOF__"], action := some 4 }], transitions := [("A", 8), ("z", 7)] }, { kernel := [{ lhs := "S", rhs := ["a", "D"], index := 2, lookaheads := ["__LIQUID_RESERVED_EOF__"], action := some 0 }], closure := [{ lhs := "S", rhs := ["a", "D"], index := 2, lookaheads := ["__LIQUID_RESERVED_EOF__"], action := some 0 }], transitions := [] }, { kernel := [{ lhs := "D", rhs := ["A"], index := 1, lookaheads := ["__LIQUID_RESERVED_EOF__"], action := some 2 }], closure := [{ lhs := "D", rhs := ["A"], index := 1, lookaheads := ["__LIQUID_RESERVED_EOF__"], action := some 2 }], transitions := [] }, { kernel := [{ lhs := "D", rhs := ["B"], index := 1, lookaheads := ["__LIQUID_RESERVED_EOF__"], action := some 3 }], closure := [{ lhs := "D", rhs := ["B"], index := 1, lookaheads := ["__LIQUID_RESERVED_EOF__"], action := some 3 }], transitions := [] }, { kernel := [{ lhs := "A", rhs := ["z"], index := 1, lookaheads := ["__LIQUID_RESERVED_EOF__"], action := some 4 }, { lhs := "B", rhs := ["z"], index := 1, lookaheads := ["__LIQUID_RESERVED_EOF__"], action := some 5 }], closure := [{ lhs := "A", rhs := ["z"], index := 1, lookaheads := ["__LIQUID_RESERVED_EOF__"], action := some 4 }, { lhs := "B", rhs := ["z"], index := 1, lookaheads := ["__LIQUID_RESERVED_EOF__"], action := some 5 }], transitions := [] }, { kernel := [{ lhs := "S", rhs := ["b", "A"], index := 2, lookaheads := ["__LIQUID_RESERVED_EOF__"], action := some 1 }], closure := [{ lhs := "S", rhs := ["b", "A"], index := 2, lookaheads := ["__LIQUID_RESERVED_EOF__"], action := some 1 }], transitions := [] }], cache := [({ lhs := "__LIQUID_RESERVED_AUG__", pre := "", post := "S", la := "__LIQUID_RESERVED_EOF__" }, ["__LIQUID_RESERVED_EOF__"]), ({ lhs := "S", pre := "", post := "a D", la := "__LIQUID_RESERVED_EOF__" }, ["z"]), ({ lhs := "S", pre := "", post := "b A", la := "__LIQUID_RESERVED_EOF__" }, ["z"]), ({ lhs := "S", pre := "a", post := "D", la := "__LIQUID_RESERVED_EOF__" }, ["__LIQUID_RESERVED_EOF__"]), ({ lhs := "D", pre := "", post := "A", la := "__LIQUID_RESERVED_EOF__" }, ["__LIQUID_RESERVED_EOF__"]), ({ lhs := "D", pre := "", post := "B", la := "__LIQUID_RESERVED_EOF__" }, ["__LIQUID_RESERVED_EOF__"]), ({ lhs := "A", pre := "", post := "z", la := "__LIQUID_RESERVED_EOF__" }, ["__LIQUID_RESERVED_EOF__"]), ({ lhs := "B", pre := "", post := "z", la := "__LIQUID_RESERVED_EOF__" }, ["__LIQUID_RESERVED_EOF__"]), ({ lhs := "S", pre := "b", post := "A", la := "__LIQUID_RESERVED_EOF__" }, ["__LIQUID_RESERVED_EOF__"])], queue := [5, 6, 7, 8] }

def gC5A6 : Automaton :=
  { rules := [{ lhs := "__LIQUID_RESERVED_AUG__", rhs := ["S"], index := 0, lookaheads := ["__LIQUID_RESERVED_EOF__"], action := none }, { lhs := "S", rhs := ["a", "D"], index := 0, lookaheads := [], action := some 0 }, { lhs := "S", rhs := ["b", "A"], index := 0, lookaheads := [], action := some 1 }, { lhs := "D", rhs := ["A"], index := 0, lookaheads := [], action := some 2 }, { lhs := "D", rhs := ["B"], index := 0, lookaheads := [], action := some 3 }, { lhs := "A", rhs := ["z"], index := 0, lookaheads := [], action := some 4 }, { lhs := "B", rhs := ["z"], index := 0, lookaheads := [], action := some 5 }], states := [{ kernel := [{ lhs := "__LIQUID_RESERVED_AUG__", rhs := ["S"], index := 0, lookaheads := ["__LIQUID_RESERVED_EOF__"], action := none }], closure := [{ lhs := "__LIQUID_RESERVED_AUG__", rhs := ["S"], index := 0, lookaheads := ["__LIQUID_RESERVED_EOF__"], action := none }, { lhs := "S", rhs := ["a", "D"], index := 0, lookaheads := ["__LIQUID_RESERVED_EOF__"], action := some 0 }, { lhs := "S", rhs := ["b", "A"], index := 0, lookaheads := ["__LIQUID_RESERVED_EOF__"], action := some 1 }], transitions := [("S", 1), ("a", 2), ("b", 3)] }, { kernel := [{ lhs := "__LIQUID_RESERVED_AUG__", rhs := ["S"], index := 1, lookaheads := ["__LIQUID_RESERVED_EOF__"], action := none }], closure := [{ lhs := "__LIQUID_RESERVED_AUG__", rhs := ["S"], index := 1, lookaheads := ["__LIQUID_RESERVED_EOF__"], action := none }], transitions := [] }, { kernel := [{ lhs := "S", rhs := ["a", "D"], index := 1, lookaheads := ["__LIQUID_RESERVED_EOF__"], action := some 0 }], closure := [{ lhs := "S", rhs := ["a", "D"], index := 1, lookaheads := ["__LIQUID_RESERVED_EOF__"], action := some 0 }, { lhs := "D", rhs := ["A"], index := 0, lookaheads := ["__LIQUID_RESERVED_EOF__"], action := some 2 }, { lhs := "D", rhs := ["B"], index := 0, lookaheads := ["__LIQUID_RESERVED_EOF__"], action := some 3 }, { lhs := "A", rhs := ["z"], index := 0, lookaheads := ["__LIQUID_RESERVED_EOF__"], action := some 4 }, { lhs := "B", rhs := ["z"], index := 0, lookaheads := ["__LIQUID_RESERVED_EOF__"], action := some 5 }], transitions := [("D", 4), ("A", 5), ("B", 6), ("z", 7)] }, { kernel := [{ lhs := "S", rhs := ["b", "A"], index := 1, lookaheads := ["__LIQUID_RESERVED_EOF__"], action := some 1 }], closure := [{ lhs := "S", rhs := ["b", "A"], index := 1, lookaheads := ["__LIQUID_RESERVED_EOF__"], action := some 1 }, { lhs := "A", rhs := ["z"], index := 0, lookaheads := ["__LIQUID_RESERVED_EOF__"], action := some 4 }], transitions := [("A", 8), ("z", 7)] }, { kernel := [{ lhs := "S", rhs := ["a", "D"], index := 2, lookaheads := ["__LIQUID_RESERVED_EOF__"], action := some 0 }], closure := [{ lhs := "S", rhs := ["a", "D"], index := 2, lookaheads := ["__LIQUID_RESERVED_EOF__"], action := some 0 }], transitions := [] }, { kernel := [{ lhs := "D", rhs := ["A"], index := 1, lookaheads := ["__LIQUID_RESERVED_EOF__"], action := some 2 }], closure := [{ lhs := "D", rhs := ["A"], index := 1, lookaheads := ["__LIQUID_RESERVED_EOF__"], action := some 2 }], transitions := [] }, { kernel := [{ lhs := "D", rhs := ["B"], index := 1, lookaheads := ["__LIQUID_RESERVED_EOF__"], action := some 3 }], closure := [{ lhs := "D", rhs := ["B"], index := 1, lookaheads := ["__LIQUID_RESERVED_EOF__"], action := some 3 }], transitions := [] }, { kernel := [{ lhs := "A", rhs := ["z"], index := 1, lookaheads := ["__LIQUID_RESERVED_EOF__"], action := some 4 }, { lhs := "B", rhs := ["z"], index := 1, lookaheads := ["__LIQUID_RESERVED_EOF__"], action := some 5 }], closure := [{ lhs := "A", rhs := ["z"], index := 1, lookaheads := ["__LIQUID_RESERVED_EOF__"], action := some 4 }, { lhs := "B", rhs := ["z"], index := 1, lookaheads := ["__LIQUID_RESERVED_EOF__"], action := some 5 }], transitions := [] }, { kernel := [{ lhs := "S", rhs := ["b", "A"], index := 2, lookaheads := ["__LIQUID_RESERVED_EOF__"], action := some 1 }], closure := [{ lhs := "S", rhs := ["b", "A"], index := 2, lookaheads := ["__LIQUID_RESERVED_EOF__"], action := some 1 }], transitions := [] }], cache := [({ lhs := "__LIQUID_RESERVED_AUG__", pre := "", post := "S", la := "__LIQUID_RESERVED_EOF__" }, ["__LIQUID_RESERVED_EOF__"]), ({ lhs := "S", pre := "", post := "a D", la := "__LIQUID_RESERVED_EOF__" }, ["z"]), ({ lhs := "S", pre := "", post := "b A", la := "__LIQUID_RESERVED_EOF__" }, ["z"]), ({ lhs := "S", pre := "a", post := "D", la := "__LIQUID_RESERVED_EOF__" }, ["__LIQUID_RESERVED_EOF__"]), ({ lhs := "D", pre := "", post := "A", la := "__LIQUID_RESERVED_EOF__" }, ["__LIQUID_RESERVED_EOF__"]), ({ lhs := "D", pre := "", post := "B", la := "__LIQUID_RESERVED_EOF__" }, ["__LIQUID_RESERVED_EOF__"]), ({ lhs := "A", pre := "", post := "z", la := "__LIQUID_RESERVED_EOF__" }, ["__LIQUID_RESERVED_EOF__"]), ({ lhs := "B", pre := "", post := "z", la := "__LIQUID_RESERVED_EOF__" }, ["__LIQUID_RESERVED_EOF__"]), ({ lhs := "S", pre := "b", post := "A", la := "__LIQUID_RESERVED_EOF__" }, ["__LIQUID_RESERVED_EOF__"])], queue := [6, 7, 8] }

def gC5A7 : Automaton :=
  { rules := [{ lhs := "__LIQUID_RESERVED_AUG__", rhs := ["S"], index := 0, lookaheads := ["__LIQUID_RESERVED_EOF__"], action := none }, { lhs := "S", rhs := ["a", "D"], index := 0, lookaheads := [], action := some 0 }, { lhs := "S", rhs := ["b", "A"], index := 0, lookaheads := [], action := some 1 }, { lhs := "D", rhs := ["A"], index := 0, lookaheads := [], action := some 2 }, { lhs := "D", rhs := ["B"], index := 0, lookaheads := [], action := some 3 }, { lhs := "A", rhs := ["z"], index := 0, lookaheads := [], action := some 4 }, { lhs := "B", rhs := ["z"], index := 0, lookaheads := [], action := some 5 }], states := [{ kernel := [{ lhs := "__LIQUID_RESERVED_AUG__", rhs := ["S"], index := 0, lookaheads := ["__LIQUID_RESERVED_EOF__"], action := none }], closure := [{ lhs := "__LIQUID_RESERVED_AUG__", rhs := ["S"], index := 0, lookaheads := ["__LIQUID_RESERVED_EOF__"], action := none }, { lhs := "S", rhs := ["a", "D"], index := 0, lookaheads := ["__LIQUID_RESERVED_EOF__"], action := some 0 }, { lhs := "S", rhs := ["b", "A"], index := 0, lookaheads := ["__LIQUID_RESERVED_EOF__"], action := some 1 }], transitions := [("S", 1), ("a", 2), ("b", 3)] }, { kernel := [{ lhs := "__LIQUID_RESERVED_AUG__", rhs := ["S"], index := 1, lookaheads := ["__LIQUID_RESERVED_EOF__"], action := none }], closure := [{ lhs := "__LIQUID_RESERVED_AUG__", rhs := ["S"], index := 1, lookaheads := ["__LIQUID_RESERVED_EOF__"], action := none }], transitions := [] }, { kernel := [{ lhs := "S", rhs := ["a", "D"], index := 1, lookaheads := ["__LIQUID_RESERVED_EOF__"], action := some 0 }], closure := [{ lhs := "S", rhs := ["a", "D"], index := 1, lookaheads := ["__LIQUID_RESERVED_EOF__"], action := some 0 }, { lhs := "D", rhs := ["A"], index := 0, lookaheads := ["__LIQUID_RESERVED_EOF__"], action := some 2 }, { lhs := "D", rhs := ["B"], index := 0, lookaheads := ["__LIQUID_RESERVED_EOF__"], action := some 3 }, { lhs := "A", rhs := ["z"], index := 0, lookaheads := ["__LIQUID_RESERVED_EOF__"], action := some 4 }, { lhs := "B", rhs := ["z"], index := 0, lookaheads := ["__LIQUID_RESERVED_EOF__"], action := some 5 }], transitions := [("D", 4), ("A", 5), ("B", 6), ("z", 7)] }, { kernel := [{ lhs := "S", rhs := ["b", "A"], index := 1, lookaheads := ["__LIQUID_RESERVED_EOF__"], action := some 1 }], closure := [{ lhs := "S", rhs := ["b", "A"], index := 1, lookaheads := ["__LIQUID_RESERVED_EOF__"], action := some 1 }, { lhs := "A", rhs := ["z"], index := 0, lookaheads := ["__LIQUID_RESERVED_EOF__"], action := some 4 }], transitions := [("A", 8), ("z", 7)] }, { kernel := [{ lhs := "S", rhs := ["a", "D"], index := 2, lookaheads := ["__LIQUID_RESERVED_EOF__"], action := some 0 }], closure := [{ lhs := "S", rhs := ["a", "D"], index := 2, lookaheads := ["__LIQUID_RESERVED_EOF__"], action := some 0 }], transitions := [] }, { kernel := [{ lhs := "D", rhs := ["A"], index := 1, lookaheads := ["__LIQUID_RESERVED_EOF__"], action := some 2 }], closure := [{ lhs := "D", rhs := ["A"], index := 1, lookaheads := ["__LIQUID_RESERVED_EOF__"], action := some 2 }], transitions := [] }, { kernel := [{ lhs := "D", rhs := ["B"], index := 1, lookaheads := ["__LIQUID_RESERVED_EOF__"], action := some 3 }], closure := [{ lhs := "D", rhs := ["B"], index := 1, lookaheads := ["__LIQUID_RESERVED_EOF__"], action := some 3 }], transitions := [] }, { kernel := [{ lhs := "A", rhs := ["z"], index := 1, lookaheads := ["__LIQUID_RESERVED_EOF__"], action := some 4 }, { lhs := "B", rhs := ["z"], index := 1, lookaheads := ["__LIQUID_RESERVED_EOF__"], action := some 5 }], closure := [{ lhs := "A", rhs := ["z"], index := 1, lookaheads := ["__LIQUID_RESERVED_EOF__"], action := some 4 }, { lhs := "B", rhs := ["z"], index := 1, lookaheads := ["__LIQUID_RESERVED_EOF__"], action := some 5 }], transitions := [] }, { kernel := [{ lhs := "S", rhs := ["b", "A"], index := 2, lookaheads := ["__LIQUID_RESERVED_EOF__"], action := some 1 }], closure := [{ lhs := "S", rhs := ["b", "A"], index := 2, lookaheads := ["__LIQUID_RESERVED_EOF__"], action := some 1 }], transitions := [] }], cache := [({ lhs := "__LIQUID_RESERVED_AUG__", pre := "", post := "S", la := "__LIQUID_RESERVED_EOF__" }, ["__LIQUID_RESERVED_EOF__"]), ({ lhs := "S", pre := "", post := "a D", la := "__LIQUID_RESERVED_EOF__" }, ["z"]), ({ lhs := "S", pre := "", post := "b A", la := "__LIQUID_RESERVED_EOF__" }, ["z"]), ({ lhs := "S", pre := "a", post := "D", la := "__LIQUID_RESERVED_EOF__" }, ["__LIQUID_RESERVED_EOF__"]), ({ lhs := "D", pre := "", post := "A", la := "__LIQUID_RESERVED_EOF__" }, ["__LIQUID_RESERVED_EOF__"]), ({ lhs := "D", pre := "", post := "B", la := "__LIQUID_RESERVED_EOF__" }, ["__LIQUID_RESERVED_EOF__"]), ({ lhs := "A", pre := "", post := "z", la := "__LIQUID_RESERVED_EOF__" }, ["__LIQUID_RESERVED_EOF__"]), ({ lhs := "B", pre := "", post := "z", la := "__LIQUID_RESERVED_EOF__" }, ["__LIQUID_RESERVED_EOF__"]), ({ lhs := "S", pre := "b", post := "A", la := "__LIQUID_RESERVED_EOF__" }, ["__LIQUID_RESERVED_EOF__"])], queue := [7, 8] }

def gC5A8 : Automaton :=
  { rules := [{ lhs := "__LIQUID_RESERVED_AUG__", rhs := ["S"], index := 0, lookaheads := ["__LIQUID_RESERVED_EOF__"], action := none }, { lhs := "S", rhs := ["a", "D"], index := 0, lookaheads := [], action := some 0 }, { lhs := "S", rhs := ["b", "A"], index := 0, lookaheads := [], action := some 1 }, { lhs := "D", rhs := ["A"], index := 0, lookaheads := [], action := some 2 }, { lhs := "D", rhs := ["B"], index := 0, lookaheads := [], action := some 3 }, { lhs := "A", rhs := ["z"], index := 0, lookaheads := [], action := some 4 }, { lhs := "B", rhs := ["z"], index := 0, lookaheads := [], action := some 5 }], states := [{ kernel := [{ lhs := "__LIQUID_RESERVED_AUG__", rhs := ["S"], index := 0, lookaheads := ["__LIQUID_RESERVED_EOF__"], action := none }], closure := [{ lhs := "__LIQUID_RESERVED_AUG__", rhs := ["S"], index := 0, lookaheads := ["__LIQUID_RESERVED_EOF__"], action := none }, { lhs := "S", rhs := ["a", "D"], index := 0, lookaheads := ["__LIQUID_RESERVED_EOF__"], action := some 0 }, { lhs := "S", rhs := ["b", "A"], index := 0, lookaheads := ["__LIQUID_RESERVED_EOF__"], action := some 1 }], transitions := [("S", 1), ("a", 2), ("b", 3)] }, { kernel := [{ lhs := "__LIQUID_RESERVED_AUG__", rhs := ["S"], index := 1, lookaheads := ["__LIQUID_RESERVED_EOF__"], action := none }], closure := [{ lhs := "__LIQUID_RESERVED_AUG__", rhs := ["S"], index := 1, lookaheads := ["__LIQUID_RESERVED_EOF__"], action := none }], transitions := [] }, { kernel := [{ lhs := "S", rhs := ["a", "D"], index := 1, lookaheads := ["__LIQUID_RESERVED_EOF__"], action := some 0 }], closure := [{ lhs := "S", rhs := ["a", "D"], index := 1, lookaheads := ["__LIQUID_RESERVED_EOF__"], action := some 0 }, { lhs := "D", rhs := ["A"], index := 0, lookaheads := ["__LIQUID_RESERVED_EOF__"], action := some 2 }, { lhs := "D", rhs := ["B"], index := 0, lookaheads := ["__LIQUID_RESERVED_EOF__"], action := some 3 }, { lhs := "A", rhs := ["z"], index := 0, lookaheads := ["__LIQUID_RESERVED_EOF__"], action := some 4 }, { lhs := "B", rhs := ["z"], index := 0, lookaheads := ["__LIQUID_RESERVED_EOF__"], action := some 5 }], transitions := [("D", 4), ("A", 5), ("B", 6), ("z", 7)] }, { kernel := [{ lhs := "S", rhs := ["b", "A"], index := 1, lookaheads := ["__LIQUID_RESERVED_EOF__"], action := some 1 }], closure := [{ lhs := "S", rhs := ["b", "A"], index := 1, lookaheads := ["__LIQUID_RESERVED_EOF__"], action := some 1 }, { lhs := "A", rhs := ["z"], index := 0, lookaheads := ["__LIQUID_RESERVED_EOF__"], action := some 4 }], transitions := [("A", 8), ("z", 7)] }, { kernel := [{ lhs := "S", rhs := ["a", "D"], index := 2, lookaheads := ["__LIQUID_RESERVED_EOF__"], action := some 0 }], closure := [{ lhs := "S", rhs := ["a", "D"], index := 2, lookaheads := ["__LIQUID_RESERVED_EOF__"], action := some 0 }], transitions := [] }, { kernel := [{ lhs := "D", rhs := ["A"], index := 1, lookaheads := ["__LIQUID_RESERVED_EOF__"], action := some 2 }], closure := [{ lhs := "D", rhs := ["A"], index := 1, lookaheads := ["__LIQUID_RESERVED_EOF__"], action := some 2 }], transitions := [] }, { kernel := [{ lhs := "D", rhs := ["B"], index := 1, lookaheads := ["__LIQUID_RESERVED_EOF__"], action := some 3 }], closure := [{ lhs := "D", rhs := ["B"], index := 1, lookaheads := ["__LIQUID_RESERVED_EOF__"], action := some 3 }], transitions := [] }, { kernel := [{ lhs := "A", rhs := ["z"], index := 1, lookaheads := ["__LIQUID_RESERVED_EOF__"], action := some 4 }, { lhs := "B", rhs := ["z"], index := 1, lookaheads := ["__LIQUID_RESERVED_EOF__"], action := some 5 }], closure := [{ lhs := "A", rhs := ["z"], index := 1, lookaheads := ["__LIQUID_RESERVED_EOF__"], action := some 4 }, { lhs := "B", rhs := ["z"], index := 1, lookaheads := ["__LIQUID_RESERVED_EOF__"], action := some 5 }], transitions := [] }, { kernel := [{ lhs := "S", rhs := ["b", "A"], index := 2, lookaheads := ["__LIQUID_RESERVED_EOF__"], action := some 1 }], closure := [{ lhs := "S", rhs := ["b", "A"], index := 2, lookaheads := ["__LIQUID_RESERVED_EOF__"], action := some 1 }], transitions := [] }], cache := [({ lhs := "__LIQUID_RESERVED_AUG__", pre := "", post := "S", la := "__LIQUID_RESERVED_EOF__" }, ["__LIQUID_RESERVED_EOF__"]), ({ lhs := "S", pre := "", post := "a D", la := "__LIQUID_RESERVED_EOF__" }, ["z"]), ({ lhs := "S", pre := "", post := "b A", la := "__LIQUID_RESERVED_EOF__" }, ["z"]), ({ lhs := "S", pre := "a", post := "D", la := "__LIQUID_RESERVED_EOF__" }, ["__LIQUID_RESERVED_EOF__"]), ({ lhs := "D", pre := "", post := "A", la := "__LIQUID_RESERVED_EOF__" }, ["__LIQUID_RESERVED_EOF__"]), ({ lhs := "D", pre := "", post := "B", la := "__LIQUID_RESERVED_EOF__" }, ["__LIQUID_RESERVED_EOF__"]), ({ lhs := "A", pre := "", post := "z", la := "__LIQUID_RESERVED_EOF__" }, ["__LIQUID_RESERVED_EOF__"]), ({ lhs := "B", pre := "", post := "z", la := "__LIQUID_RESERVED_EOF__" }, ["__LIQUID_RESERVED_EOF__"]), ({ lhs := "S", pre := "b", post := "A", la := "__LIQUID_RESERVED_EOF__" }, ["__LIQUID_RESERVED_EOF__"])], queue := [8] }

def gC5A9 : Automaton :=
  { rules := [{ lhs := "__LIQUID_RESERVED_AUG__", rhs := ["S"], index := 0, lookaheads := ["__LIQUID_RESERVED_EOF__"], action := none }, { lhs := "S", rhs := ["a", "D"], index := 0, lookaheads := [], action := some 0 }, { lhs := "S", rhs := ["b", "A"], index := 0, lookaheads := [], action := some 1 }, { lhs := "D", rhs := ["A"], index := 0, lookaheads := [], action := some 2 }, { lhs := "D", rhs := ["B"], index := 0, lookaheads := [], action := some 3 }, { lhs := "A", rhs := ["z"], index := 0, lookaheads := [], action := some 4 }, { lhs := "B", rhs := ["z"], index := 0, lookaheads := [], action := some 5 }], states := [{ kernel := [{ lhs := "__LIQUID_RESERVED_AUG__", rhs := ["S"], index := 0, lookaheads := ["__LIQUID_RESERVED_EOF__"], action := none }], closure := [{ lhs := "__LIQUID_RESERVED_AUG__", rhs := ["S"], index := 0, lookaheads := ["__LIQUID_RESERVED_EOF__"], action := none }, { lhs := "S", rhs := ["a", "D"], index := 0, lookaheads := ["__LIQUID_RESERVED_EOF__"], action := some 0 }, { lhs := "S", rhs := ["b", "A"], index := 0, lookaheads := ["__LIQUID_RESERVED_EOF__"], action := some 1 }], transitions := [("S", 1), ("a", 2), ("b", 3)] }, { kernel := [{ lhs := "__LIQUID_RESERVED_AUG__", rhs := ["S"], index := 1, lookaheads := ["__LIQUID_RESERVED_EOF__"], action := none }], closure := [{ lhs := "__LIQUID_RESERVED_AUG__", rhs := ["S"], index := 1, lookaheads := ["__LIQUID_RESERVED_EOF__"], action := none }], transitions := [] }, { kernel := [{ lhs := "S", rhs := ["a", "D"], index := 1, lookaheads := ["__LIQUID_RESERVED_EOF__"], action := some 0 }], closure := [{ lhs := "S", rhs := ["a", "D"], index := 1, lookaheads := ["__LIQUID_RESERVED_EOF__"], action := some 0 }, { lhs := "D", rhs := ["A"], index := 0, lookaheads := ["__LIQUID_RESERVED_EOF__"], action := some 2 }, { lhs := "D", rhs := ["B"], index := 0, lookaheads := ["__LIQUID_RESERVED_EOF__"], action := some 3 }, { lhs := "A", rhs := ["z"], index := 0, lookaheads := ["__LIQUID_RESERVED_EOF__"], action := some 4 }, { lhs := "B", rhs := ["z"], index := 0, lookaheads := ["__LIQUID_RESERVED_EOF__"], action := some 5 }], transitions := [("D", 4), ("A", 5), ("B", 6), ("z", 7)] }, { kernel := [{ lhs := "S", rhs := ["b", "A"], index := 1, lookaheads := ["__LIQUID_RESERVED_EOF__"], action := some 1 }], closure := [{ lhs := "S", rhs := ["b", "A"], index := 1, lookaheads := ["__LIQUID_RESERVED_EOF__"], action := some 1 }, { lhs := "A", rhs := ["z"], index := 0, lookaheads := ["__LIQUID_RESERVED_EOF__"], action := some 4 }], transitions := [("A", 8), ("z", 7)] }, { kernel := [{ lhs := "S", rhs := ["a", "D"], index := 2, lookaheads := ["__LIQUID_RESERVED_EOF__"], action := some 0 }], closure := [{ lhs := "S", rhs := ["a", "D"], index := 2, lookaheads := ["__LIQUID_RESERVED_EOF__"], action := some 0 }], transitions := [] }, { kernel := [{ lhs := "D", rhs := ["A"], index := 1, lookaheads := ["__LIQUID_RESERVED_EOF__"], action := some 2 }], closure := [{ lhs := "D", rhs := ["A"], index := 1, lookaheads := ["__LIQUID_RESERVED_EOF__"], action := some 2 }], transitions := [] }, { kernel := [{ lhs := "D", rhs := ["B"], index := 1, lookaheads := ["__LIQUID_RESERVED_EOF__"], action := some 3 }], closure := [{ lhs := "D", rhs := ["B"], index := 1, lookaheads := ["__LIQUID_RESERVED_EOF__"], action := some 3 }], transitions := [] }, { kernel := [{ lhs := "A", rhs := ["z"], index := 1, lookaheads := ["__LIQUID_RESERVED_EOF__"], action := some 4 }, { lhs := "B", rhs := ["z"], index := 1, lookaheads := ["__LIQUID_RESERVED_EOF__"], action := some 5 }], closure := [{ lhs := "A", rhs := ["z"], index := 1, lookaheads := ["__LIQUID_RESERVED_EOF__"], action := some 4 }, { lhs := "B", rhs := ["z"], index := 1, lookaheads := ["__LIQUID_RESERVED_EOF__"], action := some 5 }], transitions := [] }, { kernel := [{ lhs := "S", rhs := ["b", "A"], index := 2, lookaheads := ["__LIQUID_RESERVED_EOF__"], action := some 1 }], closure := [{ lhs := "S", rhs := ["b", "A"], index := 2, lookaheads := ["__LIQUID_RESERVED_EOF__"], action := some 1 }], transitions := [] }], cache := [({ lhs := "__LIQUID_RESERVED_AUG__", pre := "", post := "S", la := "__LIQUID_RESERVED_EOF__" }, ["__LIQUID_RESERVED_EOF__"]), ({ lhs := "S", pre := "", post := "a D", la := "__LIQUID_RESERVED_EOF__" }, ["z"]), ({ lhs := "S", pre := "", post := "b A", la := "__LIQUID_RESERVED_EOF__" }, ["z"]), ({ lhs := "S", pre := "a", post := "D", la := "__LIQUID_RESERVED_EOF__" }, ["__LIQUID_RESERVED_EOF__"]), ({ lhs := "D", pre := "", post := "A", la := "__LIQUID_RESERVED_EOF__" }, ["__LIQUID_RESERVED_EOF__"]), ({ lhs := "D", pre := "", post := "B", la := "__LIQUID_RESERVED_EOF__" }, ["__LIQUID_RESERVED_EOF__"]), ({ lhs := "A", pre := "", post := "z", la := "__LIQUID_RESERVED_EOF__" }, ["__LIQUID_RESERVED_EOF__"]), ({ lhs := "B", pre := "", post := "z", la := "__LIQUID_RESERVED_EOF__" }, ["__LIQUID_RESERVED_EOF__"]), ({ lhs := "S", pre := "b", post := "A", la := "__LIQUID_RESERVED_EOF__" }, ["__LIQUID_RESERVED_EOF__"])], queue := [] }


def gC6M : List (String × List String) :=
  [("S", ["a"])]

def gC6A0 : Automaton :=
  { rules := [{ lhs := "__LIQUID_RESERVED_AUG__", rhs := ["S"], index := 0, lookaheads := ["__LIQUID_RESERVED_EOF__"], action := none }, { lhs := "S", rhs := ["a", "b"], index := 0, lookaheads := [], action := some 0 }], states := [{ kernel := [{ lhs := "__LIQUID_RESERVED_AUG__", rhs := ["S"], index := 0, lookaheads := ["__LIQUID_RESERVED_EOF__"], action := none }], closure := [{ lhs := "__LIQUID_RESERVED_AUG__", rhs := ["S"], index := 0, lookaheads := ["__LIQUID_RESERVED_EOF__"], action := none }, { lhs := "S", rhs := ["a", "b"], index := 0, lookaheads := ["__LIQUID_RESERVED_EOF__"], action := some 0 }], transitions := [] }], cache := [({ lhs := "__LIQUID_RESERVED_AUG__", pre := "", post := "S", la := "__LIQUID_RESERVED_EOF__" }, ["__LIQUID_RESERVED_EOF__"]), ({ lhs := "S", pre := "", post := "a b", la := "__LIQUID_RESERVED_EOF__" }, ["b"])], queue := [0] }

def gC6A1 : Automaton :=
  { rules := [{ lhs := "__LIQUID_RESERVED_AUG__", rhs := ["S"], index := 0, lookaheads := ["__LIQUID_RESERVED_EOF__"], action := none }, { lhs := "S", rhs := ["a", "b"], index := 0, lookaheads := [], action := some 0 }], states := [{ kernel := [{ lhs := "__LIQUID_RESERVED_AUG__", rhs := ["S"], index := 0, lookaheads := ["__LIQUID_RESERVED_EOF__"], action := none }], closure := [{ lhs := "__LIQUID_RESERVED_AUG__", rhs := ["S"], index := 0, lookaheads := ["__LIQUID_RESERVED_EOF__"], action := none }, { lhs := "S", rhs := ["a", "b"], index := 0, lookaheads := ["__LIQUID_RESERVED_EOF__"], action := some 0 }], transitions := [("S", 1), ("a", 2)] }, { kernel := [{ lhs := "__LIQUID_RESERVED_AUG__", rhs := ["S"], index := 1, lookaheads := ["__LIQUID_RESERVED_EOF__"], action := none }], closure := [{ lhs := "__LIQUID_RESERVED_AUG__", rhs := ["S"], index := 1, lookaheads := ["__LIQUID_RESERVED_EOF__"], action := none }], transitions := [] }, { kernel := [{ lhs := "S", rhs := ["a", "b"], index := 1, lookaheads := ["__LIQUID_RESERVED_EOF__"], action := some 0 }], closure := [{ lhs := "S", rhs := ["a", "b"], index := 1, lookaheads := ["__LIQUID_RESERVED_EOF__"], action := some 0 }], transitions := [] }], cache := [({ lhs := "__LIQUID_RESERVED_AUG__", pre := "", post := "S", la := "__LIQUID_RESERVED_EOF__" }, ["__LIQUID_RESERVED_EOF__"]), ({ lhs := "S", pre := "", post := "a b", la := "__LIQUID_RESERVED_EOF__" }, ["b"]), ({ lhs := "S", pre := "a", post := "b", la := "__LIQUID_RESERVED_EOF__" }, ["__LIQUID_RESERVED_EOF__"])], queue := [1, 2] }

def gC6A2 : Automaton :=
  { rules := [{ lhs := "__LIQUID_RESERVED_AUG__", rhs := ["S"], index := 0, lookaheads := ["__LIQUID_RESERVED_EOF__"], action := none }, { lhs := "S", rhs := ["a", "b"], index := 0, lookaheads := [], action := some 0 }], states := [{ kernel := [{ lhs := "__LIQUID_RESERVED_AUG__", rhs := ["S"], index := 0, lookaheads := ["__LIQUID_RESERVED_EOF__"], action := none }], closure := [{ lhs := "__LIQUID_RESERVED_AUG__", rhs := ["S"], index := 0, lookaheads := ["__LIQUID_RESERVED_EOF__"], action := none }, { lhs := "S", rhs := ["a", "b"], index := 0, lookaheads := ["__LIQUID_RESERVED_EOF__"], action := some 0 }], transitions := [("S", 1), ("a", 2)] }, { kernel := [{ lhs := "__LIQUID_RESERVED_AUG__", rhs := ["S"], index := 1, lookaheads := ["__LIQUID_RESERVED_EOF__"], action := none }], closure := [{ lhs := "__LIQUID_RESERVED_AUG__", rhs := ["S"], index := 1, lookaheads := ["__LIQUID_RESERVED_EOF__"], action := none }], transitions := [] }, { kernel := [{ lhs := "S", rhs := ["a", "b"], index := 1, lookaheads := ["__LIQUID_RESERVED_EOF__"], action := some 0 }], closure := [{ lhs := "S", rhs := ["a", "b"], index := 1, lookaheads := ["__LIQUID_RESERVED_EOF__"], action := some 0 }], transitions := [] }], cache := [({ lhs := "__LIQUID_RESERVED_AUG__", pre := "", post := "S", la := "__LIQUID_RESERVED_EOF__" }, ["__LIQUID_RESERVED_EOF__"]), ({ lhs := "S", pre := "", post := "a b", la := "__LIQUID_RESERVED_EOF__" }, ["b"]), ({ lhs := "S", pre := "a", post := "b", la := "__LIQUID_RESERVED_EOF__" }, ["__LIQUID_RESERVED_EOF__"])], queue := [2] }

def gC6A3 : Automaton :=
  { rules := [{ lhs := "__LIQUID_RESERVED_AUG__", rhs := ["S"], index := 0, lookaheads := ["__LIQUID_RESERVED_EOF__"], action := none }, { lhs := "S", rhs := ["a", "b"], index := 0, lookaheads := [], action := some 0 }], states := [{ kernel := [{ lhs := "__LIQUID_RESERVED_AUG__", rhs := ["S"], index := 0, lookaheads := ["__LIQUID_RESERVED_EOF__"], action := none }], closure := [{ lhs := "__LIQUID_RESERVED_AUG__", rhs := ["S"], index := 0, lookaheads := ["__LIQUID_RESERVED_EOF__"], action := none }, { lhs := "S", rhs := ["a", "b"], index := 0, lookaheads := ["__LIQUID_RESERVED_EOF__"], action := some 0 }], transitions := [("S", 1), ("a", 2)] }, { kernel := [{ lhs := "__LIQUID_RESERVED_AUG__", rhs := ["S"], index := 1, lookaheads := ["__LIQUID_RESERVED_EOF__"], action := none }], closure := [{ lhs := "__LIQUID_RESERVED_AUG__", rhs := ["S"], index := 1, lookaheads := ["__LIQUID_RESERVED_EOF__"], action := none }], transitions := [] }, { kernel := [{ lhs := "S", rhs := ["a", "b"], index := 1, lookaheads := ["__LIQUID_RESERVED_EOF__"], action := some 0 }], closure := [{ lhs := "S", rhs := ["a", "b"], index := 1, lookaheads := ["__LIQUID_RESERVED_EOF__"], action := some 0 }], transitions := [("b", 3)] }, { kernel := [{ lhs := "S", rhs := ["a", "b"], index := 2, lookaheads := ["__LIQUID_RESERVED_EOF__"], action := some 0 }], closure := [{ lhs := "S", rhs := ["a", "b"], index := 2, lookaheads := ["__LIQUID_RESERVED_EOF__"], action := some 0 }], transitions := [] }], cache := [({ lhs := "__LIQUID_RESERVED_AUG__", pre := "", post := "S", la := "__LIQUID_RESERVED_EOF__" }, ["__LIQUID_RESERVED_EOF__"]), ({ lhs := "S", pre := "", post := "a b", la := "__LIQUID_RESERVED_EOF__" }, ["b"]), ({ lhs := "S", pre := "a", post := "b", la := "__LIQUID_RESERVED_EOF__" }, ["__LIQUID_RESERVED_EOF__"])], queue := [3] }

def gC6A4 : Automaton :=
  { rules := [{ lhs := "__LIQUID_RESERVED_AUG__", rhs := ["S"], index := 0, lookaheads := ["__LIQUID_RESERVED_EOF__"], action := none }, { lhs := "S", rhs := ["a", "b"], index := 0, lookaheads := [], action := some 0 }], states := [{ kernel := [{ lhs := "__LIQUID_RESERVED_AUG__", rhs := ["S"], index := 0, lookaheads := ["__LIQUID_RESERVED_EOF__"], action := none }], closure := [{ lhs := "__LIQUID_RESERVED_AUG__", rhs := ["S"], index := 0, lookaheads := ["__LIQUID_RESERVED_EOF__"], action := none }, { lhs := "S", rhs := ["a", "b"], index := 0, lookaheads := ["__LIQUID_RESERVED_EOF__"], action := some 0 }], transitions := [("S", 1), ("a", 2)] }, { kernel := [{ lhs := "__LIQUID_RESERVED_AUG__", rhs := ["S"], index := 1, lookaheads := ["__LIQUID_RESERVED_EOF__"], action := none }], closure := [{ lhs := "__LIQUID_RESERVED_AUG__", rhs := ["S"], index := 1, lookaheads := ["__LIQUID_RESERVED_EOF__"], action := none }], transitions := [] }, { kernel := [{ lhs := "S", rhs := ["a", "b"], index := 1, lookaheads := ["__LIQUID_RESERVED_EOF__"], action := some 0 }], closure := [{ lhs := "S", rhs := ["a", "b"], index := 1, lookaheads := ["__LIQUID_RESERVED_EOF__"], action := some 0 }], transitions := [("b", 3)] }, { kernel := [{ lhs := "S", rhs := ["a", "b"], index := 2, lookaheads := ["__LIQUID_RESERVED_EOF__"], action := some 0 }], closure := [{ lhs := "S", rhs := ["a", "b"], index := 2, lookaheads := ["__LIQUID_RESERVED_EOF__"], action := some 0 }], transitions := [] }], cache := [({ lhs := "__LIQUID_RESERVED_AUG__", pre := "", post := "S", la := "__LIQUID_RESERVED_EOF__" }, ["__LIQUID_RESERVED_EOF__"]), ({ lhs := "S", pre := "", post := "a b", la := "__LIQUID_RESERVED_EOF__" }, ["b"]), ({ lhs := "S", pre := "a", post := "b", la := "__LIQUID_RESERVED_EOF__" }, ["__LIQUID_RESERVED_EOF__"])], queue := [] }



def gC1T0 : Table :=
  [[("a", [Liquid.Action.reduce { lhs := "A", rhs := ["__LIQUID_RESERVED_EPSILON__"], index := 0, lookaheads := ["a"], action := some 2 }, Liquid.Action.reduce { lhs := "B", rhs := ["__LIQUID_RESERVED_EPSILON__"], index := 0, lookaheads := ["a"], action := some 3 }]), ("S", [Liquid.Action.goto 1]), ("A", [Liquid.Action.goto 2]), ("B", [Liquid.Action.goto 3]), ("__LIQUID_RESERVED_EOF__", [])], [("a", []), ("S", []), ("A", []), ("B", []), ("__LIQUID_RESERVED_EOF__", [Liquid.Action.accept])], [("a", [Liquid.Action.shift 4]), ("S", []), ("A", []), ("B", []), ("__LIQUID_RESERVED_EOF__", [])], [("a", [Liquid.Action.shift 5]), ("S", []), ("A", []), ("B", []), ("__LIQUID_RESERVED_EOF__", [])], [("a", []), ("S", []), ("A", []), ("B", []), ("__LIQUID_RESERVED_EOF__", [Liquid.Action.reduce { lhs := "S", rhs := ["A", "a"], index := 2, lookaheads := ["__LIQUID_RESERVED_EOF__"], action := some 0 }])], [("a", []), ("S", []), ("A", []), ("B", []), ("__LIQUID_RESERVED_EOF__", [Liquid.Action.reduce { lhs := "S", rhs := ["B", "a"], index := 2, lookaheads := ["__LIQUID_RESERVED_EOF__"], action := some 1 }])]]
def gC1T1 : Table :=
  [[("a", [Liquid.Action.reduce { lhs := "A", rhs := ["__LIQUID_RESERVED_EPSILON__"], index := 0, lookaheads := ["a"], action := some 2 }]), ("S", [Liquid.Action.goto 1]), ("A", [Liquid.Action.goto 2]), ("B", [Liquid.Action.goto 3]), ("__LIQUID_RESERVED_EOF__", [])], [("a", []), ("S", []), ("A", []), ("B", []), ("__LIQUID_RESERVED_EOF__", [Liquid.Action.accept])], [("a", [Liquid.Action.shift 4]), ("S", []), ("A", []), ("B", []), ("__LIQUID_RESERVED_EOF__", [])], [("a", [Liquid.Action.shift 5]), ("S", []), ("A", []), ("B", []), ("__LIQUID_RESERVED_EOF__", [])], [("a", []), ("S", []), ("A", []), ("B", []), ("__LIQUID_RESERVED_EOF__", [Liquid.Action.reduce { lhs := "S", rhs := ["A", "a"], index := 2, lookaheads := ["__LIQUID_RESERVED_EOF__"], action := some 0 }])], [("a", []), ("S", []), ("A", []), ("B", []), ("__LIQUID_RESERVED_EOF__", [Liquid.Action.reduce { lhs := "S", rhs := ["B", "a"], index := 2, lookaheads := ["__LIQUID_RESERVED_EOF__"], action := some 1 }])]]
def gC2T0 : Table :=
  [[("p", []), ("n", [Liquid.Action.shift 2]), ("E", [Liquid.Action.goto 1]), ("__LIQUID_RESERVED_EOF__", [])], [("p", [Liquid.Action.shift 3]), ("n", []), ("E", []), ("__LIQUID_RESERVED_EOF__", [Liquid.Action.accept])], [("p", [Liquid.Action.reduce { lhs := "E", rhs := ["n"], index := 1, lookaheads := ["__LIQUID_RESERVED_EOF__", "p"], action := some 1 }]), ("n", []), ("E", []), ("__LIQUID_RESERVED_EOF__", [Liquid.Action.reduce { lhs := "E", rhs := ["n"], index := 1, lookaheads := ["__LIQUID_RESERVED_EOF__", "p"], action := some 1 }])], [("p", []), ("n", [Liquid.Action.shift 2]), ("E", [Liquid.Action.goto 4]), ("__LIQUID_RESERVED_EOF__", [])], [("p", [Liquid.Action.shift 3, Liquid.Action.reduce { lhs := "E", rhs := ["E", "p", "E"], index := 3, lookaheads := ["__LIQUID_RESERVED_EOF__", "p"], action := some 0 }]), ("n", []), ("E", []), ("__LIQUID_RESERVED_EOF__", [Liquid.Action.reduce { lhs := "E", rhs := ["E", "p", "E"], index := 3, lookaheads := ["__LIQUID_RESERVED_EOF__", "p"], action := some 0 }])]]
def gC2T1 : Table :=
  [[("p", []), ("n", [Liquid.Action.shift 2]), ("E", [Liquid.Action.goto 1]), ("__LIQUID_RESERVED_EOF__", [])], [("p", [Liquid.Action.shift 3]), ("n", []), ("E", []), ("__LIQUID_RESERVED_EOF__", [Liquid.Action.accept])], [("p", [Liquid.Action.reduce { lhs := "E", rhs := ["n"], index := 1, lookaheads := ["__LIQUID_RESERVED_EOF__", "p"], action := some 1 }]), ("n", []), ("E", []), ("__LIQUID_RESERVED_EOF__", [Liquid.Action.reduce { lhs := "E", rhs := ["n"], index := 1, lookaheads := ["__LIQUID_RESERVED_EOF__", "p"], action := some 1 }])], [("p", []), ("n", [Liquid.Action.shift 2]), ("E", [Liquid.Action.goto 4]), ("__LIQUID_RESERVED_EOF__", [])], [("p", [Liquid.Action.reduce { lhs := "E", rhs := ["E", "p", "E"], index := 3, lookaheads := ["__LIQUID_RESERVED_EOF__", "p"], action := some 0 }]), ("n", []), ("E", []), ("__LIQUID_RESERVED_EOF__", [Liquid.Action.reduce { lhs := "E", rhs := ["E", "p", "E"], index := 3, lookaheads := ["__LIQUID_RESERVED_EOF__", "p"], action := some 0 }])]]
def gC4T0 : Table :=
  [[("a", [Liquid.Action.shift 4]), ("S", [Liquid.Action.goto 1]), ("A", [Liquid.Action.goto 2]), ("B", [Liquid.Action.goto 3]), ("__LIQUID_RESERVED_EOF__", [])], [("a", []), ("S", []), ("A", []), ("B", []), ("__LIQUID_RESERVED_EOF__", [Liquid.Action.accept])], [("a", []), ("S", []), ("A", []), ("B", []), ("__LIQUID_RESERVED_EOF__", [Liquid.Action.reduce { lhs := "S", rhs := ["A"], index := 1, lookaheads := ["__LIQUID_RESERVED_EOF__"], action := some 0 }])], [("a", []), ("S", []), ("A", []), ("B", []), ("__LIQUID_RESERVED_EOF__", [Liquid.Action.reduce { lhs := "S", rhs := ["B"], index := 1, lookaheads := ["__LIQUID_RESERVED_EOF__"], action := some 1 }])], [("a", []), ("S", []), ("A", []), ("B", []), ("__LIQUID_RESERVED_EOF__", [Liquid.Action.reduce { lhs := "A", rhs := ["a"], index := 1, lookaheads := ["__LIQUID_RESERVED_EOF__"], action := some 2 }, Liquid.Action.reduce { lhs := "B", rhs := ["a"], index := 1, lookaheads := ["__LIQUID_RESERVED_EOF__"], action := some 3 }])]]
def gC4T1 : Table :=
  [[("a", [Liquid.Action.shift 4]), ("S", [Liquid.Action.goto 1]), ("A", [Liquid.Action.goto 2]), ("B", [Liquid.Action.goto 3]), ("__LIQUID_RESERVED_EOF__", [])], [("a", []), ("S", []), ("A", []), ("B", []), ("__LIQUID_RESERVED_EOF__", [Liquid.Action.accept])], [("a", []), ("S", []), ("A", []), ("B", []), ("__LIQUID_RESERVED_EOF__", [Liquid.Action.reduce { lhs := "S", rhs := ["A"], index := 1, lookaheads := ["__LIQUID_RESERVED_EOF__"], action := some 0 }])], [("a", []), ("S", []), ("A", []), ("B", []), ("__LIQUID_RESERVED_EOF__", [Liquid.Action.reduce { lhs := "S", rhs := ["B"], index := 1, lookaheads := ["__LIQUID_RESERVED_EOF__"], action := some 1 }])], [("a", []), ("S", []), ("A", []), ("B", []), ("__LIQUID_RESERVED_EOF__", [Liquid.Action.reduce { lhs := "A", rhs := ["a"], index := 1, lookaheads := ["__LIQUID_RESERVED_EOF__"], action := some 2 }, Liquid.Action.reduce { lhs := "B", rhs := ["a"], index := 1, lookaheads := ["__LIQUID_RESERVED_EOF__"], action := some 3 }])]]
def gC6T0 : Table :=
  [[("a", [Liquid.Action.shift 2]), ("b", []), ("S", [Liquid.Action.goto 1]), ("__LIQUID_RESERVED_EOF__", [])], [("a", []), ("b", []), ("S", []), ("__LIQUID_RESERVED_EOF__", [Liquid.Action.accept])], [("a", []), ("b", [Liquid.Action.shift 3]), ("S", []), ("__LIQUID_RESERVED_EOF__", [])], [("a", []), ("b", []), ("S", []), ("__LIQUID_RESERVED_EOF__", [Liquid.Action.reduce { lhs := "S", rhs := ["a", "b"], index := 2, lookaheads := ["__LIQUID_RESERVED_EOF__"], action := some 0 }])]]
def gC6T1 : Table :=
  [[("a", [Liquid.Action.shift 2]), ("b", []), ("S", [Liquid.Action.goto 1]), ("__LIQUID_RESERVED_EOF__", [])], [("a", []), ("b", []), ("S", []), ("__LIQUID_RESERVED_EOF__", [Liquid.Action.accept])], [("a", []), ("b", [Liquid.Action.shift 3]), ("S", []), ("__LIQUID_RESERVED_EOF__", [])], [("a", []), ("b", []), ("S", []), ("__LIQUID_RESERVED_EOF__", [Liquid.Action.reduce { lhs := "S", rhs := ["a", "b"], index := 2, lookaheads := ["__LIQUID_RESERVED_EOF__"], action := some 0 }])]]



/-! ## Derived notions used by the analysis -/

/-- `hasAllRules(k1, true)` on a state with kernel `k2`: every item of `k1`
has a core-equal item in `k2`. -/
def kernelCoreLE (k1 k2 : List Item) : Bool :=
  k1.all (fun r => k2.any (fun k => Item.itemEq k r true))

/-- Core equality of kernels, "equal ignoring lookaheads": mutual
core-containment. -/
def kernelCoreEq (k1 k2 : List Item) : Bool :=
  kernelCoreLE k1 k2 && kernelCoreLE k2 k1

/-! ## State-by-state construction of the concrete automatons -/

/-- The LALR automaton of `gC1`, walked state by state. -/
theorem gC1_build : buildAutomaton Variant.lalr gC1 12 = gC1A6 := by
  have hm : firstsMap gC1 12 = gC1M := by decide
  have h0 : register gC1 gC1M 12 { rules := mkAutoRules gC1, states := [], cache := [], queue := [] } [augItemOf gC1] = gC1A0 := by decide
  have e1 : expandState Variant.lalr gC1 gC1M 11 { gC1A0 with queue := [] } 0 = gC1A1 := by decide
  have e2 : expandState Variant.lalr gC1 gC1M 10 { gC1A1 with queue := [2, 3] } 1 = gC1A2 := by decide
  have e3 : expandState Variant.lalr gC1 gC1M 9 { gC1A2 with queue := [3] } 2 = gC1A3 := by decide
  have e4 : expandState Variant.lalr gC1 gC1M 8 { gC1A3 with queue := [4] } 3 = gC1A4 := by decide
  have e5 : expandState Variant.lalr gC1 gC1M 7 { gC1A4 with queue := [5] } 4 = gC1A5 := by decide
  have e6 : expandState Variant.lalr gC1 gC1M 6 { gC1A5 with queue := [] } 5 = gC1A6 := by decide
  rw [buildAutomaton, hm, h0]
  rw [populateLoop_cons Variant.lalr gC1 gC1M 12 11 rfl gC1A0 0 [] rfl, e1]
  rw [populateLoop_cons Variant.lalr gC1 gC1M 11 10 rfl gC1A1 1 [2, 3] rfl, e2]
  rw [populateLoop_cons Variant.lalr gC1 gC1M 10 9 rfl gC1A2 2 [3] rfl, e3]
  rw [populateLoop_cons Variant.lalr gC1 gC1M 9 8 rfl gC1A3 3 [4] rfl, e4]
  rw [populateLoop_cons Variant.lalr gC1 gC1M 8 7 rfl gC1A4 4 [5] rfl, e5]
  rw [populateLoop_cons Variant.lalr gC1 gC1M 7 6 rfl gC1A5 5 [] rfl, e6]
  exact populateLoop_nil Variant.lalr gC1 gC1M 6 gC1A6 rfl

/-- The LALR automaton of `gC2`, walked state by state. -/
theorem gC2_build : buildAutomaton Variant.lalr gC2 12 = gC2A5 := by
  have hm : firstsMap gC2 12 = gC2M := by decide
  have h0 : register gC2 gC2M 12 { rules := mkAutoRules gC2, states := [], cache := [], queue := [] } [augItemOf gC2] = gC2A0 := by decide
  have e1 : expandState Variant.lalr gC2 gC2M 11 { gC2A0 with queue := [] } 0 = gC2A1 := by decide
  have e2 : expandState Variant.lalr gC2 gC2M 10 { gC2A1 with queue := [2] } 1 = gC2A2 := by decide
  have e3 : expandState Variant.lalr gC2 gC2M 9 { gC2A2 with queue := [3] } 2 = gC2A3 := by decide
  have e4 : expandState Variant.lalr gC2 gC2M 8 { gC2A3 with queue := [] } 3 = gC2A4 := by decide
  have e5 : expandState Variant.lalr gC2 gC2M 7 { gC2A4 with queue := [] } 4 = gC2A5 := by decide
  rw [buildAutomaton, hm, h0]
  rw [populateLoop_cons Variant.lalr gC2 gC2M 12 11 rfl gC2A0 0 [] rfl, e1]
  rw [populateLoop_cons Variant.lalr gC2 gC2M 11 10 rfl gC2A1 1 [2] rfl, e2]
  rw [populateLoop_cons Variant.lalr gC2 gC2M 10 9 rfl gC2A2 2 [3] rfl, e3]
  rw [populateLoop_cons Variant.lalr gC2 gC2M 9 8 rfl gC2A3 3 [] rfl, e4]
  rw [populateLoop_cons Variant.lalr gC2 gC2M 8 7 rfl gC2A4 4 [] rfl, e5]
  exact populateLoop_nil Variant.lalr gC2 gC2M 7 gC2A5 rfl

/-- The LALR automaton of `gC4`, walked state by state. -/
theorem gC4_build : buildAutomaton Variant.lalr gC4 12 = gC4A5 := by
  have hm : firstsMap gC4 12 = gC4M := by decide
  have h0 : register gC4 gC4M 12 { rules := mkAutoRules gC4, states := [], cache := [], queue := [] } [augItemOf gC4] = gC4A0 := by decide
  have e1 : expandState Variant.lalr gC4 gC4M 11 { gC4A0 with queue := [] } 0 = gC4A1 := by decide
  have e2 : expandState Variant.lalr gC4 gC4M 10 { gC4A1 with queue := [2, 3, 4] } 1 = gC4A2 := by decide
  have e3 : expandState Variant.lalr gC4 gC4M 9 { gC4A2 with queue := [3, 4] } 2 = gC4A3 := by decide
  have e4 : expandState Variant.lalr gC4 gC4M 8 { gC4A3 with queue := [4] } 3 = gC4A4 := by decide
  have e5 : expandState Variant.lalr gC4 gC4M 7 { gC4A4 with queue := [] } 4 = gC4A5 := by decide
  rw [buildAutomaton, hm, h0]
  rw [populateLoop_cons Variant.lalr gC4 gC4M 12 11 rfl gC4A0 0 [] rfl, e1]
  rw [populateLoop_cons Variant.lalr gC4 gC4M 11 10 rfl gC4A1 1 [2, 3, 4] rfl, e2]
  rw [populateLoop_cons Variant.lalr gC4 gC4M 10 9 rfl gC4A2 2 [3, 4] rfl, e3]
  rw [populateLoop_cons Variant.lalr gC4 gC4M 9 8 rfl gC4A3 3 [4] rfl, e4]
  rw [populateLoop_cons Variant.lalr gC4 gC4M 8 7 rfl gC4A4 4 [] rfl, e5]
  exact populateLoop_nil Variant.lalr gC4 gC4M 7 gC4A5 rfl

/-- The LALR automaton of `gC5`, walked state by state. -/
theorem gC5_build : buildAutomaton Variant.lalr gC5 16 = gC5A9 := by
  have hm : firstsMap gC5 16 = gC5M := by decide
  have h0 : register gC5 gC5M 16 { rules := mkAutoRules gC5, states := [], cache := [], queue := [] } [augItemOf gC5] = gC5A0 := by decide
  have e1 : expandState Variant.lalr gC5 gC5M 15 { gC5A0 with queue := [] } 0 = gC5A1 := by decide
  have e2 : expandState Variant.lalr gC5 gC5M 14 { gC5A1 with queue := [2, 3] } 1 = gC5A2 := by decide
  have e3 : expandState Variant.lalr gC5 gC5M 13 { gC5A2 with queue := [3] } 2 = gC5A3 := by decide
  have e4 : expandState Variant.lalr gC5 gC5M 12 { gC5A3 with queue := [4, 5, 6, 7] } 3 = gC5A4 := by decide
  have e5 : expandState Variant.lalr gC5 gC5M 11 { gC5A4 with queue := [5, 6, 7, 8] } 4 = gC5A5 := by decide
  have e6 : expandState Variant.lalr gC5 gC5M 10 { gC5A5 with queue := [6, 7, 8] } 5 = gC5A6 := by decide
  have e7 : expandState Variant.lalr gC5 gC5M 9 { gC5A6 with queue := [7, 8] } 6 = gC5A7 := by decide
  have e8 : expandState Variant.lalr gC5 gC5M 8 { gC5A7 with queue := [8] } 7 = gC5A8 := by decide
  have e9 : expandState Variant.lalr gC5 gC5M 7 { gC5A8 with queue := [] } 8 = gC5A9 := by decide
  rw [buildAutomaton, hm, h0]
  rw [populateLoop_cons Variant.lalr gC5 gC5M 16 15 rfl gC5A0 0 [] rfl, e1]
  rw [populateLoop_cons Variant.lalr gC5 gC5M 15 14 rfl gC5A1 1 [2, 3] rfl, e2]
  rw [populateLoop_cons Variant.lalr gC5 gC5M 14 13 rfl gC5A2 2 [3] rfl, e3]
  rw [populateLoop_cons Variant.lalr gC5 gC5M 13 12 rfl gC5A3 3 [4, 5, 6, 7] rfl, e4]
  rw [populateLoop_cons Variant.lalr gC5 gC5M 12 11 rfl gC5A4 4 [5, 6, 7, 8] rfl, e5]
  rw [populateLoop_cons Variant.lalr gC5 gC5M 11 10 rfl gC5A5 5 [6, 7, 8] rfl, e6]
  rw [populateLoop_cons Variant.lalr gC5 gC5M 10 9 rfl gC5A6 6 [7, 8] rfl, e7]
  rw [populateLoop_cons Variant.lalr gC5 gC5M 9 8 rfl gC5A7 7 [8] rfl, e8]
  rw [populateLoop_cons Variant.lalr gC5 gC5M 8 7 rfl gC5A8 8 [] rfl, e9]
  exact populateLoop_nil Variant.lalr gC5 gC5M 7 gC5A9 rfl

/-- The LALR automaton of `gC6`, walked state by state. -/
theorem gC6_build : buildAutomaton Variant.lalr gC6 8 = gC6A4 := by
  have hm : firstsMap gC6 8 = gC6M := by decide
  have h0 : register gC6 gC6M 8 { rules := mkAutoRules gC6, states := [], cache := [], queue := [] } [augItemOf gC6] = gC6A0 := by decide
  have e1 : expandState Variant.lalr gC6 gC6M 7 { gC6A0 with queue := [] } 0 = gC6A1 := by decide
  have e2 : expandState Variant.lalr gC6 gC6M 6 { gC6A1 with queue := [2] } 1 = gC6A2 := by decide
  have e3 : expandState Variant.lalr gC6 gC6M 5 { gC6A2 with queue := [] } 2 = gC6A3 := by decide
  have e4 : expandState Variant.lalr gC6 gC6M 4 { gC6A3 with queue := [] } 3 = gC6A4 := by decide
  rw [buildAutomaton, hm, h0]
  rw [populateLoop_cons Variant.lalr gC6 gC6M 8 7 rfl gC6A0 0 [] rfl, e1]
  rw [populateLoop_cons Variant.lalr gC6 gC6M 7 6 rfl gC6A1 1 [2] rfl, e2]
  rw [populateLoop_cons Variant.lalr gC6 gC6M 6 5 rfl gC6A2 2 [] rfl, e3]
  rw [populateLoop_cons Variant.lalr gC6 gC6M 5 4 rfl gC6A3 3 [] rfl, e4]
  exact populateLoop_nil Variant.lalr gC6 gC6M 4 gC6A4 rfl



/-! ## Helper lemmas for conflict-resolution analysis -/

theorem jsDedupGo_nil_of_all_seen {α : Type} [DecidableEq α] {l seen : List α}
    (h : ∀ q ∈ l, q ∈ seen) : jsDedupGo l seen = [] := by
  induction l with
  | nil => rfl
  | cons x xs ih =>
    simp only [jsDedupGo, if_pos (h x (List.mem_cons_self x xs))]
    exact ih (fun q hq => h q (List.mem_cons_of_mem _ hq))

theorem jsDedup_length_one_iff {α : Type} [DecidableEq α] {l : List α} (hne : l ≠ []) :
    (jsDedup l).length = 1 ↔ ∃ p, ∀ q ∈ l, q = p := by
  cases l with
  | nil => exact absurd rfl hne
  | cons x xs =>
    constructor
    · intro h1
      refine ⟨x, fun q hq => ?_⟩
      rcases List.mem_cons.mp hq with rfl | hq
      · rfl
      · by_contra hne'
        have : q ∈ jsDedupGo xs [x] := mem_jsDedupGo.mpr ⟨hq, by simp [hne']⟩
        have hlen : (jsDedupGo xs [x]).length = 0 := by
          have : jsDedup (x :: xs) = x :: jsDedupGo xs [x] := by
            simp [jsDedup, jsDedupGo]
          rw [this] at h1
          simpa using h1
        rw [List.length_eq_zero.mp hlen] at this
        exact absurd this (List.not_mem_nil q)
    · rintro ⟨p, hp⟩
      have hx : x = p := hp x (List.mem_cons_self x xs)
      have : jsDedupGo xs [x] = [] := by
        apply jsDedupGo_nil_of_all_seen
        intro q hq
        have : q = p := hp q (List.mem_cons_of_mem _ hq)
        simp [this, hx]
      simp [jsDedup, jsDedupGo, this]

theorem maxInt_all_eq {l : List Int} {p : Int} (hne : l ≠ []) (hp : ∀ q ∈ l, q = p) :
    maxInt l = p := by
  cases l with
  | nil => exact absurd rfl hne
  | cons x xs =>
    have hx : x = p := hp x (List.mem_cons_self x xs)
    subst hx
    simp only [maxInt]
    have : ∀ ys : List Int, (∀ q ∈ ys, q = x) → ys.foldl max x = x := by
      intro ys
      induction ys with
      | nil => intro _; rfl
      | cons y ys ih =>
        intro hy
        have : y = x := hy y (List.mem_cons_self y ys)
        subst this
        simp only [List.foldl, max_self]
        exact ih (fun q hq => hy q (List.mem_cons_of_mem _ hq))
    exact this xs (fun q hq => hp q (List.mem_cons_of_mem _ hq))

/-! ## Claim C1: Reduce/Reduce resolution -/

/-- The pre-resolution Reduce/Reduce cell of `gC1` at `(state 0, "a")`. -/
def cellC1 : List Action :=
  [Action.reduce { lhs := "A", rhs := [epsSign], index := 0, lookaheads := ["a"], action := some 2 },
   Action.reduce { lhs := "B", rhs := [epsSign], index := 0, lookaheads := ["a"], action := some 3 }]

/-- C1, counterexample: in the `gC1` parse table the cell `(0, "a")` holds two
Reduce actions whose rules share the same precedence (both 0), yet table
construction succeeds without raising the Reduce-Reduce `GrammarNotLR1`
error — the first Reduce is kept.  The claim demands the error exactly in
this situation. -/
theorem C1_counterexample :
    generateParseTable gC1 (buildAutomaton Variant.lalr gC1 12) = some gC1T0 ∧
    (gC1T0.get? 0).map (fun row => rlookup row "a") = some (some cellC1) ∧
    (∃ p : Int, ∀ a ∈ cellC1.filter isReduceA, reducePrecOf (opsOfPatterns []) a = p) ∧
    buildTable gC1 (opsOfPatterns []) Favor.none (buildAutomaton Variant.lalr gC1 12) =
      Except.ok gC1T1 ∧
    (gC1T1.get? 0).map (fun row => rlookup row "a") = some (some (cellC1.take 1)) := by
  rw [gC1_build]
  refine ⟨by decide, by decide, ⟨0, by decide⟩, by decide, by decide⟩


/-- C1, amended: during conflict resolution, for a `(state, terminal)` cell
holding two or more Reduce actions and no Shift, the Reduce-Reduce
`GrammarNotLR1` error is raised exactly when the competing rules do *not*
all share the same precedence; when they all share one, the first-inserted
Reduce is kept in the cell. -/
theorem C1_amended_rr (ops : List (String × OpProp)) (favor : Favor) (sid : Nat)
    (term : String) (cell : List Action)
    (hs : cell.filter isShiftA = [])
    (hr : 2 ≤ (cell.filter isReduceA).length) :
    (resolveCell ops favor sid term cell =
        Except.error (LiquidError.grammarNotLR1RR sid term) ↔
      ¬ ∃ p : Int, ∀ a ∈ cell.filter isReduceA, reducePrecOf ops a = p) ∧
    ((∃ p : Int, ∀ a ∈ cell.filter isReduceA, reducePrecOf ops a = p) →
      resolveCell ops favor sid term cell = Except.ok ((cell.filter isReduceA).take 1)) := by
  have hrne : cell.filter isReduceA ≠ [] := by
    intro h
    rw [h] at hr
    simp at hr
  have hlen : 1 < cell.length :=
    lt_of_lt_of_le one_lt_two (le_trans hr (List.length_filter_le _ _))
  have hmapne : (cell.filter isReduceA).map (reducePrecOf ops) ≠ [] := by
    simpa using hrne
  have hiff : ((jsDedup ((cell.filter isReduceA).map (reducePrecOf ops))).length = 1 ↔
      ∃ p : Int, ∀ a ∈ cell.filter isReduceA, reducePrecOf ops a = p) := by
    rw [jsDedup_length_one_iff hmapne]
    constructor
    · rintro ⟨p, hp⟩
      exact ⟨p, fun a ha => hp _ (List.mem_map_of_mem _ ha)⟩
    · rintro ⟨p, hp⟩
      refine ⟨p, fun q hq => ?_⟩
      rcases List.mem_map.mp hq with ⟨a, ha, rfl⟩
      exact hp a ha
  have hgt : (cell.filter isReduceA).length > 1 := hr
  have hbody : resolveCell ops favor sid term cell =
      (if (cell.filter isReduceA).length > 1 then
        (if (jsDedup ((cell.filter isReduceA).map (reducePrecOf ops))).length ≠ 1 then
          Except.error (LiquidError.grammarNotLR1RR sid term)
        else
          match (cell.filter isReduceA).get?
              (((cell.filter isReduceA).map (reducePrecOf ops)).indexOf
                (maxInt ((cell.filter isReduceA).map (reducePrecOf ops)))) with
          | some a => Except.ok [a]
          | Option.none => Except.ok [])
      else Except.ok cell) := by
    simp only [resolveCell, if_pos hlen, hs, List.length_nil]
    rw [if_neg (by simp)]
  by_cases hd : (jsDedup ((cell.filter isReduceA).map (reducePrecOf ops))).length = 1
  · rcases hiff.mp hd with ⟨p, hp⟩
    obtain ⟨a, rest, hfe⟩ : ∃ a rest, cell.filter isReduceA = a :: rest := by
      cases h : cell.filter isReduceA with
      | nil => exact absurd h hrne
      | cons a rest => exact ⟨a, rest, rfl⟩
    have hmax : maxInt ((cell.filter isReduceA).map (reducePrecOf ops)) = p := by
      refine maxInt_all_eq hmapne ?_
      intro q hq
      rcases List.mem_map.mp hq with ⟨x, hx, rfl⟩
      exact hp x hx
    have hpa : reducePrecOf ops a = p := hp a (by rw [hfe]; exact List.mem_cons_self a rest)
    have hidx : (((cell.filter isReduceA).map (reducePrecOf ops)).indexOf
        (maxInt ((cell.filter isReduceA).map (reducePrecOf ops)))) = 0 := by
      rw [hmax, hfe, List.map_cons, ← hpa]
      simp [List.indexOf_cons_self]
    have hres : resolveCell ops favor sid term cell = Except.ok [a] := by
      rw [hbody, if_pos hgt, if_neg (by simpa using hd), hidx, hfe]
      rfl
    constructor
    · constructor
      · intro he
        rw [hres] at he
        exact absurd he (by simp)
      · intro hne
        exact absurd ⟨p, hp⟩ hne
    · intro _
      rw [hres, hfe]
      rfl
  · have herr : resolveCell ops favor sid term cell =
        Except.error (LiquidError.grammarNotLR1RR sid term) := by
      rw [hbody, if_pos hgt, if_pos hd]
    refine ⟨⟨fun _ => fun hex => hd (hiff.mpr hex), fun _ => herr⟩, fun hex => ?_⟩
    exact absurd hex (fun hex' => hd (hiff.mpr hex'))


/-- C1, witness: the amended Reduce-Reduce law applied to the concrete cell
`(0, "a")` of the `gC1` parse table. -/
theorem C1_witness :
    (cellC1.filter isShiftA = [] ∧ 2 ≤ (cellC1.filter isReduceA).length) ∧
    ((resolveCell (opsOfPatterns []) Favor.none 0 "a" cellC1 =
        Except.error (LiquidError.grammarNotLR1RR 0 "a") ↔
      ¬ ∃ p : Int, ∀ a ∈ cellC1.filter isReduceA, reducePrecOf (opsOfPatterns []) a = p) ∧
     ((∃ p : Int, ∀ a ∈ cellC1.filter isReduceA, reducePrecOf (opsOfPatterns []) a = p) →
      resolveCell (opsOfPatterns []) Favor.none 0 "a" cellC1 =
        Except.ok ((cellC1.filter isReduceA).take 1))) :=
  ⟨⟨by decide, by decide⟩,
    C1_amended_rr (opsOfPatterns []) Favor.none 0 "a" cellC1 (by decide) (by decide)⟩

/-! ## Claim C2: Shift/Reduce resolution at equal precedence -/

/-- The Reduce item of `E → E p E` as it appears in the `gC2` table. -/
def itemC2 : Item :=
  { lhs := "E", rhs := ["E", "p", "E"], index := 3, lookaheads := [eofSign, "p"], action := some 0 }

/-- The pre-resolution Shift/Reduce cell of `gC2` at `(state 4, "p")`. -/
def cellC2 : List Action := [Action.shift 3, Action.reduce itemC2]

/-- C2, counterexample: in the `gC2` table (terminal `p` declared with
precedence 1 and `Right` associativity, global favor `Reduce`), the cell
`(4, "p")` holds a Shift and a Reduce of equal precedence, and resolution
keeps the *Reduce* — the claim says `Right` associativity keeps the Shift and
that `favor` overrides only the `None`-associativity case. -/
theorem C2_counterexample :
    ((opLookup (opsOfPatterns patsC2) "p").bind (·.associativity) = some Assoc.right) ∧
    ((opLookup (opsOfPatterns patsC2) "p").bind (·.precedence)).getD 0 =
      rulePrecedence (opsOfPatterns patsC2) itemC2.rhs ∧
    generateParseTable gC2 (buildAutomaton Variant.lalr gC2 12) = some gC2T0 ∧
    (gC2T0.get? 4).map (fun row => rlookup row "p") = some (some cellC2) ∧
    buildTable gC2 (opsOfPatterns patsC2) Favor.reduce (buildAutomaton Variant.lalr gC2 12) =
      Except.ok gC2T1 ∧
    (gC2T1.get? 4).map (fun row => rlookup row "p") = some (some [Action.reduce itemC2]) := by
  rw [gC2_build]
  exact ⟨by decide, by decide, by decide, by decide, by decide, by decide⟩

/-- C2, amended: at equal shift and reduce precedence, `Left` associativity
*or* a global favor of `Reduce` keeps the Reduce; otherwise `Right`
associativity *or* a global favor of `Shift` keeps the Shift; otherwise the
Shift-Reduce `GrammarNotLR1` error is raised.  (`favor = Reduce` therefore
also overrides `Right` associativity; `favor = Shift` overrides only the
`None` case.) -/
theorem C2_amended_sr (ops : List (String × OpProp)) (favor : Favor) (sid : Nat)
    (term : String) (cell : List Action) (s0 : Nat) (r0 : Item)
    (hsh : (cell.filter isShiftA).head? = some (Action.shift s0))
    (hrd : cell.filter isReduceA = [Action.reduce r0])
    (heq : ((opLookup ops term).bind (·.precedence)).getD 0 = rulePrecedence ops r0.rhs) :
    resolveCell ops favor sid term cell =
      (if ((opLookup ops term).bind (·.associativity)) = some Assoc.left ∨ favor = Favor.reduce then
        Except.ok [Action.reduce r0]
      else if ((opLookup ops term).bind (·.associativity)) = some Assoc.right ∨ favor = Favor.shift then
        Except.ok [Action.shift s0]
      else Except.error (LiquidError.grammarNotLR1SR sid term)) := by
  have hlen : 1 < cell.length := by
    cases cell with
    | nil => simp at hsh
    | cons x xs =>
      cases xs with
      | nil =>
        cases x with
        | shift i =>
          simp [isReduceA, List.filter] at hrd
        | goto i => simp [isShiftA, List.filter] at hsh
        | reduce rr => simp [isShiftA, List.filter] at hsh
        | accept => simp [isShiftA, List.filter] at hsh
      | cons y ys => simp
  have hsl : 0 < (cell.filter isShiftA).length := by
    cases h : cell.filter isShiftA with
    | nil => rw [h] at hsh; simp at hsh
    | cons a l => simp [h]
  have hshead : (cell.filter isShiftA).head? = some (Action.shift s0) := hsh
  simp only [resolveCell, if_pos hlen]
  rw [if_pos ⟨hsl, by rw [hrd]; simp⟩]
  rw [hshead, hrd]
  simp only [List.head?]
  rw [if_pos heq]
  by_cases h1 : ((opLookup ops term).bind (·.associativity)) = some Assoc.left ∨ favor = Favor.reduce
  · rw [if_pos h1]
    simp
  · rw [if_neg h1]
    by_cases h2 : ((opLookup ops term).bind (·.associativity)) = some Assoc.right ∨ favor = Favor.shift
    · rw [if_pos h2]
      simp
    · rw [if_neg h2]


/-- C2, witness: the amended Shift-Reduce law applied to the concrete cell
`(4, "p")` of the `gC2` table under `favor = Reduce`. -/
theorem C2_witness :
    ((cellC2.filter isShiftA).head? = some (Action.shift 3) ∧
     cellC2.filter isReduceA = [Action.reduce itemC2] ∧
     ((opLookup (opsOfPatterns patsC2) "p").bind (·.precedence)).getD 0 =
       rulePrecedence (opsOfPatterns patsC2) itemC2.rhs) ∧
    resolveCell (opsOfPatterns patsC2) Favor.reduce 4 "p" cellC2 =
      (if ((opLookup (opsOfPatterns patsC2) "p").bind (·.associativity)) = some Assoc.left ∨
          Favor.reduce = Favor.reduce then
        Except.ok [Action.reduce itemC2]
      else if ((opLookup (opsOfPatterns patsC2) "p").bind (·.associativity)) = some Assoc.right ∨
          Favor.reduce = Favor.shift then
        Except.ok [Action.shift 3]
      else Except.error (LiquidError.grammarNotLR1SR 4 "p")) :=
  ⟨⟨by decide, by decide, by decide⟩,
    C2_amended_sr (opsOfPatterns patsC2) Favor.reduce 4 "p" cellC2 3 itemC2
      (by decide) (by decide) (by decide)⟩

/-! ## Claim C4: table cell discipline after conflict resolution -/

/-- The `$` cell of state 4 of the fully resolved `gC4` table. -/
def cellC4 : List Action :=
  [Action.reduce { lhs := "A", rhs := ["a"], index := 1, lookaheads := [eofSign], action := some 2 },
   Action.reduce { lhs := "B", rhs := ["a"], index := 1, lookaheads := [eofSign], action := some 3 }]

/-- C4, counterexample: the `gC4` table is built and resolved without any
`GrammarNotLR1` error, yet the `(state 4, $)` cell still holds two Reduce
actions — conflict resolution iterates only over `grammar.terminals`, which
never contains `$`. -/
theorem C4_counterexample :
    buildTable gC4 (opsOfPatterns []) Favor.none (buildAutomaton Variant.lalr gC4 12) =
      Except.ok gC4T1 ∧
    (gC4T1.get? 4).map (fun row => rlookup row eofSign) = some (some cellC4) ∧
    2 ≤ cellC4.length ∧
    eofSign ∉ Grammar.terminals gC4 := by
  rw [gC4_build]
  exact ⟨by decide, by decide, by decide, by decide⟩

/-! ## Claim C5: LALR kernel lookup and state merging -/

/-- The candidate kernel item `A → z •` produced by advancing state 3 of the
`gC5` automaton over `z`. -/
def candItemC5 : Item :=
  { lhs := "A", rhs := ["z"], index := 1, lookaheads := [eofSign], action := some 4 }

/-- C5, counterexample: in the fully built LALR automaton of `gC5`, state 3
(kernel `S → b • A`) transitions on `z` to state 7, whose kernel
`{A → z •, B → z •}` strictly core-contains the candidate kernel
`{A → z •}` derived from state 3's closure — the reused target is *not*
core-equal to the candidate, and no core-equal state was registered. -/
theorem C5_counterexample :
    buildAutomaton Variant.lalr gC5 16 = gC5A9 ∧
    (gC5A9.states.get? 3).map (fun st => tlookup st.transitions "z") = some (some 7) ∧
    (gC5A9.states.get? 3).map (fun st3 =>
      (gC5A9.states.get? 7).map (fun st7 =>
        (kernelCoreLE (advanceKernel st3.closure "z") st7.kernel,
         kernelCoreEq (advanceKernel st3.closure "z") st7.kernel))) =
      some (some (true, false)) ∧
    (gC5A9.states.filterMap (fun st =>
      if kernelCoreEq st.kernel [candItemC5] then some st else none)).length = 0 :=
  ⟨gC5_build, by decide, by decide, by decide⟩

/-! ## Claim C6: the UnexpectedToken suggestion set -/

def tokA6 : Token :=
  { ty := "a", lexeme := "a", groups := [], precedence := Prec.undef,
    associativity := Assoc.none, literal := Lit.emptyObj, start := 1, stop := 2 }

def tokB6 : Token :=
  { ty := "b", lexeme := "b", groups := [], precedence := Prec.undef,
    associativity := Assoc.none, literal := Lit.emptyObj, start := 1, stop := 2 }

/-- Modelled from the claim's words (for comparison with the code's
computation): `t'` is suggested when `Table[s][t']` holds a Shift, or when
some variable `v` has a defined (non-empty) cell and `t' ∈ FIRST(v)`, with ε
and `$` removed. -/
def claimedSuggestion (g : Grammar) (m : List (String × List String)) (row : Row)
    (x : String) : Bool :=
  (((rlookup row x).elim false (fun cell => cell.any isShiftA)) ||
    (row.any (fun p => g.isVariable p.1 &&
      ((rlookup row p.1).elim false (fun cell => !cell.isEmpty)) &&
      (mget m p.1).contains x))) &&
  !(x = epsSign) && !(x = eofSign)

/-- C6, counterexample: parsing `b` with the `gC6` (`S → a b`) parser hits an
empty cell at state 0 and raises `UnexpectedToken` whose suggestion list is
`["a", "b"]`; but `b` is not in the claim's suggestion set (no Shift on `b`
at state 0 and no defined variable cell whose FIRST contains `b`). -/
theorem C6_counterexample :
    buildTable gC6 (opsOfPatterns []) Favor.none (buildAutomaton Variant.lalr gC6 8) =
      Except.ok gC6T1 ∧
    firstsMap gC6 8 = gC6M ∧
    parseTokens gC6 gC6M gC6T1 defaultConfig [tokB6, eofToken 2] =
      Except.error (LiquidError.unexpectedToken "b" 1 ["a", "b"]) ∧
    (gC6T1.get? 0).map (fun row => claimedSuggestion gC6 gC6M row "b") = some false ∧
    (gC6T1.get? 0).map (fun row => claimedSuggestion gC6 gC6M row "a") = some true := by
  have hb := gC6_build
  refine ⟨by rw [hb]; decide, by decide, ?_, by decide, by decide⟩
  show parseGo gC6 gC6M gC6T1 5000 [tokB6, eofToken 2] [StackElem.state 0] = _
  rfl


/-- C6, amended: on an empty (defined) table cell the driver raises
`UnexpectedToken` carrying the token's lexeme and location, and a suggestion
set computed from *all* row keys regardless of cell contents: every
non-variable key, plus the whole FIRST set of every variable key, with ε and
`$` removed. -/
theorem C6_amended_suggestions (g : Grammar) (m : List (String × List String))
    (table : Table) (rem : Nat) (tokens : List Token) (stack : List StackElem)
    (token : Token) (sid : Nat) (row : Row)
    (htok : tokens.head? = some token)
    (hst : stack.head? = some (StackElem.state sid))
    (hrow : table.get? sid = some row)
    (hcell : rlookup row token.ty = some []) :
    parseGo g m table (rem + 1) tokens stack =
      Except.error (LiquidError.unexpectedToken token.lexeme token.start (expectedOf g m row)) ∧
    ∀ x, x ∈ expectedOf g m row ↔
      ((∃ k ∈ row.map Prod.fst, if g.isVariable k then x ∈ mget m k else x = k) ∧
        x ≠ epsSign ∧ x ≠ eofSign) := by
  constructor
  · cases tokens with
    | nil => simp at htok
    | cons t ts =>
      cases stack with
      | nil => simp at hst
      | cons e st =>
        have ht : t = token := by simpa using htok
        subst ht
        cases e with
        | state sid' =>
          have hsid : sid' = sid := by simpa [StackElem.state.injEq] using hst
          subst hsid
          simp only [parseGo, List.head?_cons, hrow, hcell]
          rfl
        | term t' => simp at hst
        | varE s c => simp at hst
        | poison => simp at hst
  · intro x
    simp only [expectedOf, List.mem_filter, mem_jsDedup, List.mem_flatten, List.mem_map]
    constructor
    · rintro ⟨⟨l, ⟨p, hp, rfl⟩, hx⟩, hpred⟩
      refine ⟨⟨p.1, ⟨p, hp, rfl⟩, ?_⟩, ?_, ?_⟩
      · by_cases hv : g.isVariable p.1
        · rw [if_pos hv]
          rw [if_pos hv] at hx
          exact hx
        · rw [if_neg hv]
          rw [if_neg hv] at hx
          simpa using hx
      · intro he
        rw [he] at hpred
        simp at hpred
      · intro he
        rw [he] at hpred
        simp at hpred
    · rintro ⟨⟨k, ⟨p, hp, rfl⟩, hx⟩, h1, h2⟩
      constructor
      · refine ⟨if g.isVariable p.1 then mget m p.1 else [p.1], ⟨p, hp, rfl⟩, ?_⟩
        by_cases hv : g.isVariable p.1
        · rw [if_pos hv]
          rw [if_pos hv] at hx
          exact hx
        · rw [if_neg hv]
          rw [if_neg hv] at hx
          simp [hx]
      · simp [h1, h2]

/-- C6, witness: the amended suggestion law at the concrete `gC6` parse of the
token `b` from state 0. -/
theorem C6_witness :
    (([tokB6, eofToken 2].head? = some tokB6) ∧
     ([StackElem.state 0].head? = some (StackElem.state 0)) ∧
     (gC6T1.get? 0).isSome ∧
     ((gC6T1.get? 0).getD []).isEmpty = false) ∧
    (parseGo gC6 gC6M gC6T1 (4999 + 1) [tokB6, eofToken 2] [StackElem.state 0] =
      Except.error (LiquidError.unexpectedToken tokB6.lexeme tokB6.start
        (expectedOf gC6 gC6M ((gC6T1.get? 0).getD []))) ∧
     ∀ x, x ∈ expectedOf gC6 gC6M ((gC6T1.get? 0).getD []) ↔
      ((∃ k ∈ ((gC6T1.get? 0).getD []).map Prod.fst,
          if Grammar.isVariable gC6 k then x ∈ mget gC6M k else x = k) ∧
        x ≠ epsSign ∧ x ≠ eofSign)) :=
  ⟨⟨rfl, rfl, by decide, by decide⟩,
    C6_amended_suggestions gC6 gC6M gC6T1 4999 [tokB6, eofToken 2] [StackElem.state 0]
      tokB6 0 ((gC6T1.get? 0).getD []) rfl rfl (by decide) (by decide)⟩

/-! ## Claim C7: the iteration bound -/

/-- C7: the driver loop is bounded by `config.maxIterations` (default 5000):
entering an iteration past the bound raises the iteration-limit error, and
with `maxIterations = 1` any parse whose first table action is a Shift (any
non-trivial parse starts with a Shift or a Reduce) aborts with that error. -/
theorem C7_iteration_limit :
    defaultConfig.maxIterations = 5000 ∧
    (∀ (g : Grammar) (m : List (String × List String)) (table : Table)
        (tokens : List Token) (stack : List StackElem),
      parseGo g m table 0 tokens stack = Except.error LiquidError.iterationLimit) ∧
    (∀ (g : Grammar) (m : List (String × List String)) (table : Table) (cfg : Config)
        (tokens : List Token) (t : Token) (row : Row) (cell : List Action) (s' : Nat),
      cfg.maxIterations = 1 →
      tokens.head? = some t →
      table.get? 0 = some row →
      rlookup row t.ty = some cell →
      cell.head? = some (Action.shift s') →
      parseTokens g m table cfg tokens = Except.error LiquidError.iterationLimit) := by
  refine ⟨rfl, fun _ _ _ _ _ => rfl, ?_⟩
  intro g m table cfg tokens t row cell s' hone htok hrow hcell hsh
  cases tokens with
  | nil => simp at htok
  | cons t0 ts =>
    have ht : t0 = t := by simpa using htok
    subst ht
    show parseGo g m table cfg.maxIterations (t0 :: ts) [StackElem.state 0] = _
    rw [hone]
    show parseGo g m table (0 + 1) (t0 :: ts) [StackElem.state 0] = _
    simp only [parseGo, List.head?_cons, hrow, hcell, hsh]

/-- C7, witness: parsing `a b` with the `gC6` parser and `maxIterations = 1`
aborts with the iteration-limit error (the first action is `Shift 2`). -/
theorem C7_witness :
    ({ defaultConfig with maxIterations := 1 }.maxIterations = 1 ∧
     ([tokA6, tokB6, eofToken 3].head? = some tokA6) ∧
     gC6T1.get? 0 = some ((gC6T1.get? 0).getD []) ∧
     rlookup ((gC6T1.get? 0).getD []) tokA6.ty = some [Action.shift 2] ∧
     ([Action.shift 2].head? = some (Action.shift 2))) ∧
    parseTokens gC6 gC6M gC6T1 { defaultConfig with maxIterations := 1 }
      [tokA6, tokB6, eofToken 3] = Except.error LiquidError.iterationLimit :=
  ⟨⟨rfl, rfl, by decide, by decide, rfl⟩,
    (C7_iteration_limit.2.2) gC6 gC6M gC6T1 { defaultConfig with maxIterations := 1 }
      [tokA6, tokB6, eofToken 3] tokA6 ((gC6T1.get? 0).getD []) [Action.shift 2] 2
      rfl rfl (by decide) (by decide) rfl⟩


/-! ## Claim C3: the Reduce step of the driver -/

/-- The payloads of a list of stack frames, in the given order: a Variable
frame contributes its context, a Terminal frame its token. -/
def payloadsOf (frames : List StackElem) : List Value :=
  frames.filterMap (fun f =>
    match f with
    | StackElem.term t => some (Value.tok t)
    | StackElem.varE _ c => some c
    | _ => none)

/-- A symbol frame (Terminal or Variable). -/
def isSymFrame : StackElem → Bool
  | StackElem.term _ => true
  | StackElem.varE _ _ => true
  | _ => false

/-- The stack segment holding `pairs` of (state id, symbol frame) from the
top down. -/
def stackSeg (pairs : List (Nat × StackElem)) : List StackElem :=
  pairs.flatMap (fun p => [StackElem.state p.1, p.2])

theorem stackSeg_length (pairs : List (Nat × StackElem)) :
    (stackSeg pairs).length = 2 * pairs.length := by
  induction pairs with
  | nil => rfl
  | cons p ps ih =>
    simp only [stackSeg, List.flatMap_cons] at ih ⊢
    simp [ih]
    omega

theorem payload_foldl_seg (pairs : List (Nat × StackElem)) (acc : List Value)
    (hsym : ∀ f ∈ pairs.map Prod.snd, isSymFrame f = true) :
    ((stackSeg pairs).foldl
      (fun (acc : List Value) e =>
        match e with
        | StackElem.state _ => acc
        | StackElem.varE _ c => acc ++ [c]
        | StackElem.term t => acc ++ [Value.tok t]
        | StackElem.poison => acc)
      acc) = acc ++ payloadsOf (pairs.map Prod.snd) := by
  induction pairs generalizing acc with
  | nil => simp [stackSeg, payloadsOf]
  | cons p ps ih =>
    have hp : isSymFrame p.2 = true := hsym p.2 (by simp)
    have hrest : ∀ f ∈ ps.map Prod.snd, isSymFrame f = true := by
      intro f hf
      exact hsym f (by simp [hf])
    cases hpe : p.2 with
    | term t =>
      simp only [stackSeg, List.flatMap_cons, List.foldl_append, List.foldl_cons, List.foldl_nil]
      rw [hpe]
      have := ih (acc ++ [Value.tok t]) hrest
      simp only [stackSeg] at this
      rw [this]
      simp [payloadsOf, hpe, List.filterMap_cons]
    | varE s c =>
      simp only [stackSeg, List.flatMap_cons, List.foldl_append, List.foldl_cons, List.foldl_nil]
      rw [hpe]
      have := ih (acc ++ [c]) hrest
      simp only [stackSeg] at this
      rw [this]
      simp [payloadsOf, hpe, List.filterMap_cons]
    | state i => rw [hpe] at hp; simp [isSymFrame] at hp
    | poison => rw [hpe] at hp; simp [isSymFrame] at hp

/-- C3: a `Reduce(r)` step pops exactly `2n` frames (`n` the number of non-ε
rhs symbols), hands the popped symbol frames' payloads (Variable context /
Terminal token) to the rule's action in original left-to-right source order
(the reverse of pop order), and pushes the Variable frame carrying the
action's value together with the Goto target state. -/
theorem C3_reduce_step (table : Table) (rule : Item) (pairs : List (Nat × StackElem))
    (sb : Nat) (rest : List StackElem) (aid : Nat) (row2 : Row) (cell2 : List Action)
    (gid : Nat)
    (hn : pairs.length = (rule.rhs.filter (fun s => s ≠ epsSign)).length)
    (hsym : ∀ f ∈ pairs.map Prod.snd, isSymFrame f = true)
    (hact : rule.action = some aid)
    (hrow : table.get? sb = some row2)
    (hcell : rlookup row2 rule.lhs = some cell2)
    (hgoto : cell2.head? = some (Action.goto gid)) :
    reduceStep table rule (stackSeg pairs ++ StackElem.state sb :: rest) =
      Except.ok
        (StackElem.state gid ::
          StackElem.varE rule.lhs
            (Value.act aid (payloadsOf ((pairs.map Prod.snd).reverse))) ::
          StackElem.state sb :: rest) := by
  have hlen : (stackSeg pairs).length = 2 * (rule.rhs.filter (fun s => s ≠ epsSign)).length := by
    rw [stackSeg_length, hn]
  have htake : (stackSeg pairs ++ StackElem.state sb :: rest).take
      (2 * (rule.rhs.filter (fun s => s ≠ epsSign)).length) = stackSeg pairs := by
    rw [← hlen, List.take_left]
  have hdrop : (stackSeg pairs ++ StackElem.state sb :: rest).drop
      (2 * (rule.rhs.filter (fun s => s ≠ epsSign)).length) = StackElem.state sb :: rest := by
    rw [← hlen, List.drop_left]
  simp only [reduceStep, htake, hdrop, List.head?_cons]
  rw [payload_foldl_seg pairs [] hsym]
  simp only [List.nil_append, hact, hrow, hcell, hgoto]
  have hrevpay : (payloadsOf (pairs.map Prod.snd)).reverse =
      payloadsOf ((pairs.map Prod.snd).reverse) := by
    simp only [payloadsOf]
    rw [List.filterMap_reverse]
  rw [hrevpay]

/-- The completed item `S → a b •` of `gC6`, as stored in its table. -/
def ruleC3 : Item :=
  { lhs := "S", rhs := ["a", "b"], index := 2, lookaheads := [eofSign], action := some 0 }

/-- C3, witness: reducing `S → a b` on the `gC6` parser's stack after the two
shifts: 4 frames are popped, the action receives `[tok a, tok b]` in source
order, and `Variable(S)` is pushed with the Goto target 1. -/
theorem C3_witness :
    (([((3 : Nat), StackElem.term tokB6), ((2 : Nat), StackElem.term tokA6)].length =
        (ruleC3.rhs.filter (fun s => s ≠ epsSign)).length) ∧
     ruleC3.action = some 0) ∧
    reduceStep gC6T1 ruleC3
        (stackSeg [(3, StackElem.term tokB6), (2, StackElem.term tokA6)] ++
          StackElem.state 0 :: []) =
      Except.ok
        (StackElem.state 1 ::
          StackElem.varE "S"
            (Value.act 0 (payloadsOf
              (([((3 : Nat), StackElem.term tokB6),
                 ((2 : Nat), StackElem.term tokA6)].map Prod.snd).reverse))) ::
          StackElem.state 0 :: []) :=
  ⟨⟨by decide, rfl⟩,
    C3_reduce_step gC6T1 ruleC3
      [(3, StackElem.term tokB6), (2, StackElem.term tokA6)] 0 [] 0
      ((gC6T1.get? 0).getD []) [Action.goto 1] 1
      (by decide) (by decide) rfl
      (by decide) (by decide) rfl⟩


/-! ## Claim C8: group-expansion rule counting -/

/-- `S → :G: :G:` -/
def rulesC8 : List GrammarProductionRule := [{ lhs := "S", rhs := [":G:", ":G:"], action := some 0 }]

/-- Two patterns `a`, `b`, both in group `G`. -/
def patsC8 : List Pattern :=
  [{ name := "a", groups := ["G"], precedence := none, associativity := Assoc.none },
   { name := "b", groups := ["G"], precedence := none, associativity := Assoc.none }]

/-- The expanded rule list: one rule per *combination* of matching patterns. -/
def expandedC8 : List GrammarProductionRule :=
  [{ lhs := "S", rhs := ["a", "a"], action := some 0 },
   { lhs := "S", rhs := ["a", "b"], action := some 0 },
   { lhs := "S", rhs := ["b", "a"], action := some 0 },
   { lhs := "S", rhs := ["b", "b"], action := some 0 }]

/-- C8, counterexample: the grammar `S → :G: :G:` with two patterns in group
`G` (`k = 2` occurrences, `m = 2` matching patterns) expands to `4` rules,
not to the claimed `1 + k·(m − 1) = 3`: expansion is multiplicative per
rule, not additive per occurrence. -/
theorem C8_counterexample :
    mkGrammarRules rulesC8 patsC8 10 10 = some expandedC8 ∧
    rulesC8.length = 1 ∧
    expandedC8.length = 4 ∧
    ((rulesC8.flatMap (fun r => r.rhs)).filter (fun s => isGroupSym s)).length = 2 ∧
    (patsC8.filter (fun p => p.groups.contains "G")).length = 2 ∧
    expandedC8.length ≠ rulesC8.length + 2 * (2 - 1) := by
  exact ⟨by decide, rfl, rfl, by decide, by decide, by decide⟩


/-- The number of patterns matching a rule's first group occurrence (1 when
the rule has none). -/
def groupExpansionCount (pats : List Pattern) (r : GrammarProductionRule) : Nat :=
  match r.rhs.find? (fun s => isGroupSym s) with
  | some gsym => (pats.filter (fun p => p.groups.contains (groupNameOf gsym))).length
  | Option.none => 1

/-- The expansion of a rule at its first group occurrence: one copy per
matching pattern, the group symbol replaced by the pattern name. -/
def ungroupExp (pats : List Pattern) (r : GrammarProductionRule) : List GrammarProductionRule :=
  match r.rhs.findIdx? (fun s => isGroupSym s) with
  | some i =>
    match r.rhs.get? i with
    | some gsym =>
      (pats.filter (fun p => p.groups.contains (groupNameOf gsym))).map
        (fun p => { r with rhs := spliceAt i p.name r.rhs })
    | Option.none => [r]
  | Option.none => [r]

/-- A rule whose rhs symbols never start with `:`. -/
def CleanRule (r : GrammarProductionRule) : Prop :=
  ∀ s ∈ r.rhs, jsStartsWith s ":" = false

/-- A rule with exactly one group occurrence, every other symbol clean. -/
def OneGroupRule (r : GrammarProductionRule) : Prop :=
  ∃ pre gsym post, r.rhs = pre ++ gsym :: post ∧ isGroupSym gsym = true ∧
    (∀ s ∈ pre, jsStartsWith s ":" = false) ∧ (∀ s ∈ post, jsStartsWith s ":" = false)

theorem isGroupSym_false_of_clean {s : String} (h : jsStartsWith s ":" = false) :
    isGroupSym s = false := by
  simp [isGroupSym, h]

theorem jsStartsWith_of_group {s : String} (h : isGroupSym s = true) :
    jsStartsWith s ":" = true := by
  simp only [isGroupSym, Bool.and_eq_true] at h
  exact h.1

theorem findIdx_clean_none {l : List String} (h : ∀ s ∈ l, isGroupSym s = false) :
    ∀ i, l.findIdx? (fun s => isGroupSym s) i = none := by
  induction l with
  | nil => intro i; rfl
  | cons x xs ih =>
    intro i
    rw [List.findIdx?_cons]
    rw [h x (List.mem_cons_self x xs)]
    simp only [Bool.false_eq_true, if_false]
    exact ih (fun s hs => h s (List.mem_cons_of_mem _ hs)) (i + 1)

theorem findIdx_group_decomp {pre post : List String} {gsym : String}
    (hpre : ∀ s ∈ pre, isGroupSym s = false) (hg : isGroupSym gsym = true) :
    ∀ i, (pre ++ gsym :: post).findIdx? (fun s => isGroupSym s) i = some (i + pre.length) := by
  induction pre generalizing post with
  | nil =>
    intro i
    simp [List.findIdx?_cons, hg]
  | cons x xs ih =>
    intro i
    rw [List.cons_append, List.findIdx?_cons]
    rw [hpre x (List.mem_cons_self x xs)]
    simp only [Bool.false_eq_true, if_false]
    rw [ih (fun s hs => hpre s (List.mem_cons_of_mem _ hs)) (i + 1)]
    simp only [List.length_cons]
    congr 1
    omega

theorem find_group_decomp {pre post : List String} {gsym : String}
    (hpre : ∀ s ∈ pre, isGroupSym s = false) (hg : isGroupSym gsym = true) :
    (pre ++ gsym :: post).find? (fun s => isGroupSym s) = some gsym := by
  induction pre with
  | nil => simp [List.find?_cons, hg]
  | cons x xs ih =>
    rw [List.cons_append, List.find?_cons]
    rw [hpre x (List.mem_cons_self x xs)]
    exact ih (fun s hs => hpre s (List.mem_cons_of_mem _ hs))

theorem get_group_decomp {pre post : List String} {gsym : String} :
    (pre ++ gsym :: post).get? pre.length = some gsym := by
  rw [List.get?_append_right (Nat.le_refl _)]
  simp

theorem spliceAt_decomp (pre post : List String) (gsym name : String) :
    spliceAt pre.length name (pre ++ gsym :: post) = pre ++ name :: post := by
  have h1 : (pre ++ gsym :: post).take pre.length = pre := List.take_left pre _
  have h2 : (pre ++ gsym :: post).drop (pre.length + 1) = post := by
    have he : pre ++ gsym :: post = (pre ++ [gsym]) ++ post := by simp
    rw [he]
    have hl : pre.length + 1 = (pre ++ [gsym]).length := by simp
    rw [hl, List.drop_left]
  simp only [spliceAt, h1, h2]


/-- Per-visit expansion contributed by a pending list in the constructor loop. -/
def pendingExpansion (pats : List Pattern) : List GrammarProductionRule → List GrammarProductionRule
  | [] => []
  | r :: rest =>
    (if (r.rhs.findIdx? (fun s => isGroupSym s)).isSome then ungroupExp pats r else []) ++
      pendingExpansion pats rest

theorem mapM_option_eq {α β : Type} (f : α → Option β) (g : α → β) :
    ∀ l : List α, (∀ x ∈ l, f x = some (g x)) → l.mapM f = some (l.map g) := by
  intro l
  induction l with
  | nil => intro _; rfl
  | cons x xs ih =>
    intro h
    rw [List.mapM_cons, h x (List.mem_cons_self x xs),
      ih (fun y hy => h y (List.mem_cons_of_mem _ hy))]
    rfl

theorem flatten_map_singleton {α β : Type} (f : α → β) :
    ∀ l : List α, (l.map (fun x => [f x])).flatten = l.map f := by
  intro l
  induction l with
  | nil => rfl
  | cons x xs ih => simp [ih]

theorem ungroupF_clean {pats : List Pattern} {r : GrammarProductionRule}
    (h : CleanRule r) (f : Nat) : ungroupF pats (f + 1) r = some [r] := by
  have hn : r.rhs.findIdx? (fun s => isGroupSym s) 0 = none :=
    findIdx_clean_none (fun s hs => isGroupSym_false_of_clean (h s hs)) 0
  simp [ungroupF, hn]

theorem ungroupExp_spec {pats : List Pattern} {r : GrammarProductionRule}
    {pre post : List String} {gsym : String}
    (hr : r.rhs = pre ++ gsym :: post) (hg : isGroupSym gsym = true)
    (hpre : ∀ s ∈ pre, jsStartsWith s ":" = false) :
    ungroupExp pats r =
      (pats.filter (fun p => p.groups.contains (groupNameOf gsym))).map
        (fun p => { r with rhs := pre ++ p.name :: post }) ∧
    groupExpansionCount pats r =
      (pats.filter (fun p => p.groups.contains (groupNameOf gsym))).length := by
  have hpre' : ∀ s ∈ pre, isGroupSym s = false :=
    fun s hs => isGroupSym_false_of_clean (hpre s hs)
  have hidx : r.rhs.findIdx? (fun s => isGroupSym s) 0 = some pre.length := by
    rw [hr]
    simpa using @findIdx_group_decomp pre post gsym hpre' hg 0
  have hget : r.rhs.get? pre.length = some gsym := by
    rw [hr]; exact get_group_decomp
  constructor
  · simp only [ungroupExp, hidx, hget]
    apply List.map_congr_left
    intro p _
    rw [hr, spliceAt_decomp]
  · simp only [groupExpansionCount]
    rw [hr, find_group_decomp hpre' hg]

theorem ungroupExp_clean {pats : List Pattern} {r : GrammarProductionRule}
    {pre post : List String} {gsym : String}
    (hr : r.rhs = pre ++ gsym :: post) (hg : isGroupSym gsym = true)
    (hpre : ∀ s ∈ pre, jsStartsWith s ":" = false)
    (hpost : ∀ s ∈ post, jsStartsWith s ":" = false)
    (hpn : ∀ p ∈ pats, jsStartsWith p.name ":" = false) :
    ∀ r' ∈ ungroupExp pats r, CleanRule r' := by
  rw [(ungroupExp_spec hr hg hpre).1]
  intro r' hr'
  rw [List.mem_map] at hr'
  obtain ⟨p, hp, he⟩ := hr'
  have hpnm : jsStartsWith p.name ":" = false := hpn p (List.mem_of_mem_filter hp)
  intro s hs
  rw [← he] at hs
  simp only [List.mem_append, List.mem_cons] at hs
  rcases hs with h1 | h2 | h3
  · exact hpre s h1
  · rw [h2]; exact hpnm
  · exact hpost s h3

theorem ungroupF_onegroup {pats : List Pattern} {r : GrammarProductionRule}
    {pre post : List String} {gsym : String}
    (hr : r.rhs = pre ++ gsym :: post) (hg : isGroupSym gsym = true)
    (hpre : ∀ s ∈ pre, jsStartsWith s ":" = false)
    (hpost : ∀ s ∈ post, jsStartsWith s ":" = false)
    (hpn : ∀ p ∈ pats, jsStartsWith p.name ":" = false) (k : Nat) :
    ungroupF pats (k + 2) r = some (ungroupExp pats r) := by
  have hpre' : ∀ s ∈ pre, isGroupSym s = false :=
    fun s hs => isGroupSym_false_of_clean (hpre s hs)
  have hidx : r.rhs.findIdx? (fun s => isGroupSym s) 0 = some pre.length := by
    rw [hr]
    simpa using @findIdx_group_decomp pre post gsym hpre' hg 0
  have hget : r.rhs.get? pre.length = some gsym := by
    rw [hr]; exact get_group_decomp
  have hmm : (pats.filter (fun p => p.groups.contains (groupNameOf gsym))).mapM
      (fun p => ungroupF pats (k + 1) { r with rhs := spliceAt pre.length p.name r.rhs }) =
      some ((pats.filter (fun p => p.groups.contains (groupNameOf gsym))).map
        (fun p => [{ r with rhs := pre ++ p.name :: post }])) := by
    apply mapM_option_eq
    intro p hp
    have hsp : spliceAt pre.length p.name r.rhs = pre ++ p.name :: post := by
      rw [hr]; exact spliceAt_decomp pre post gsym p.name
    rw [hsp]
    refine ungroupF_clean ?_ k
    intro s hs
    simp only [List.mem_append, List.mem_cons] at hs
    rcases hs with h1 | h2 | h3
    · exact hpre s h1
    · rw [h2]; exact hpn p (List.mem_of_mem_filter hp)
    · exact hpost s h3
  conv_lhs => rw [ungroupF]
  simp only [hidx, hget, hmm, Option.map_some']
  rw [flatten_map_singleton, (ungroupExp_spec hr hg hpre).1]

theorem pendingExpansion_append (pats : List Pattern) :
    ∀ l1 l2 : List GrammarProductionRule,
      pendingExpansion pats (l1 ++ l2) = pendingExpansion pats l1 ++ pendingExpansion pats l2 := by
  intro l1 l2
  induction l1 with
  | nil => rfl
  | cons r rest ih => simp [pendingExpansion, ih]

theorem pendingExpansion_clean (pats : List Pattern) :
    ∀ l : List GrammarProductionRule, (∀ r ∈ l, CleanRule r) →
      pendingExpansion pats l = [] := by
  intro l
  induction l with
  | nil => intro _; rfl
  | cons r rest ih =>
    intro h
    have hn : (r.rhs.findIdx? (fun s => isGroupSym s)).isSome = false := by
      rw [findIdx_clean_none
        (fun s hs => isGroupSym_false_of_clean (h r (List.mem_cons_self r rest) s hs)) 0]
      rfl
    simp only [pendingExpansion, hn, Bool.false_eq_true, if_false, List.nil_append]
    exact ih (fun r' hr' => h r' (List.mem_cons_of_mem _ hr'))


theorem grammarCtorLoop_clean (pats : List Pattern) (uf : Nat) :
    ∀ (lf : Nat) (pending acc : List GrammarProductionRule),
      (∀ r ∈ pending, CleanRule r) → pending.length + 1 ≤ lf →
      grammarCtorLoop pats uf lf pending acc = some acc := by
  intro lf
  induction lf with
  | zero => intro pending acc _ hlen; omega
  | succ f ih =>
    intro pending acc h hlen
    cases pending with
    | nil => rfl
    | cons r rest =>
      have hclean := h r (List.mem_cons_self r rest)
      have hn : (r.rhs.findIdx? (fun s => isGroupSym s)).isSome = false := by
        rw [findIdx_clean_none (fun s hs => isGroupSym_false_of_clean (hclean s hs)) 0]
        rfl
      unfold grammarCtorLoop
      simp only [hn, Bool.false_eq_true, if_false]
      refine ih rest acc (fun r' hr' => h r' (List.mem_cons_of_mem _ hr')) ?_
      simp only [List.length_cons] at hlen
      omega

theorem grammarCtorLoop_spec (pats : List Pattern) (k : Nat)
    (hpn : ∀ p ∈ pats, jsStartsWith p.name ":" = false) :
    ∀ (lf : Nat) (pending acc : List GrammarProductionRule),
      (∀ r ∈ pending, CleanRule r ∨ OneGroupRule r) →
      pending.length + (pendingExpansion pats pending).length + 1 ≤ lf →
      grammarCtorLoop pats (k + 2) lf pending acc =
        some (acc ++ pendingExpansion pats pending) := by
  intro lf
  induction lf with
  | zero => intro pending acc _ hlen; omega
  | succ f ih =>
    intro pending acc hp hlen
    cases pending with
    | nil => simp [grammarCtorLoop, pendingExpansion]
    | cons r rest =>
      have hrest : ∀ r' ∈ rest, CleanRule r' ∨ OneGroupRule r' :=
        fun r' hr' => hp r' (List.mem_cons_of_mem _ hr')
      rcases hp r (List.mem_cons_self r rest) with hclean | hone
      · have hn : (r.rhs.findIdx? (fun s => isGroupSym s)).isSome = false := by
          rw [findIdx_clean_none (fun s hs => isGroupSym_false_of_clean (hclean s hs)) 0]
          rfl
        unfold grammarCtorLoop
        simp only [hn, Bool.false_eq_true, if_false]
        have hpe : pendingExpansion pats (r :: rest) = pendingExpansion pats rest := by
          simp [pendingExpansion, hn]
        rw [ih rest acc hrest (by rw [hpe] at hlen; simp only [List.length_cons] at hlen; omega)]
        rw [hpe]
      · obtain ⟨pre, gsym, post, hr, hg, hpre, hpost⟩ := hone
        have hpre' : ∀ s ∈ pre, isGroupSym s = false :=
          fun s hs => isGroupSym_false_of_clean (hpre s hs)
        have hidx : r.rhs.findIdx? (fun s => isGroupSym s) 0 = some pre.length := by
          rw [hr]
          simpa using @findIdx_group_decomp pre post gsym hpre' hg 0
        have hsome : (r.rhs.findIdx? (fun s => isGroupSym s)).isSome = true := by
          rw [hidx]; rfl
        have hu : ungroupF pats (k + 2) r = some (ungroupExp pats r) :=
          ungroupF_onegroup hr hg hpre hpost hpn k
        have hexpclean : ∀ r' ∈ ungroupExp pats r, CleanRule r' :=
          ungroupExp_clean hr hg hpre hpost hpn
        have hpe : pendingExpansion pats (r :: rest) =
            ungroupExp pats r ++ pendingExpansion pats rest := by
          simp [pendingExpansion, hsome]
        unfold grammarCtorLoop
        simp only [hsome, if_true, hu]
        have hnext : ∀ r' ∈ rest ++ ungroupExp pats r, CleanRule r' ∨ OneGroupRule r' := by
          intro r' hr'
          rcases List.mem_append.mp hr' with h1 | h2
          · exact hrest r' h1
          · exact Or.inl (hexpclean r' h2)
        have hpe2 : pendingExpansion pats (rest ++ ungroupExp pats r) =
            pendingExpansion pats rest := by
          rw [pendingExpansion_append, pendingExpansion_clean pats _ hexpclean, List.append_nil]
        have hlen2 : (rest ++ ungroupExp pats r).length +
            (pendingExpansion pats (rest ++ ungroupExp pats r)).length + 1 ≤ f := by
          rw [hpe2]
          rw [hpe] at hlen
          simp only [List.length_cons, List.length_append] at hlen ⊢
          omega
        rw [ih (rest ++ ungroupExp pats r) (acc ++ ungroupExp pats r) hnext hlen2]
        rw [hpe, hpe2]
        simp [List.append_assoc]

theorem find_clean_none {l : List String} (h : ∀ s ∈ l, isGroupSym s = false) :
    l.find? (fun s => isGroupSym s) = none := by
  rw [List.find?_eq_none]
  intro x hx
  simp [h x hx]

theorem groupExpansionCount_clean {pats : List Pattern} {r : GrammarProductionRule}
    (h : CleanRule r) : groupExpansionCount pats r = 1 := by
  simp only [groupExpansionCount]
  rw [find_clean_none (fun s hs => isGroupSym_false_of_clean (h s hs))]

theorem count_assemble (pats : List Pattern) :
    ∀ l : List GrammarProductionRule,
      (∀ r ∈ l, CleanRule r ∨ OneGroupRule r) →
      (l.filter (fun r => r.rhs.all (fun s => !jsStartsWith s ":"))).length +
          (pendingExpansion pats l).length =
        (l.map (fun r => groupExpansionCount pats r)).sum := by
  intro l
  induction l with
  | nil => intro _; rfl
  | cons r rest ih =>
    intro h
    have hrest := fun r' hr' => h r' (List.mem_cons_of_mem _ hr')
    rcases h r (List.mem_cons_self r rest) with hclean | hone
    · have hb : r.rhs.all (fun s => !jsStartsWith s ":") = true := by
        rw [List.all_eq_true]
        intro s hs
        simp [hclean s hs]
      have hn : (r.rhs.findIdx? (fun s => isGroupSym s)).isSome = false := by
        rw [findIdx_clean_none (fun s hs => isGroupSym_false_of_clean (hclean s hs)) 0]
        rfl
      simp only [List.filter_cons, hb, if_true, List.length_cons, pendingExpansion, hn,
        Bool.false_eq_true, if_false, List.nil_append, List.map_cons, List.sum_cons,
        groupExpansionCount_clean hclean]
      rw [← ih hrest]
      omega
    · obtain ⟨pre, gsym, post, hr, hg, hpre, hpost⟩ := hone
      have hgs : jsStartsWith gsym ":" = true := jsStartsWith_of_group hg
      have hb : r.rhs.all (fun s => !jsStartsWith s ":") = false := by
        rw [List.all_eq_false]
        refine ⟨gsym, ?_, by simp [hgs]⟩
        rw [hr]
        exact List.mem_append_right pre (List.mem_cons_self gsym post)
      have hpre' : ∀ s ∈ pre, isGroupSym s = false :=
        fun s hs => isGroupSym_false_of_clean (hpre s hs)
      have hidx : r.rhs.findIdx? (fun s => isGroupSym s) 0 = some pre.length := by
        rw [hr]
        simpa using @findIdx_group_decomp pre post gsym hpre' hg 0
      have hsome : (r.rhs.findIdx? (fun s => isGroupSym s)).isSome = true := by
        rw [hidx]; rfl
      have hlen : (ungroupExp pats r).length = groupExpansionCount pats r := by
        rw [(ungroupExp_spec hr hg hpre).1, (ungroupExp_spec hr hg hpre).2, List.length_map]
      simp only [List.filter_cons, hb, Bool.false_eq_true, if_false, pendingExpansion, hsome,
        if_true, List.length_append, List.map_cons, List.sum_cons, hlen]
      rw [← ih hrest]
      omega


theorem pendingExpansion_elems_clean (pats : List Pattern)
    (hpn : ∀ p ∈ pats, jsStartsWith p.name ":" = false) :
    ∀ l : List GrammarProductionRule,
      (∀ r ∈ l, CleanRule r ∨ OneGroupRule r) →
      ∀ r' ∈ pendingExpansion pats l, CleanRule r' := by
  intro l
  induction l with
  | nil => intro _ r' hr'; exact absurd hr' (List.not_mem_nil r')
  | cons r rest ih =>
    intro h r' hr'
    have hrest := fun x hx => h x (List.mem_cons_of_mem _ hx)
    simp only [pendingExpansion, List.mem_append] at hr'
    rcases hr' with h1 | h2
    · rcases h r (List.mem_cons_self r rest) with hclean | hone
      · have hn : (r.rhs.findIdx? (fun s => isGroupSym s)).isSome = false := by
          rw [findIdx_clean_none (fun s hs => isGroupSym_false_of_clean (hclean s hs)) 0]
          rfl
        rw [hn] at h1
        simp at h1
      · obtain ⟨pre, gsym, post, hr, hg, hpre, hpost⟩ := hone
        have hmem : r' ∈ ungroupExp pats r := by
          rcases Bool.eq_false_or_eq_true (r.rhs.findIdx? (fun s => isGroupSym s)).isSome with
            ht | hf
          · rw [ht] at h1
            simp only [if_true] at h1
            exact h1
          · rw [hf] at h1
            simp at h1
        exact ungroupExp_clean hr hg hpre hpost hpn r' hmem
    · exact ih hrest r' h2

/-- C8: rule-count law of group expansion in the `Grammar` constructor.  (i)
An input whose rules contain no group symbol is passed through unchanged, so
the rule count is preserved.  (ii) When every input rule has at most one group
occurrence, the constructed rule count is the sum over the input rules of the
number of patterns matching that rule's group (a group-free rule counting 1):
each occurrence of `:G:` with `m` matching patterns grows the count by
`m − 1`.  (The per-occurrence law does not extend to rules with several group
occurrences, where expansion is multiplicative — see the counterexample.) -/
theorem C8_amended_count :
    (∀ (input : List GrammarProductionRule) (pats : List Pattern) (uf lf : Nat),
      (∀ r ∈ input, CleanRule r) → input.length + 1 ≤ lf →
      mkGrammarRules input pats uf lf = some input) ∧
    (∀ (input : List GrammarProductionRule) (pats : List Pattern) (k lf : Nat),
      0 < pats.length →
      (∀ p ∈ pats, jsStartsWith p.name ":" = false) →
      (∀ r ∈ input, CleanRule r ∨ OneGroupRule r) →
      input.length + (pendingExpansion pats input).length + 1 ≤ lf →
      ∃ l, mkGrammarRules input pats (k + 2) lf = some l ∧
        l.length = (input.map (fun r => groupExpansionCount pats r)).sum) := by
  constructor
  · intro input pats uf lf hclean hlen
    unfold mkGrammarRules
    by_cases hp : pats.length > 0
    · rw [if_pos hp]
      rw [grammarCtorLoop_clean pats uf lf input input hclean hlen]
      rw [Option.map_some']
      congr 1
      rw [List.filter_eq_self]
      intro r hr
      rw [List.all_eq_true]
      intro s hs
      simp [hclean r hr s hs]
    · rw [if_neg hp]
  · intro input pats k lf hp hpn hshape hlen
    refine ⟨(input ++ pendingExpansion pats input).filter
      (fun r => r.rhs.all (fun s => !jsStartsWith s ":")), ?_, ?_⟩
    · unfold mkGrammarRules
      rw [if_pos hp]
      rw [grammarCtorLoop_spec pats k hpn lf input input hshape hlen]
      rfl
    · rw [List.filter_append, List.length_append]
      have hpec : (pendingExpansion pats input).filter
          (fun r => r.rhs.all (fun s => !jsStartsWith s ":")) =
          pendingExpansion pats input := by
        rw [List.filter_eq_self]
        intro r hr
        rw [List.all_eq_true]
        intro s hs
        simp [pendingExpansion_elems_clean pats hpn input hshape r hr s hs]
      rw [hpec]
      exact count_assemble pats input hshape

/-- C8, witness: the single rule `S → :G:` with the two patterns of group `G`
expands to a list of 2 rules, as the amended count law predicts. -/
theorem C8_witness :
    ∃ l, mkGrammarRules [{ lhs := "S", rhs := [":G:"], action := some 0 }] patsC8 (0 + 2) 4 =
        some l ∧
      l.length = (([{ lhs := "S", rhs := [":G:"], action := some 0 }] :
        List GrammarProductionRule).map (fun r => groupExpansionCount patsC8 r)).sum := by
  refine C8_amended_count.2 [{ lhs := "S", rhs := [":G:"], action := some 0 }] patsC8 0 4
    (by decide) (by decide) ?_ (by decide)
  intro r hr
  rw [List.mem_singleton] at hr
  subst hr
  exact Or.inr ⟨[], ":G:", [], rfl, by decide,
    fun s hs => absurd hs (List.not_mem_nil s),
    fun s hs => absurd hs (List.not_mem_nil s)⟩


theorem tokenizeBatch_shape {pats : List LexPattern} {ro : Nat → String → Option String}
    {batch : String} {loc : Nat} {tok : Token}
    (h : tokenizeBatch pats ro batch loc = some tok) :
    ∃ p ∈ pats, ∃ lex, tok = mkToken p lex loc := by
  obtain ⟨p, hp, hf⟩ := List.exists_of_findSome?_eq_some h
  obtain ⟨id, _, hid⟩ := List.exists_of_findSome?_eq_some hf
  refine ⟨p, hp, ?_⟩
  cases id with
  | regex rid =>
    simp only at hid
    cases hro : ro rid batch with
    | none => rw [hro] at hid; simp at hid
    | some mt =>
      rw [hro] at hid
      simp only [Option.map_some', Option.some.injEq] at hid
      exact ⟨mt, hid.symm⟩
  | str s =>
    simp only at hid
    by_cases hb : batch = s
    · rw [if_pos hb] at hid
      exact ⟨s, (Option.some.injEq _ _).mp hid |>.symm⟩
    · rw [if_neg hb] at hid
      exact absurd hid (Option.noConfusion)

theorem scanLongest_shape {pats : List LexPattern} {ro : Nat → String → Option String}
    {stream : String} {loc : Nat} {tok : Token}
    (h : scanLongest pats ro stream loc = some tok) :
    ∃ p ∈ pats, ∃ lex, tok = mkToken p lex loc := by
  have key : ∀ (idxs : List Nat) (best : Option Token),
      (best = none ∨ ∃ t, best = some t ∧ ∃ p ∈ pats, ∃ lex, t = mkToken p lex loc) →
      ∀ t', idxs.foldl
          (fun best c =>
            let batch := stream.take (c + 1)
            match tokenizeBatch pats ro batch loc with
            | some tok =>
              match best with
              | Option.none => some tok
              | some b => if tok.lexeme.length > b.lexeme.length then some tok else some b
            | Option.none => best)
          best = some t' →
        ∃ p ∈ pats, ∃ lex, t' = mkToken p lex loc := by
    intro idxs
    induction idxs with
    | nil =>
      intro best hb t' ht'
      simp only [List.foldl_nil] at ht'
      rcases hb with h1 | ⟨t, ht, hshape⟩
      · rw [h1] at ht'; exact absurd ht' (Option.noConfusion)
      · rw [ht] at ht'
        rw [(Option.some.injEq _ _).mp ht'] at hshape
        exact hshape
    | cons c rest ih =>
      intro best hb t' ht'
      simp only [List.foldl_cons] at ht'
      refine ih _ ?_ t' ht'
      split
      · rename_i tk htb
        split
        · exact Or.inr ⟨tk, rfl, tokenizeBatch_shape htb⟩
        · rename_i b
          split
          · exact Or.inr ⟨tk, rfl, tokenizeBatch_shape htb⟩
          · rcases hb with h1 | ⟨t, ht, hbs⟩
            · exact absurd h1 (Option.noConfusion)
            · exact Or.inr ⟨b, rfl, by rw [(Option.some.injEq _ _).mp ht]; exact hbs⟩
      · exact hb
  exact key (List.range stream.length) none (Or.inl rfl) tok h

theorem tokenizeGo_spec {pats : List LexPattern} {ro : Nat → String → Option String}
    (hp : ∀ p ∈ pats, p.name ≠ eofSign) :
    ∀ (fuel : Nat) (stream : String) (loc : Nat) (acc : List Token)
      (ts : List Token),
      (∀ t ∈ acc, t.ty ≠ eofSign) →
      tokenizeGo pats ro fuel stream loc acc = Except.ok ts →
      ∃ acc2 loc2, ts = purge acc2 ++ [eofToken loc2] ∧ ∀ t ∈ acc2, t.ty ≠ eofSign := by
  intro fuel
  induction fuel with
  | zero => intro stream loc acc ts _ h; exact absurd h (Except.noConfusion)
  | succ f ih =>
    intro stream loc acc ts hacc h
    unfold tokenizeGo at h
    by_cases hs : stream.length = 0
    · rw [if_pos hs] at h
      refine ⟨acc, loc, ?_, hacc⟩
      have hep : purge (acc ++ [eofToken loc]) = purge acc ++ [eofToken loc] := by
        simp [purge, List.filter_append, eofToken]
      rw [← hep]
      exact ((Except.ok.injEq _ _).mp h).symm
    · rw [if_neg hs] at h
      cases hsc : scanLongest pats ro stream loc with
      | none => rw [hsc] at h; exact absurd h (Except.noConfusion)
      | some tok =>
        rw [hsc] at h
        obtain ⟨p, hpm, lex, htok⟩ := scanLongest_shape hsc
        refine ih _ _ (acc ++ [tok]) ts ?_ h
        intro t ht
        rcases List.mem_append.mp ht with h1 | h2
        · exact hacc t h1
        · rw [List.mem_singleton] at h2
          rw [h2, htok]
          exact hp p hpm

/-- C10: for every input the lexer tokenizes successfully (and every pattern
name distinct from the `$` sign, as pattern names are user token types), the
token stream ends with an end-of-input token whose type is the `$` sign,
whose precedence is `-Infinity` and whose associativity is `None`; that is
the only `$`-typed token in the stream; and no token of the stream was
produced by a pattern whose groups include `Ignored` — `purge` drops them
before the stream is returned. -/
theorem C10_lexer {pats : List LexPattern} {ro : Nat → String → Option String}
    {fuel : Nat} {input : String} {ts : List Token}
    (hp : ∀ p ∈ pats, p.name ≠ eofSign)
    (hok : tokenize pats ro fuel input = Except.ok ts) :
    (∃ t, ts.getLast? = some t ∧ t.ty = eofSign ∧ t.precedence = Prec.negInf ∧
      t.associativity = Assoc.none) ∧
    (ts.filter (fun t => t.ty == eofSign)).length = 1 ∧
    (∀ t ∈ ts, t.groups.contains "Ignored" = false) := by
  obtain ⟨acc2, loc2, hts, hacc2⟩ :=
    tokenizeGo_spec hp fuel input 1 [] ts (fun t ht => absurd ht (List.not_mem_nil t)) hok
  have hpu : ∀ t ∈ purge acc2, t.ty ≠ eofSign := by
    intro t ht
    exact hacc2 t (List.mem_of_mem_filter ht)
  refine ⟨⟨eofToken loc2, ?_, rfl, rfl, rfl⟩, ?_, ?_⟩
  · rw [hts]
    exact List.getLast?_concat _
  · rw [hts, List.filter_append]
    have h1 : (purge acc2).filter (fun t => t.ty == eofSign) = [] := by
      rw [List.filter_eq_nil_iff]
      intro t ht
      simp only [ne_eq, bne_iff_ne, beq_iff_eq]
      exact hpu t ht
    have h2 : ([eofToken loc2] : List Token).filter (fun t => t.ty == eofSign) =
        [eofToken loc2] := by
      simp [eofToken]
    rw [h1, h2]
    rfl
  · intro t ht
    rw [hts] at ht
    rcases List.mem_append.mp ht with h1 | h2
    · have := List.of_mem_filter h1
      simpa using this
    · rw [List.mem_singleton] at h2
      rw [h2]
      rfl


/-- Two lexer patterns: `x` matching the string `x`, and an `Ignored`
whitespace pattern matching a single space. -/
def patsW : List LexPattern :=
  [{ name := "x", identifier := [Ident.str "x"], groups := [], precedence := Prec.undef,
     associativity := Assoc.none, transformId := 0 },
   { name := "ws", identifier := [Ident.str " "], groups := ["Ignored"], precedence := Prec.undef,
     associativity := Assoc.none, transformId := 1 }]

def roW : Nat → String → Option String := fun _ _ => Option.none

/-- What `tokenize` returns on `"x x"`: the space token is purged. -/
def tsW : List Token :=
  [{ ty := "x", groups := [], lexeme := "x", precedence := Prec.undef,
     associativity := Assoc.none, literal := Lit.trans 0 "x", start := 1, stop := 2 },
   { ty := "x", groups := [], lexeme := "x", precedence := Prec.undef,
     associativity := Assoc.none, literal := Lit.trans 0 "x", start := 3, stop := 4 },
   { ty := eofSign, groups := [], lexeme := "\x00", precedence := Prec.negInf,
     associativity := Assoc.none, literal := Lit.emptyObj, start := 4, stop := 4 }]

/-- C10, witness: tokenizing `"x x"` ends in a single `$` token of precedence
`-Infinity` and associativity `None`, with the `Ignored` space purged. -/
theorem C10_witness :
    tokenize patsW roW 4 "x x" = Except.ok tsW ∧
    (∃ t, tsW.getLast? = some t ∧ t.ty = eofSign ∧ t.precedence = Prec.negInf ∧
      t.associativity = Assoc.none) ∧
    (tsW.filter (fun t => t.ty == eofSign)).length = 1 ∧
    (∀ t ∈ tsW, t.groups.contains "Ignored" = false) := by
  have hok : tokenize patsW roW 4 "x x" = Except.ok tsW := by decide
  exact ⟨hok, C10_lexer (by decide) hok⟩


theorem findIdx_some_spec {α : Type} (p : α → Bool) :
    ∀ (l : List α) (j n : Nat), l.findIdx? p j = some n →
      j ≤ n ∧ ∃ x, l.get? (n - j) = some x ∧ p x = true := by
  intro l
  induction l with
  | nil => intro j n h; exact absurd h (Option.noConfusion)
  | cons x xs ih =>
    intro j n h
    rw [List.findIdx?_cons] at h
    by_cases hp : p x = true
    · rw [if_pos hp] at h
      have hn : n = j := ((Option.some.injEq _ _).mp h).symm
      subst hn
      exact ⟨Nat.le_refl n, x, by simp, hp⟩
    · rw [if_neg hp] at h
      obtain ⟨hle, y, hy, hpy⟩ := ih (j + 1) n h
      refine ⟨by omega, y, ?_, hpy⟩
      obtain ⟨k, hk⟩ : ∃ k, n - j = k + 1 := ⟨n - j - 1, by omega⟩
      rw [hk]
      rw [List.get?_cons_succ]
      have : k = n - (j + 1) := by omega
      rw [this]
      exact hy

theorem findIdx_none_spec {α : Type} (p : α → Bool) :
    ∀ (l : List α) (j : Nat), l.findIdx? p j = none → ∀ x ∈ l, p x = false := by
  intro l
  induction l with
  | nil => intro j _ x hx; exact absurd hx (List.not_mem_nil x)
  | cons y ys ih =>
    intro j h x hx
    rw [List.findIdx?_cons] at h
    by_cases hp : p y = true
    · rw [if_pos hp] at h
      exact absurd h (Option.noConfusion)
    · rw [if_neg hp] at h
      rcases List.mem_cons.mp hx with h1 | h2
      · rw [h1]
        exact Bool.eq_false_iff.mpr hp
      · exact ih (j + 1) h x h2

/-- C5 (amended): LALR expansion's kernel lookup is core-containment, not
core-equality.  `findStateByKernel` with lookaheads ignored returns the first
state whose kernel holds a core-equal item for every candidate item (the
candidate's core is a subset of the state's), and returns `none` exactly when
no state core-contains the candidate; a candidate kernel can therefore be
merged into a state with strictly more kernel items (see the counterexample),
though in the built `gC5` automaton distinct states still never have
core-equal kernels. -/
theorem C5_amended_lookup :
    (∀ (states : List LRState) (kernel : List Item) (i : Nat),
      findStateByKernel states kernel true = some i →
      ∃ st, states.get? i = some st ∧ kernelCoreLE kernel st.kernel = true) ∧
    (∀ (states : List LRState) (kernel : List Item),
      findStateByKernel states kernel true = none →
      ∀ st ∈ states, kernelCoreLE kernel st.kernel = false) ∧
    (buildAutomaton Variant.lalr gC5 16).states.Pairwise
      (fun s t => kernelCoreEq s.kernel t.kernel = false) := by
  refine ⟨?_, ?_, ?_⟩
  · intro states kernel i h
    obtain ⟨-, st, hst, hp⟩ := findIdx_some_spec _ states 0 i h
    exact ⟨st, by simpa using hst, hp⟩
  · intro states kernel h st hst
    exact findIdx_none_spec _ states 0 h st hst
  · rw [gC5_build]
    decide

/-- A two-item state whose kernel strictly core-contains `[candItemC5]`. -/
def stC5w : LRState :=
  { kernel := [candItemC5,
      { lhs := "B", rhs := ["z"], index := 1, lookaheads := [eofSign], action := some 5 }],
    closure := [], transitions := [] }

/-- C5, witness: on a concrete two-item state, the lookup accepts the strict
one-item sub-kernel `\x7bA → z •\x7d`. -/
theorem C5_witness :
    ∃ st, ([stC5w] : List LRState).get? 0 = some st ∧
      kernelCoreLE [candItemC5] st.kernel = true :=
  C5_amended_lookup.1 [stC5w] [candItemC5] 0 (by decide)


/-! ## Claim C4 (amended): cell discipline of the generated and resolved table -/

theorem find_append_none {α : Type} (p : α → Bool) :
    ∀ (l1 l2 : List α), l1.find? p = none → (l1 ++ l2).find? p = l2.find? p := by
  intro l1 l2
  induction l1 with
  | nil => intro _; rfl
  | cons x xs ih =>
    intro h
    cases hp : p x with
    | true =>
      simp only [List.find?_cons, hp] at h
      exact absurd h (Option.noConfusion)
    | false =>
      simp only [List.find?_cons, hp] at h
      rw [List.cons_append]
      simp only [List.find?_cons, hp]
      exact ih h

theorem rlookup_mem {row : Row} {k : String} {cell : List Action}
    (h : rlookup row k = some cell) : (k, cell) ∈ row := by
  simp only [rlookup, Option.map_eq_some'] at h
  obtain ⟨p, hp, hv⟩ := h
  have hk : p.1 = k := by
    have := List.find?_some hp
    simpa using this
  have hm := List.mem_of_find?_eq_some hp
  have : p = (k, cell) := by
    cases p
    simp only at hk hv
    rw [hk, hv]
  rw [← this]
  exact hm

theorem rlookup_rowSet_self (row : Row) (k : String) (v : List Action) :
    rlookup (rowSet row k v) k = some v := by
  unfold rowSet
  by_cases hany : row.any (fun p => p.1 = k) = true
  · rw [if_pos hany]
    induction row with
    | nil => simp at hany
    | cons p rest ih =>
      rw [List.map_cons]
      by_cases hp : p.1 = k
      · rw [if_pos hp]
        simp [rlookup, List.find?_cons]
      · rw [if_neg hp]
        have hrest : rest.any (fun q => q.1 = k) = true := by
          rcases List.any_eq_true.mp hany with ⟨q, hq, hqk⟩
          rcases List.mem_cons.mp hq with h1 | h2
          · rw [h1] at hqk; simp at hqk; exact absurd hqk hp
          · exact List.any_eq_true.mpr ⟨q, h2, hqk⟩
        have := ih hrest
        simp only [rlookup, List.find?_cons] at this ⊢
        rw [show (decide (p.1 = k)) = false from by simp [hp]]
        exact this
  · rw [if_neg hany]
    have hnone : row.find? (fun p => decide (p.1 = k)) = none := by
      rw [List.find?_eq_none]
      intro p hp
      simp only [decide_eq_true_eq]
      intro hk
      exact hany (List.any_eq_true.mpr ⟨p, hp, by simp [hk]⟩)
    simp only [rlookup]
    rw [find_append_none _ _ _ hnone]
    simp [List.find?_cons]

theorem rlookup_rowSet_ne (row : Row) (k k' : String) (v : List Action) (hne : k' ≠ k) :
    rlookup (rowSet row k v) k' = rlookup row k' := by
  unfold rowSet
  by_cases hany : row.any (fun p => p.1 = k) = true
  · rw [if_pos hany]
    clear hany
    induction row with
    | nil => rfl
    | cons p rest ih =>
      rw [List.map_cons]
      simp only [rlookup, List.find?_cons] at ih ⊢
      by_cases hp : p.1 = k
      · rw [if_pos hp]
        rw [show (decide ((k, v).1 = k')) = false from decide_eq_false (fun h => hne h.symm)]
        rw [show (decide (p.1 = k')) = false from by
          rw [hp]; exact decide_eq_false (fun h => hne h.symm)]
        exact ih
      · rw [if_neg hp]
        cases hpk : (decide (p.1 = k') : Bool) with
        | true => rfl
        | false => exact ih
  · rw [if_neg hany]
    simp only [rlookup]
    cases hfind : row.find? (fun p => decide (p.1 = k')) with
    | some q =>
      clear hany
      induction row with
      | nil => simp at hfind
      | cons p rest ih =>
        rw [List.cons_append, List.find?_cons]
        rw [List.find?_cons] at hfind
        cases hpk : (decide (p.1 = k') : Bool) with
        | true => rw [hpk] at hfind; rw [hfind]
        | false =>
          rw [hpk] at hfind
          exact ih hfind
    | none =>
      rw [find_append_none _ _ _ hfind]
      simp only [List.find?_cons]
      rw [show (decide (k = k')) = false from decide_eq_false (fun h => hne h.symm)]
      rfl

theorem rowPush_eq {row : Row} {k : String} {a : Action} {row' : Row}
    (h : rowPush row k a = some row') :
    row' = row.map (fun p => if p.1 = k then (k, p.2 ++ [a]) else p) := by
  unfold rowPush at h
  by_cases hany : row.any (fun p => p.1 = k) = true
  · rw [if_pos hany] at h
    exact ((Option.some.injEq _ _).mp h).symm
  · rw [if_neg hany] at h
    exact absurd h (Option.noConfusion)

theorem rlookup_rowPush_self {row : Row} {k : String} {a : Action} {row' : Row}
    (h : rowPush row k a = some row') :
    rlookup row' k = (rlookup row k).map (fun c => c ++ [a]) := by
  rw [rowPush_eq h]
  clear h
  induction row with
  | nil => rfl
  | cons p rest ih =>
    rw [List.map_cons]
    simp only [rlookup, List.find?_cons] at ih ⊢
    by_cases hp : p.1 = k
    · rw [if_pos hp]
      simp [hp]
    · rw [if_neg hp]
      rw [show (decide (p.1 = k)) = false from by simp [hp]]
      exact ih

theorem rlookup_rowPush_ne {row : Row} {k k' : String} {a : Action} {row' : Row}
    (h : rowPush row k a = some row') (hne : k' ≠ k) :
    rlookup row' k' = rlookup row k' := by
  rw [rowPush_eq h]
  clear h
  induction row with
  | nil => rfl
  | cons p rest ih =>
    rw [List.map_cons]
    simp only [rlookup, List.find?_cons] at ih ⊢
    by_cases hp : p.1 = k
    · rw [if_pos hp]
      rw [show (decide ((k, p.2 ++ [a]).1 = k')) = false from decide_eq_false (fun h => hne h.symm)]
      rw [show (decide (p.1 = k')) = false from by
        rw [hp]; exact decide_eq_false (fun h => hne h.symm)]
      exact ih
    · rw [if_neg hp]
      cases hpk : (decide (p.1 = k') : Bool) with
      | true => rfl
      | false => exact ih


theorem jsDedupGo_nodup {α : Type} [DecidableEq α] :
    ∀ (l seen : List α), (jsDedupGo l seen).Nodup := by
  intro l
  induction l with
  | nil => intro seen; exact List.nodup_nil
  | cons y ys ih =>
    intro seen
    simp only [jsDedupGo]
    by_cases h : y ∈ seen
    · rw [if_pos h]; exact ih seen
    · rw [if_neg h]
      refine List.nodup_cons.mpr ⟨?_, ih (y :: seen)⟩
      intro hy
      exact (mem_jsDedupGo.mp hy).2 (List.mem_cons_self y seen)

theorem jsDedup_nodup {α : Type} [DecidableEq α] (l : List α) : (jsDedup l).Nodup :=
  jsDedupGo_nodup l []

theorem terminals_nodup (g : Grammar) : (Grammar.terminals g).Nodup :=
  List.Nodup.filter _ (jsDedup_nodup _)

theorem vars_nodup (g : Grammar) : (Grammar.vars g).Nodup := jsDedup_nodup _

theorem mem_terminals_not_var {g : Grammar} {t : String} (h : t ∈ Grammar.terminals g) :
    Grammar.isVariable g t = false := by
  have := List.of_mem_filter h
  simpa using this

theorem mem_vars_is_var {g : Grammar} {v : String} (h : v ∈ Grammar.vars g) :
    Grammar.isVariable g v = true := by
  simp only [Grammar.isVariable]
  exact List.elem_eq_true_of_mem h

theorem mem_rowSet {row : Row} {k : String} {v : List Action} {p : String × List Action}
    (h : p ∈ rowSet row k v) : p = (k, v) ∨ p ∈ row := by
  unfold rowSet at h
  by_cases hany : row.any (fun q => q.1 = k) = true
  · rw [if_pos hany] at h
    obtain ⟨q, hq, he⟩ := List.mem_map.mp h
    by_cases hqk : q.1 = k
    · rw [if_pos hqk] at he; exact Or.inl he.symm
    · rw [if_neg hqk] at he; exact Or.inr (he ▸ hq)
  · rw [if_neg hany] at h
    rcases List.mem_append.mp h with h1 | h2
    · exact Or.inr h1
    · rw [List.mem_singleton] at h2; exact Or.inl h2

theorem initRow_cells_empty :
    ∀ (ks : List String) (r : Row), (∀ p ∈ r, p.2 = ([] : List Action)) →
      ∀ p ∈ ks.foldl (fun r k => rowSet r k []) r, p.2 = [] := by
  intro ks
  induction ks with
  | nil => intro r h p hp; exact h p hp
  | cons k rest ih =>
    intro r h p hp
    rw [List.foldl_cons] at hp
    refine ih (rowSet r k []) ?_ p hp
    intro q hq
    rcases mem_rowSet hq with h1 | h2
    · rw [h1]
    · exact h q h2

/-- A fold of per-key optional pushes: keys outside the list keep their
cells; with a duplicate-free key list, a key inside gains at most one pushed
action. -/
theorem phase_fold_spec (A : Action → Prop) (step : Row → String → Option Row)
    (Hstep : ∀ r t r', step r t = some r' →
      r' = r ∨ ∃ a, A a ∧ rowPush r t a = some r') :
    ∀ (ts : List String) (r r' : Row), ts.foldlM step r = some r' →
      (∀ k, k ∉ ts → rlookup r' k = rlookup r k) ∧
      (ts.Nodup → ∀ k ∈ ts, rlookup r' k = rlookup r k ∨
        ∃ a, A a ∧ rlookup r' k = (rlookup r k).map (fun c => c ++ [a])) := by
  intro ts
  induction ts with
  | nil =>
    intro r r' h
    rw [List.foldlM_nil] at h
    have he : r = r' := (Option.some.injEq _ _).mp h
    subst he
    exact ⟨fun k _ => rfl, fun _ k hk => absurd hk (List.not_mem_nil k)⟩
  | cons t rest ih =>
    intro r r' h
    rw [List.foldlM_cons] at h
    cases hs : step r t with
    | none => rw [hs] at h; exact absurd h (Option.noConfusion)
    | some r1 =>
      rw [hs] at h
      replace h : rest.foldlM step r1 = some r' := h
      obtain ⟨ih1, ih2⟩ := ih r1 r' h
      have hone : rlookup r1 t = rlookup r t ∨
          ∃ a, A a ∧ rlookup r1 t = (rlookup r t).map (fun c => c ++ [a]) := by
        rcases Hstep r t r1 hs with he | ⟨a, hA, hpush⟩
        · rw [he]; exact Or.inl rfl
        · exact Or.inr ⟨a, hA, rlookup_rowPush_self hpush⟩
      have hother : ∀ k, k ≠ t → rlookup r1 k = rlookup r k := by
        intro k hk
        rcases Hstep r t r1 hs with he | ⟨a, _, hpush⟩
        · rw [he]
        · exact rlookup_rowPush_ne hpush hk
      constructor
      · intro k hk
        have hk1 : k ≠ t := fun he => hk (he ▸ List.mem_cons_self t rest)
        have hk2 : k ∉ rest := fun hm => hk (List.mem_cons_of_mem _ hm)
        rw [ih1 k hk2, hother k hk1]
      · intro hnd k hk
        have hnd2 := (List.nodup_cons.mp hnd).2
        have htr := (List.nodup_cons.mp hnd).1
        rcases List.mem_cons.mp hk with h1 | h2
        · subst h1
          rw [ih1 k htr]
          exact hone
        · have hk1 : k ≠ t := fun he => htr (he ▸ h2)
          rcases ih2 hnd2 k h2 with he | ⟨a, hA, hm⟩
          · rw [he, hother k hk1]; exact Or.inl rfl
          · rw [hm, hother k hk1]; exact Or.inr ⟨a, hA, rfl⟩

/-- Row `r'` extends `r`: every cell of `r'` is the corresponding cell of `r`
followed by actions satisfying `P` at that key. -/
def RowExtends (P : Action → String → Prop) (r r' : Row) : Prop :=
  ∀ k cell', rlookup r' k = some cell' → ∃ cell extra, rlookup r k = some cell ∧
    cell' = cell ++ extra ∧ ∀ ac ∈ extra, P ac k

theorem rowExtends_refl (P : Action → String → Prop) (r : Row) : RowExtends P r r :=
  fun k cell' h => ⟨cell', [], h, by simp, by simp⟩

theorem rowExtends_trans {P : Action → String → Prop} {r1 r2 r3 : Row}
    (h12 : RowExtends P r1 r2) (h23 : RowExtends P r2 r3) : RowExtends P r1 r3 := by
  intro k cell3 h3
  obtain ⟨cell2, e2, h2, he2, hp2⟩ := h23 k cell3 h3
  obtain ⟨cell1, e1, h1, he1, hp1⟩ := h12 k cell2 h2
  refine ⟨cell1, e1 ++ e2, h1, by rw [he2, he1, List.append_assoc], ?_⟩
  intro ac hac
  rcases List.mem_append.mp hac with h | h
  · exact hp1 ac h
  · exact hp2 ac h

theorem rowPush_rowExtends {P : Action → String → Prop} {r : Row} {t : String} {a : Action}
    {r' : Row} (h : rowPush r t a = some r') (hP : P a t) : RowExtends P r r' := by
  intro k cell' hc
  by_cases hk : k = t
  · subst hk
    rw [rlookup_rowPush_self h] at hc
    cases hr : rlookup r k with
    | none => rw [hr] at hc; exact absurd hc (Option.noConfusion)
    | some cell =>
      rw [hr] at hc
      refine ⟨cell, [a], rfl, ((Option.some.injEq _ _).mp hc).symm, ?_⟩
      intro ac hac
      rw [List.mem_singleton] at hac
      rw [hac]
      exact hP
  · rw [rlookup_rowPush_ne h hk] at hc
    exact ⟨cell', [], hc, by simp, by simp⟩

theorem foldlM_rowExtends {β : Type} (P : Action → String → Prop)
    (step : Row → β → Option Row) :
    ∀ (l : List β), (∀ r x r', x ∈ l → step r x = some r' → RowExtends P r r') →
      ∀ r r', l.foldlM step r = some r' → RowExtends P r r' := by
  intro l
  induction l with
  | nil =>
    intro _ r r' h
    rw [List.foldlM_nil] at h
    have he : r = r' := (Option.some.injEq _ _).mp h
    subst he
    exact rowExtends_refl P r
  | cons x xs ih =>
    intro H r r' h
    rw [List.foldlM_cons] at h
    cases hs : step r x with
    | none => rw [hs] at h; exact absurd h (Option.noConfusion)
    | some r1 =>
      rw [hs] at h
      replace h : xs.foldlM step r1 = some r' := h
      exact rowExtends_trans (H r x r1 (List.mem_cons_self x xs) hs)
        (ih (fun r y r'' hy => H r y r'' (List.mem_cons_of_mem _ hy)) r1 r' h)


theorem map_append_some {o : Option (List Action)} {a : Action} {cell' : List Action}
    (h : o.map (fun c => c ++ [a]) = some cell') : ∃ cell, o = some cell ∧ cell' = cell ++ [a] := by
  cases o with
  | none => exact absurd h (Option.noConfusion)
  | some cell =>
    refine ⟨cell, rfl, ?_⟩
    simp only [Option.map_some', Option.some.injEq] at h
    exact h.symm

/-- The discipline of a freshly generated row: every cell is an optional
Shift (for a terminal key), then an optional Goto (for a variable key), then
Reduces under lookahead keys and Accepts under `$`. -/
theorem generateRow_cells (g : Grammar) (st : LRState) (row : Row)
    (h : generateRow g st = some row) :
    ∀ k cell, rlookup row k = some cell →
      ∃ s gp extra, cell = s ++ gp ++ extra ∧
        (s = [] ∨ ((∃ sid, s = [Action.shift sid]) ∧ k ∈ Grammar.terminals g)) ∧
        (gp = [] ∨ ((∃ i, gp = [Action.goto i]) ∧ k ∈ Grammar.vars g)) ∧
        (∀ ac ∈ extra,
          (∃ it, it ∈ st.closure ∧ Item.isCompleted it = true ∧ ac = Action.reduce it ∧
            k ∈ it.lookaheads) ∨
          (ac = Action.accept ∧ k = eofSign)) := by
  simp only [generateRow] at h
  cases hS : (Grammar.terminals g).foldlM
      (fun (r : Row) t =>
        match tlookup st.transitions t with
        | some id => rowPush r t (Action.shift id)
        | Option.none => some r)
      (rowSet ((Grammar.terminals g ++ Grammar.vars g).foldl (fun r k => rowSet r k []) [])
        eofSign []) with
  | none => rw [hS] at h; exact absurd h (Option.noConfusion)
  | some r1 =>
    rw [hS] at h
    replace h : ((Grammar.vars g).foldlM
        (fun (r : Row) v =>
          match tlookup st.transitions v with
          | some id => rowPush r v (Action.goto id)
          | Option.none => some r)
        r1).bind
        (fun r =>
          (st.closure.filter (fun rule => Item.isCompleted rule)).foldlM
            (fun (r : Row) (rule : Item) =>
              if rule.lhs = augSign then rowPush r eofSign Action.accept
              else rule.lookaheads.foldlM
                (fun (r : Row) la => rowPush r la (Action.reduce rule)) r)
            r) = some row := h
    cases hG : (Grammar.vars g).foldlM
        (fun (r : Row) v =>
          match tlookup st.transitions v with
          | some id => rowPush r v (Action.goto id)
          | Option.none => some r)
        r1 with
    | none => rw [hG] at h; exact absurd h (Option.noConfusion)
    | some r2 =>
      rw [hG] at h
      replace h : (st.closure.filter (fun rule => Item.isCompleted rule)).foldlM
          (fun (r : Row) (rule : Item) =>
            if rule.lhs = augSign then rowPush r eofSign Action.accept
            else rule.lookaheads.foldlM
              (fun (r : Row) la => rowPush r la (Action.reduce rule)) r)
          r2 = some row := h
      intro k cell hcell
      have hext : RowExtends
          (fun ac k => (∃ it, it ∈ st.closure ∧ Item.isCompleted it = true ∧
            ac = Action.reduce it ∧ k ∈ it.lookaheads) ∨ (ac = Action.accept ∧ k = eofSign))
          r2 row := by
        refine foldlM_rowExtends _ _ _ ?_ r2 row h
        intro r x r' hx hstep
        have hxc : x ∈ st.closure ∧ Item.isCompleted x = true := by
          constructor
          · exact List.mem_of_mem_filter hx
          · have := List.of_mem_filter hx
            simpa using this
        by_cases haug : x.lhs = augSign
        · rw [if_pos haug] at hstep
          exact rowPush_rowExtends hstep (Or.inr ⟨rfl, rfl⟩)
        · rw [if_neg haug] at hstep
          refine foldlM_rowExtends _ _ _ ?_ r r' hstep
          intro rr la rr' hla hp
          exact rowPush_rowExtends hp (Or.inl ⟨x, hxc.1, hxc.2, rfl, hla⟩)
      obtain ⟨cell2, extra, hc2, hce, hpe⟩ := hext k cell hcell
      have hGspec := phase_fold_spec (fun a => ∃ i, a = Action.goto i)
        (fun (r : Row) v =>
          match tlookup st.transitions v with
          | some id => rowPush r v (Action.goto id)
          | Option.none => some r)
        (by
          intro r t r' hstep
          replace hstep : (match tlookup st.transitions t with
            | some id => rowPush r t (Action.goto id)
            | Option.none => some r) = some r' := hstep
          cases ht : tlookup st.transitions t with
          | none => rw [ht] at hstep; exact Or.inl ((Option.some.injEq _ _).mp hstep).symm
          | some id => rw [ht] at hstep; exact Or.inr ⟨Action.goto id, ⟨id, rfl⟩, hstep⟩)
        (Grammar.vars g) r1 r2 hG
      have hgp : ∃ cell1 gp, rlookup r1 k = some cell1 ∧ cell2 = cell1 ++ gp ∧
          (gp = [] ∨ ((∃ i, gp = [Action.goto i]) ∧ k ∈ Grammar.vars g)) := by
        by_cases hkv : k ∈ Grammar.vars g
        · rcases hGspec.2 (vars_nodup g) k hkv with he | ⟨a, ⟨i, hai⟩, hm⟩
          · rw [he] at hc2
            exact ⟨cell2, [], hc2, by simp, Or.inl rfl⟩
          · rw [hm] at hc2
            obtain ⟨cell1, h1, he⟩ := map_append_some hc2
            exact ⟨cell1, [a], h1, he, Or.inr ⟨⟨i, by rw [hai]⟩, hkv⟩⟩
        · rw [hGspec.1 k hkv] at hc2
          exact ⟨cell2, [], hc2, by simp, Or.inl rfl⟩
      obtain ⟨cell1, gp, hc1, hc2e, hgpp⟩ := hgp
      have hSspec := phase_fold_spec (fun a => ∃ sid, a = Action.shift sid)
        (fun (r : Row) t =>
          match tlookup st.transitions t with
          | some id => rowPush r t (Action.shift id)
          | Option.none => some r)
        (by
          intro r t r' hstep
          replace hstep : (match tlookup st.transitions t with
            | some id => rowPush r t (Action.shift id)
            | Option.none => some r) = some r' := hstep
          cases ht : tlookup st.transitions t with
          | none => rw [ht] at hstep; exact Or.inl ((Option.some.injEq _ _).mp hstep).symm
          | some id => rw [ht] at hstep; exact Or.inr ⟨Action.shift id, ⟨id, rfl⟩, hstep⟩)
        (Grammar.terminals g) _ r1 hS
      have hsp : ∃ cell0 s, rlookup (rowSet ((Grammar.terminals g ++ Grammar.vars g).foldl
            (fun r k => rowSet r k []) []) eofSign []) k = some cell0 ∧
          cell1 = cell0 ++ s ∧
          (s = [] ∨ ((∃ sid, s = [Action.shift sid]) ∧ k ∈ Grammar.terminals g)) := by
        by_cases hkt : k ∈ Grammar.terminals g
        · rcases hSspec.2 (terminals_nodup g) k hkt with he | ⟨a, ⟨sid, hai⟩, hm⟩
          · rw [he] at hc1
            exact ⟨cell1, [], hc1, by simp, Or.inl rfl⟩
          · rw [hm] at hc1
            obtain ⟨cell0, h0, he⟩ := map_append_some hc1
            exact ⟨cell0, [a], h0, he, Or.inr ⟨⟨sid, by rw [hai]⟩, hkt⟩⟩
        · rw [hSspec.1 k hkt] at hc1
          exact ⟨cell1, [], hc1, by simp, Or.inl rfl⟩
      obtain ⟨cell0, s, hc0, hc1e, hsps⟩ := hsp
      have hempty : cell0 = [] := by
        have hm := rlookup_mem hc0
        rcases mem_rowSet hm with h1 | h2
        · exact congrArg Prod.snd h1
        · exact initRow_cells_empty _ [] (by intro p hp; exact absurd hp (List.not_mem_nil p))
            _ h2
      refine ⟨s, gp, extra, ?_, hsps, hgpp, hpe⟩
      rw [hce, hc2e, hc1e, hempty]
      simp [List.append_assoc]


theorem isShiftA_shape {ac : Action} (h : isShiftA ac = true) : ∃ sid, ac = Action.shift sid := by
  cases ac with
  | shift sid => exact ⟨sid, rfl⟩
  | goto i => simp [isShiftA] at h
  | reduce it => simp [isShiftA] at h
  | accept => simp [isShiftA] at h

theorem isReduceA_shape {ac : Action} (h : isReduceA ac = true) : ∃ it, ac = Action.reduce it := by
  cases ac with
  | shift sid => simp [isReduceA] at h
  | goto i => simp [isReduceA] at h
  | reduce it => exact ⟨it, rfl⟩
  | accept => simp [isReduceA] at h

theorem shift_not_reduce {ac : Action} (h : isShiftA ac = true) : isReduceA ac = false := by
  obtain ⟨sid, rfl⟩ := isShiftA_shape h
  rfl

theorem shift_reduce_count :
    ∀ (cell : List Action), (∀ ac ∈ cell, isShiftA ac = true ∨ isReduceA ac = true) →
      (cell.filter isShiftA).length + (cell.filter isReduceA).length = cell.length := by
  intro cell
  induction cell with
  | nil => intro _; rfl
  | cons ac rest ih =>
    intro h
    have hrest := ih (fun x hx => h x (List.mem_cons_of_mem _ hx))
    rcases h ac (List.mem_cons_self ac rest) with hS | hR
    · rw [List.filter_cons, List.filter_cons, if_pos hS, if_neg (by rw [shift_not_reduce hS]; simp)]
      simp only [List.length_cons]
      omega
    · by_cases hS : isShiftA ac = true
      · rw [List.filter_cons, List.filter_cons, if_pos hS,
          if_neg (by rw [shift_not_reduce hS]; simp)]
        simp only [List.length_cons]
        omega
      · rw [List.filter_cons, List.filter_cons, if_neg (by simpa using hS), if_pos hR]
        simp only [List.length_cons]
        omega

/-- A successfully resolved cell holds at most one action, still of
Shift/Reduce kind, provided the incoming cell held only Shifts and Reduces
with at most one Shift. -/
theorem resolveCell_ok_shape {ops : List (String × OpProp)} {favor : Favor} {sid : Nat}
    {t : String} {cell cell' : List Action}
    (hsr : ∀ ac ∈ cell, isShiftA ac = true ∨ isReduceA ac = true)
    (hs1 : (cell.filter isShiftA).length ≤ 1)
    (h : resolveCell ops favor sid t cell = Except.ok cell') :
    cell'.length ≤ 1 ∧ (∀ ac ∈ cell', isShiftA ac = true ∨ isReduceA ac = true) := by
  by_cases hlen : cell.length > 1
  swap
  · have hbody : resolveCell ops favor sid t cell = Except.ok cell := by
      simp only [resolveCell, if_neg hlen]
    rw [hbody] at h
    have he : cell = cell' := (Except.ok.injEq _ _).mp h
    subst he
    exact ⟨by omega, hsr⟩
  · have hsum := shift_reduce_count cell hsr
    cases hSfe : cell.filter isShiftA with
    | nil =>
      have hR2 : (cell.filter isReduceA).length > 1 := by
        rw [hSfe] at hsum
        simp only [List.length_nil, Nat.zero_add] at hsum
        omega
      have hbody : resolveCell ops favor sid t cell =
          (if (cell.filter isReduceA).length > 1 then
            (if (jsDedup ((cell.filter isReduceA).map (reducePrecOf ops))).length ≠ 1 then
              Except.error (LiquidError.grammarNotLR1RR sid t)
            else
              match (cell.filter isReduceA).get?
                  (((cell.filter isReduceA).map (reducePrecOf ops)).indexOf
                    (maxInt ((cell.filter isReduceA).map (reducePrecOf ops)))) with
              | some a => Except.ok [a]
              | Option.none => Except.ok [])
          else Except.ok cell) := by
        simp only [resolveCell, if_pos hlen, hSfe, List.length_nil]
        rw [if_neg (by simp)]
      rw [hbody, if_pos hR2] at h
      by_cases hd : (jsDedup ((cell.filter isReduceA).map (reducePrecOf ops))).length ≠ 1
      · rw [if_pos hd] at h
        exact absurd h (Except.noConfusion)
      · rw [if_neg hd] at h
        cases hget : (cell.filter isReduceA).get?
            (((cell.filter isReduceA).map (reducePrecOf ops)).indexOf
              (maxInt ((cell.filter isReduceA).map (reducePrecOf ops)))) with
        | none =>
          rw [hget] at h
          have he : ([] : List Action) = cell' := (Except.ok.injEq _ _).mp h
          subst he
          exact ⟨by simp, by intro ac hac; exact absurd hac (List.not_mem_nil ac)⟩
        | some a =>
          rw [hget] at h
          have he : [a] = cell' := (Except.ok.injEq _ _).mp h
          subst he
          refine ⟨by simp, ?_⟩
          intro ac hac
          rw [List.mem_singleton] at hac
          subst hac
          have hmem : ac ∈ cell.filter isReduceA := List.get?_mem hget
          exact Or.inr (by simpa using List.of_mem_filter hmem)
    | cons s0 srest =>
      have hsrest : srest = [] := by
        rw [hSfe] at hs1
        simp only [List.length_cons] at hs1
        exact List.length_eq_zero.mp (by omega)
      subst hsrest
      have hs0 : isShiftA s0 = true := by
        have : s0 ∈ cell.filter isShiftA := by rw [hSfe]; exact List.mem_cons_self s0 []
        simpa using List.of_mem_filter this
      obtain ⟨sid0, rfl⟩ := isShiftA_shape hs0
      have hRlen : 0 < (cell.filter isReduceA).length := by
        rw [hSfe] at hsum
        simp only [List.length_cons, List.length_nil] at hsum
        omega
      cases hRfe : cell.filter isReduceA with
      | nil => rw [hRfe] at hRlen; simp at hRlen
      | cons r0 rrest =>
        have hr0 : isReduceA r0 = true := by
          have : r0 ∈ cell.filter isReduceA := by rw [hRfe]; exact List.mem_cons_self r0 rrest
          simpa using List.of_mem_filter this
        obtain ⟨rrule, rfl⟩ := isReduceA_shape hr0
        have hbody : resolveCell ops favor sid t cell =
            (match (if ((opLookup ops t).bind (fun o => o.precedence)).getD 0 =
                rulePrecedence ops rrule.rhs then
                (if ((opLookup ops t).bind (fun o => o.associativity)) = some Assoc.left ∨
                    favor = Favor.reduce then
                  Except.ok [Action.reduce rrule]
                else if ((opLookup ops t).bind (fun o => o.associativity)) = some Assoc.right ∨
                    favor = Favor.shift then
                  Except.ok [Action.shift sid0]
                else Except.error (LiquidError.grammarNotLR1SR sid t))
              else if ((opLookup ops t).bind (fun o => o.precedence)).getD 0 >
                  rulePrecedence ops rrule.rhs then
                Except.ok [Action.shift sid0]
              else Except.ok [Action.reduce rrule]) with
            | Except.error e => Except.error e
            | Except.ok cell1 =>
              if (Action.reduce rrule :: rrest).length > 1 then
                (if (jsDedup ((Action.reduce rrule :: rrest).map (reducePrecOf ops))).length ≠ 1 then
                  Except.error (LiquidError.grammarNotLR1RR sid t)
                else
                  match (Action.reduce rrule :: rrest).get?
                      (((Action.reduce rrule :: rrest).map (reducePrecOf ops)).indexOf
                        (maxInt ((Action.reduce rrule :: rrest).map (reducePrecOf ops)))) with
                  | some a => Except.ok [a]
                  | Option.none => Except.ok [])
              else Except.ok cell1) := by
          simp only [resolveCell, if_pos hlen, hSfe, hRfe]
          rw [if_pos (by constructor <;> simp)]
          simp only [List.head?_cons]
        rw [hbody] at h
        split at h
        · exact absurd h (Except.noConfusion)
        · rename_i cell1 heq
          have hcell1 : cell1 = [Action.reduce rrule] ∨ cell1 = [Action.shift sid0] := by
            by_cases h1 : ((opLookup ops t).bind (fun o => o.precedence)).getD 0 =
                rulePrecedence ops rrule.rhs
            · rw [if_pos h1] at heq
              by_cases h2 : ((opLookup ops t).bind (fun o => o.associativity)) = some Assoc.left ∨
                  favor = Favor.reduce
              · rw [if_pos h2] at heq
                exact Or.inl ((Except.ok.injEq _ _).mp heq).symm
              · rw [if_neg h2] at heq
                by_cases h3 : ((opLookup ops t).bind (fun o => o.associativity)) =
                    some Assoc.right ∨ favor = Favor.shift
                · rw [if_pos h3] at heq
                  exact Or.inr ((Except.ok.injEq _ _).mp heq).symm
                · rw [if_neg h3] at heq
                  exact absurd heq (Except.noConfusion)
            · rw [if_neg h1] at heq
              by_cases h4 : ((opLookup ops t).bind (fun o => o.precedence)).getD 0 >
                  rulePrecedence ops rrule.rhs
              · rw [if_pos h4] at heq
                exact Or.inr ((Except.ok.injEq _ _).mp heq).symm
              · rw [if_neg h4] at heq
                exact Or.inl ((Except.ok.injEq _ _).mp heq).symm
          by_cases hR2 : (Action.reduce rrule :: rrest).length > 1
          · rw [if_pos hR2] at h
            by_cases hd : (jsDedup ((Action.reduce rrule :: rrest).map
                (reducePrecOf ops))).length ≠ 1
            · rw [if_pos hd] at h
              exact absurd h (Except.noConfusion)
            · rw [if_neg hd] at h
              cases hget : (Action.reduce rrule :: rrest).get?
                  (((Action.reduce rrule :: rrest).map (reducePrecOf ops)).indexOf
                    (maxInt ((Action.reduce rrule :: rrest).map (reducePrecOf ops)))) with
              | none =>
                rw [hget] at h
                have he : ([] : List Action) = cell' := (Except.ok.injEq _ _).mp h
                subst he
                exact ⟨by simp, by intro ac hac; exact absurd hac (List.not_mem_nil ac)⟩
              | some a =>
                rw [hget] at h
                have he : [a] = cell' := (Except.ok.injEq _ _).mp h
                subst he
                refine ⟨by simp, ?_⟩
                intro ac hac
                rw [List.mem_singleton] at hac
                subst hac
                have hmem : ac ∈ cell.filter isReduceA := by
                  rw [hRfe]
                  exact List.get?_mem hget
                exact Or.inr (by simpa using List.of_mem_filter hmem)
          · rw [if_neg hR2] at h
            have he : cell1 = cell' := (Except.ok.injEq _ _).mp h
            subst he
            rcases hcell1 with h1 | h1
            · subst h1
              exact ⟨by simp, by
                intro ac hac
                rw [List.mem_singleton] at hac
                subst hac
                exact Or.inr rfl⟩
            · subst h1
              exact ⟨by simp, by
                intro ac hac
                rw [List.mem_singleton] at hac
                subst hac
                exact Or.inl rfl⟩


theorem reduce_not_shift {ac : Action} (h : isReduceA ac = true) : isShiftA ac = false := by
  obtain ⟨it, rfl⟩ := isReduceA_shape h
  rfl

/-- `resolveRow` resolves every terminal cell (to at most one Shift/Reduce,
given the generated discipline) and leaves every other cell unchanged. -/
theorem resolveRow_spec (g : Grammar) (ops : List (String × OpProp)) (favor : Favor)
    (sid : Nat) :
    ∀ (ts : List String) (r r' : Row),
      (∀ k ∈ ts, ∀ cell, rlookup r k = some cell →
        (∀ ac ∈ cell, isShiftA ac = true ∨ isReduceA ac = true) ∧
        (cell.filter isShiftA).length ≤ 1) →
      ts.foldlM
        (fun (r : Row) term =>
          match rlookup r term with
          | Option.none => Except.error LiquidError.typeError
          | some cell => (resolveCell ops favor sid term cell).map
              (fun cell' => rowSet r term cell')) r = Except.ok r' →
      (∀ k, k ∉ ts → rlookup r' k = rlookup r k) ∧
      (∀ k ∈ ts, ∀ cell', rlookup r' k = some cell' →
        cell'.length ≤ 1 ∧ ∀ ac ∈ cell', isShiftA ac = true ∨ isReduceA ac = true) := by
  intro ts
  induction ts with
  | nil =>
    intro r r' _ h
    rw [List.foldlM_nil] at h
    have he : r = r' := (Except.ok.injEq _ _).mp h
    subst he
    exact ⟨fun k _ => rfl, fun k hk => absurd hk (List.not_mem_nil k)⟩
  | cons t rest ih =>
    intro r r' hsh h
    rw [List.foldlM_cons] at h
    cases hrl : rlookup r t with
    | none =>
      replace h : (match rlookup r t with
        | Option.none => Except.error LiquidError.typeError
        | some cell => (resolveCell ops favor sid t cell).map
            (fun cell' => rowSet r t cell')) >>= (fun r1 =>
          rest.foldlM (fun (r : Row) term =>
            match rlookup r term with
            | Option.none => Except.error LiquidError.typeError
            | some cell => (resolveCell ops favor sid term cell).map
                (fun cell' => rowSet r term cell')) r1) = Except.ok r' := h
      rw [hrl] at h
      exact absurd h (Except.noConfusion)
    | some cell =>
      replace h : (match rlookup r t with
        | Option.none => Except.error LiquidError.typeError
        | some cell => (resolveCell ops favor sid t cell).map
            (fun cell' => rowSet r t cell')) >>= (fun r1 =>
          rest.foldlM (fun (r : Row) term =>
            match rlookup r term with
            | Option.none => Except.error LiquidError.typeError
            | some cell => (resolveCell ops favor sid term cell).map
                (fun cell' => rowSet r term cell')) r1) = Except.ok r' := h
      rw [hrl] at h
      replace h : (resolveCell ops favor sid t cell).map (fun cell' => rowSet r t cell') >>=
          (fun r1 => rest.foldlM (fun (r : Row) term =>
            match rlookup r term with
            | Option.none => Except.error LiquidError.typeError
            | some cell => (resolveCell ops favor sid term cell).map
                (fun cell' => rowSet r term cell')) r1) = Except.ok r' := h
      cases hres : resolveCell ops favor sid t cell with
      | error e =>
        rw [hres] at h
        exact absurd h (Except.noConfusion)
      | ok cell1 =>
        rw [hres] at h
        replace h : rest.foldlM
          (fun (r : Row) term =>
            match rlookup r term with
            | Option.none => Except.error LiquidError.typeError
            | some cell => (resolveCell ops favor sid term cell).map
                (fun cell' => rowSet r term cell')) (rowSet r t cell1) = Except.ok r' := h
        have hshape := hsh t (List.mem_cons_self t rest) cell hrl
        have hc1 := resolveCell_ok_shape hshape.1 hshape.2 hres
        have hr1self : rlookup (rowSet r t cell1) t = some cell1 := rlookup_rowSet_self r t cell1
        have hr1ne : ∀ k, k ≠ t → rlookup (rowSet r t cell1) k = rlookup r k :=
          fun k hk => rlookup_rowSet_ne r t k cell1 hk
        have hsh1 : ∀ k ∈ rest, ∀ c, rlookup (rowSet r t cell1) k = some c →
            (∀ ac ∈ c, isShiftA ac = true ∨ isReduceA ac = true) ∧
            (c.filter isShiftA).length ≤ 1 := by
          intro k hk c hc
          by_cases hkt : k = t
          · subst hkt
            rw [hr1self] at hc
            have he : cell1 = c := (Option.some.injEq _ _).mp hc
            subst he
            exact ⟨hc1.2, le_trans (List.length_filter_le _ _) hc1.1⟩
          · rw [hr1ne k hkt] at hc
            exact hsh k (List.mem_cons_of_mem _ hk) c hc
        obtain ⟨ih1, ih2⟩ := ih (rowSet r t cell1) r' hsh1 h
        constructor
        · intro k hk
          have hk1 : k ≠ t := fun he => hk (he ▸ List.mem_cons_self t rest)
          have hk2 : k ∉ rest := fun hm => hk (List.mem_cons_of_mem _ hm)
          rw [ih1 k hk2, hr1ne k hk1]
        · intro k hk cell' hc'
          rcases List.mem_cons.mp hk with h1 | h2
          · subst h1
            by_cases hkr : k ∈ rest
            · exact ih2 k hkr cell' hc'
            · rw [ih1 k hkr, hr1self] at hc'
              have he : cell1 = cell' := (Option.some.injEq _ _).mp hc'
              subst he
              exact hc1
          · exact ih2 k h2 cell' hc'

/-- `resolveConflicts` rewrites each row of the table through `resolveRow`
and touches nothing else. -/
theorem resolveConflicts_fold_spec (g : Grammar) (ops : List (String × OpProp))
    (favor : Favor) :
    ∀ (is : List Nat), is.Nodup → ∀ (tt t' : Table),
      is.foldlM
        (fun (tt : Table) sid =>
          match tt.get? sid with
          | Option.none => Except.error LiquidError.typeError
          | some row => (resolveRow g ops favor sid row).map (fun row' => tt.set sid row'))
        tt = Except.ok t' →
      (∀ sid, sid ∉ is → t'.get? sid = tt.get? sid) ∧
      (∀ sid ∈ is, ∀ row', t'.get? sid = some row' →
        ∃ row, tt.get? sid = some row ∧ resolveRow g ops favor sid row = Except.ok row') := by
  intro is
  induction is with
  | nil =>
    intro _ tt t' h
    rw [List.foldlM_nil] at h
    have he : tt = t' := (Except.ok.injEq _ _).mp h
    subst he
    exact ⟨fun sid _ => rfl, fun sid hs => absurd hs (List.not_mem_nil sid)⟩
  | cons i rest ih =>
    intro hnd tt t' h
    have hir := (List.nodup_cons.mp hnd).1
    have hnd2 := (List.nodup_cons.mp hnd).2
    rw [List.foldlM_cons] at h
    cases hget : tt.get? i with
    | none =>
      replace h : (match tt.get? i with
        | Option.none => Except.error LiquidError.typeError
        | some row => (resolveRow g ops favor i row).map (fun row' => tt.set i row')) >>=
          (fun tt1 => rest.foldlM
            (fun (tt : Table) sid =>
              match tt.get? sid with
              | Option.none => Except.error LiquidError.typeError
              | some row => (resolveRow g ops favor sid row).map (fun row' => tt.set sid row'))
            tt1) = Except.ok t' := h
      rw [hget] at h
      exact absurd h (Except.noConfusion)
    | some row =>
      replace h : (match tt.get? i with
        | Option.none => Except.error LiquidError.typeError
        | some row => (resolveRow g ops favor i row).map (fun row' => tt.set i row')) >>=
          (fun tt1 => rest.foldlM
            (fun (tt : Table) sid =>
              match tt.get? sid with
              | Option.none => Except.error LiquidError.typeError
              | some row => (resolveRow g ops favor sid row).map (fun row' => tt.set sid row'))
            tt1) = Except.ok t' := h
      rw [hget] at h
      replace h : (resolveRow g ops favor i row).map (fun row' => tt.set i row') >>=
          (fun tt1 => rest.foldlM
            (fun (tt : Table) sid =>
              match tt.get? sid with
              | Option.none => Except.error LiquidError.typeError
              | some row => (resolveRow g ops favor sid row).map (fun row' => tt.set sid row'))
            tt1) = Except.ok t' := h
      cases hres : resolveRow g ops favor i row with
      | error e =>
        rw [hres] at h
        exact absurd h (Except.noConfusion)
      | ok row1 =>
        rw [hres] at h
        replace h : rest.foldlM
          (fun (tt : Table) sid =>
            match tt.get? sid with
            | Option.none => Except.error LiquidError.typeError
            | some row => (resolveRow g ops favor sid row).map (fun row' => tt.set sid row'))
          (tt.set i row1) = Except.ok t' := h
        obtain ⟨ih1, ih2⟩ := ih hnd2 (tt.set i row1) t' h
        have hset_ne : ∀ sid, sid ≠ i → (tt.set i row1).get? sid = tt.get? sid := by
          intro sid hs
          exact List.get?_set_ne row1 tt (fun he => hs he.symm)
        have hset_eq : (tt.set i row1).get? i = some row1 := by
          rw [List.get?_set_eq, hget]
          rfl
        constructor
        · intro sid hs
          have hs1 : sid ≠ i := fun he => hs (he ▸ List.mem_cons_self i rest)
          have hs2 : sid ∉ rest := fun hm => hs (List.mem_cons_of_mem _ hm)
          rw [ih1 sid hs2, hset_ne sid hs1]
        · intro sid hs row' hrow'
          rcases List.mem_cons.mp hs with h1 | h2
          · subst h1
            rw [ih1 sid hir, hset_eq] at hrow'
            have he : row1 = row' := (Option.some.injEq _ _).mp hrow'
            subst he
            exact ⟨row, hget, hres⟩
          · obtain ⟨row2, hrow2, hres2⟩ := ih2 sid h2 row' hrow'
            have hs1 : sid ≠ i := fun he => hir (he ▸ h2)
            rw [hset_ne sid hs1] at hrow2
            exact ⟨row2, hrow2, hres2⟩

theorem mapM_get_spec {α β : Type} (f : α → Option β) :
    ∀ (l : List α) (t : List β), l.mapM f = some t →
      ∀ i x, t.get? i = some x → ∃ y, l.get? i = some y ∧ f y = some x := by
  intro l
  induction l with
  | nil =>
    intro t h i x hx
    have he : ([] : List β) = t := (Option.some.injEq _ _).mp h
    subst he
    simp at hx
  | cons y ys ih =>
    intro t h i x hx
    rw [List.mapM_cons] at h
    cases hf : f y with
    | none => rw [hf] at h; exact absurd h (Option.noConfusion)
    | some b =>
      rw [hf] at h
      cases hm : ys.mapM f with
      | none =>
        rw [hm] at h
        exact absurd h (Option.noConfusion)
      | some bs =>
        rw [hm] at h
        replace h : some (b :: bs) = some t := h
        have he : b :: bs = t := (Option.some.injEq _ _).mp h
        subst he
        cases i with
        | zero =>
          have he : b = x := (Option.some.injEq _ _).mp hx
          subst he
          exact ⟨y, rfl, hf⟩
        | succ n =>
          rw [List.get?_cons_succ] at hx
          obtain ⟨z, hz, hfz⟩ := ih bs hm n x hx
          exact ⟨z, by rw [List.get?_cons_succ]; exact hz, hfz⟩


/-- C4 (amended): after table generation and conflict resolution succeed,
every cell under a key of `grammar.terminals` holds at most one action, and
only Shifts or Reduces; every cell under a variable key holds only Gotos; and
an Accept appears only under the `$` key.  (The spec's "at most one action
per cell" does NOT extend to the `$` cell: conflict resolution iterates only
over `grammar.terminals`, which never contains `$`, so a $-cell may retain
several Reduces — see the counterexample.)  Hypotheses: lookaheads of
completed closure items are never variables (lookahead hygiene, claim C9),
and the reserved `$` sign is not itself a grammar symbol. -/
theorem C4_amended_cells (g : Grammar) (ops : List (String × OpProp)) (favor : Favor)
    (a : Automaton) (t' : Table)
    (hla : ∀ st ∈ a.states, ∀ it ∈ st.closure, Item.isCompleted it = true →
      ∀ la ∈ it.lookaheads, Grammar.isVariable g la = false)
    (heof : eofSign ∉ Grammar.terminals g)
    (heofv : Grammar.isVariable g eofSign = false)
    (hok : buildTable g ops favor a = Except.ok t') :
    ∀ sid row', t'.get? sid = some row' →
      (∀ k ∈ Grammar.terminals g, ∀ cell', rlookup row' k = some cell' →
        cell'.length ≤ 1 ∧ ∀ ac ∈ cell', isShiftA ac = true ∨ isReduceA ac = true) ∧
      (∀ k, Grammar.isVariable g k = true → ∀ cell', rlookup row' k = some cell' →
        ∀ ac ∈ cell', ∃ i, ac = Action.goto i) ∧
      (∀ k cell', rlookup row' k = some cell' → Action.accept ∈ cell' → k = eofSign) := by
  unfold buildTable at hok
  cases hgen : generateParseTable g a with
  | none => rw [hgen] at hok; exact absurd hok (Except.noConfusion)
  | some t0 =>
    rw [hgen] at hok
    replace hok : (List.range t0.length).foldlM
        (fun (tt : Table) sid =>
          match tt.get? sid with
          | Option.none => Except.error LiquidError.typeError
          | some row => (resolveRow g ops favor sid row).map (fun row' => tt.set sid row'))
        t0 = Except.ok t' := hok
    have hrc := resolveConflicts_fold_spec g ops favor (List.range t0.length)
      (List.nodup_range t0.length) t0 t' hok
    intro sid row' hrow'
    by_cases hsid : sid ∈ List.range t0.length
    swap
    · rw [hrc.1 sid hsid] at hrow'
      have hnone : t0.get? sid = none := by
        rw [List.get?_eq_none]
        rw [List.mem_range] at hsid
        omega
      rw [hnone] at hrow'
      exact absurd hrow' (Option.noConfusion)
    · obtain ⟨row, hrow, hres⟩ := hrc.2 sid hsid row' hrow'
      replace hgen : a.states.mapM (generateRow g) = some t0 := hgen
      obtain ⟨st, hstget, hgrow⟩ := mapM_get_spec _ a.states t0 hgen sid row hrow
      have hstmem : st ∈ a.states := List.get?_mem hstget
      have hcells := generateRow_cells g st row hgrow
      have hshape : ∀ k ∈ Grammar.terminals g, ∀ cell, rlookup row k = some cell →
          (∀ ac ∈ cell, isShiftA ac = true ∨ isReduceA ac = true) ∧
          (cell.filter isShiftA).length ≤ 1 := by
        intro k hk cell hc
        obtain ⟨s, gp, extra, hce, hs, hgp, hex⟩ := hcells k cell hc
        have hgpe : gp = [] := by
          rcases hgp with h1 | ⟨_, hkv⟩
          · exact h1
          · have := mem_vars_is_var hkv
            rw [mem_terminals_not_var hk] at this
            exact absurd this (by simp)
        have hexr : ∀ ac ∈ extra, isReduceA ac = true := by
          intro ac hac
          rcases hex ac hac with ⟨it, _, _, hacr, _⟩ | ⟨_, hke⟩
          · rw [hacr]; rfl
          · exact absurd (hke ▸ hk) heof
        have hsk : ∀ ac ∈ s, isShiftA ac = true := by
          intro ac hac
          rcases hs with h1 | ⟨⟨sid0, h1⟩, _⟩
          · rw [h1] at hac; exact absurd hac (List.not_mem_nil ac)
          · rw [h1] at hac
            rw [List.mem_singleton] at hac
            rw [hac]
            rfl
        constructor
        · intro ac hac
          simp only [hce, hgpe, List.append_nil] at hac
          rcases List.mem_append.mp hac with h1 | h2
          · exact Or.inl (hsk ac h1)
          · exact Or.inr (hexr ac h2)
        · simp only [hce, hgpe, List.append_nil, List.filter_append]
          have hef : extra.filter isShiftA = [] := by
            rw [List.filter_eq_nil_iff]
            intro ac hac
            rw [reduce_not_shift (hexr ac hac)]
            simp
          rw [hef, List.append_nil]
          rcases hs with h1 | ⟨⟨sid0, h1⟩, _⟩
          · rw [h1]; simp
          · rw [h1]; simp [isShiftA]
      have happly := resolveRow_spec g ops favor sid (Grammar.terminals g) row row' hshape hres
      refine ⟨?_, ?_, ?_⟩
      · intro k hk cell' hc'
        exact happly.2 k hk cell' hc'
      · intro k hkvar cell' hc'
        have hknt : k ∉ Grammar.terminals g := by
          intro hk
          rw [mem_terminals_not_var hk] at hkvar
          exact absurd hkvar (by simp)
        rw [happly.1 k hknt] at hc'
        obtain ⟨s, gp, extra, hce, hs, hgp, hex⟩ := hcells k cell' hc'
        have hse : s = [] := by
          rcases hs with h1 | ⟨_, hkt⟩
          · exact h1
          · exact absurd hkt hknt
        have hexe : ∀ ac ∈ extra, False := by
          intro ac hac
          rcases hex ac hac with ⟨it, hitc, hitcomp, _, hkla⟩ | ⟨_, hke⟩
          · have := hla st hstmem it hitc hitcomp k hkla
            rw [this] at hkvar
            exact absurd hkvar (by simp)
          · rw [hke] at hkvar
            rw [heofv] at hkvar
            exact absurd hkvar (by simp)
        intro ac hac
        rw [hce, hse, List.nil_append] at hac
        rcases List.mem_append.mp hac with h1 | h2
        · rcases hgp with hg1 | ⟨⟨i, hg1⟩, _⟩
          · rw [hg1] at h1; exact absurd h1 (List.not_mem_nil ac)
          · rw [hg1] at h1
            rw [List.mem_singleton] at h1
            exact ⟨i, h1⟩
        · exact absurd (hexe ac h2) (fun f => f)
      · intro k cell' hc' hacc
        by_cases hkt : k ∈ Grammar.terminals g
        · rcases (happly.2 k hkt cell' hc').2 Action.accept hacc with h1 | h1
          · exact absurd h1 (by simp [isShiftA])
          · exact absurd h1 (by simp [isReduceA])
        · rw [happly.1 k hkt] at hc'
          obtain ⟨s, gp, extra, hce, hs, hgp, hex⟩ := hcells k cell' hc'
          have hse : s = [] := by
            rcases hs with h1 | ⟨_, hkm⟩
            · exact h1
            · exact absurd hkm hkt
          rw [hce, hse, List.nil_append] at hacc
          rcases List.mem_append.mp hacc with h1 | h2
          · rcases hgp with hg1 | ⟨⟨i, hg1⟩, _⟩
            · rw [hg1] at h1; exact absurd h1 (List.not_mem_nil _)
            · rw [hg1] at h1
              rw [List.mem_singleton] at h1
              exact absurd h1 (by simp)
          · rcases hex _ h2 with ⟨it, _, _, hacr, _⟩ | ⟨_, hke⟩
            · exact absurd hacr (by simp)
            · exact hke


/-- C4, witness: the resolved `gC4` table satisfies the amended cell
discipline on every cell under a grammar terminal. -/
theorem C4_witness :
    buildTable gC4 (opsOfPatterns []) Favor.none gC4A5 = Except.ok gC4T1 ∧
    ∀ sid row', gC4T1.get? sid = some row' →
      ∀ k ∈ Grammar.terminals gC4, ∀ cell', rlookup row' k = some cell' →
        cell'.length ≤ 1 ∧ ∀ ac ∈ cell', isShiftA ac = true ∨ isReduceA ac = true := by
  have hok : buildTable gC4 (opsOfPatterns []) Favor.none gC4A5 = Except.ok gC4T1 := by decide
  refine ⟨hok, ?_⟩
  intro sid row' hrow'
  exact ((C4_amended_cells gC4 (opsOfPatterns []) Favor.none gC4A5 gC4T1
    (by decide) (by decide) (by decide) hok) sid row' hrow').1


/-! ## Claim C9: lookahead hygiene of the built automaton -/

/-- A legal lookahead: a grammar terminal or the `$` sign. -/
def goodLA (g : Grammar) (la : String) : Prop :=
  la ∈ Grammar.terminals g ∨ la = eofSign

/-- Where an item's rhs can come from: the synthetic augmented rule or a
grammar rule. -/
def ItemFrom (g : Grammar) (it : Item) : Prop :=
  (it.lhs = augSign ∧ it.rhs = [Grammar.start g]) ∨ (∃ r, r ∈ g.rules ∧ it.rhs = r.rhs)

def GoodItem (g : Grammar) (it : Item) : Prop :=
  (∀ la ∈ it.lookaheads, goodLA g la) ∧ ItemFrom g it

def GoodState (g : Grammar) (st : LRState) : Prop :=
  (∀ it ∈ st.kernel, GoodItem g it) ∧ (∀ it ∈ st.closure, GoodItem g it)

def GoodCache (g : Grammar) (c : Cache) : Prop := ∀ p ∈ c, ∀ la ∈ p.2, goodLA g la

def GoodAuto (g : Grammar) (a : Automaton) : Prop :=
  (∀ st ∈ a.states, GoodState g st) ∧ GoodCache g a.cache ∧ (∀ it ∈ a.rules, GoodItem g it)

/-- FIRST-map hygiene: every value is a grammar terminal or ε. -/
def FV (g : Grammar) (m : List (String × List String)) : Prop :=
  ∀ p ∈ m, ∀ x ∈ p.2, x ∈ Grammar.terminals g ∨ x = epsSign

theorem rhsSym_terminal {g : Grammar} {s : String} (hs : s ∈ Grammar.rhsSymbols g)
    (hne : s ≠ epsSign) (hnv : Grammar.isVariable g s = false) :
    s ∈ Grammar.terminals g := by
  unfold Grammar.terminals
  refine List.mem_filter.mpr ⟨?_, by simp [hnv]⟩
  rw [mem_jsDedup]
  exact List.mem_filter.mpr ⟨hs, by simp [hne]⟩

theorem mem_terminals_ne_eps {g : Grammar} {s : String} (h : s ∈ Grammar.terminals g) :
    s ≠ epsSign := by
  have h1 := List.mem_of_mem_filter h
  rw [mem_jsDedup] at h1
  have := List.of_mem_filter h1
  simpa using this

theorem mget_FV {g : Grammar} {m : List (String × List String)} (hm : FV g m) (k : String) :
    ∀ x ∈ mget m k, x ∈ Grammar.terminals g ∨ x = epsSign := by
  intro x hx
  unfold mget at hx
  cases hf : m.find? (fun p => p.1 = k) with
  | none => rw [hf] at hx; simp at hx
  | some p =>
    rw [hf] at hx
    simp only [Option.map_some', Option.getD_some] at hx
    exact hm p (List.mem_of_find?_eq_some hf) x hx

theorem mset_FV {g : Grammar} {m : List (String × List String)} {k : String}
    {v : List String} (hm : FV g m)
    (hv : ∀ x ∈ v, x ∈ Grammar.terminals g ∨ x = epsSign) : FV g (mset m k v) := by
  intro p hp x hx
  unfold mset at hp
  obtain ⟨q, hq, he⟩ := List.mem_map.mp hp
  by_cases hqk : q.1 = k
  · rw [if_pos hqk] at he
    rw [← he] at hx
    exact hv x hx
  · rw [if_neg hqk] at he
    rw [← he] at hx
    exact hm q hq x hx

theorem jsUnion_FV {g : Grammar} {old add : List String}
    (ho : ∀ x ∈ old, x ∈ Grammar.terminals g ∨ x = epsSign)
    (ha : ∀ x ∈ add, x ∈ Grammar.terminals g ∨ x = epsSign) :
    ∀ x ∈ jsUnion old add, x ∈ Grammar.terminals g ∨ x = epsSign := by
  intro x hx
  unfold jsUnion at hx
  rw [mem_jsDedup] at hx
  rcases List.mem_append.mp hx with h1 | h2
  · exact ho x h1
  · exact ha x h2

theorem firstsRuleStep_FV (g : Grammar) (lhs : String) :
    ∀ (rest : List String) (m : List (String × List String)) (ch : Bool),
      (∀ s ∈ rest, s ∈ Grammar.rhsSymbols g) → FV g m →
      FV g (firstsRuleStep g lhs rest m ch).1 := by
  intro rest
  induction rest with
  | nil => intro m ch _ hm; exact hm
  | cons sym rest ih =>
    intro m ch hsyms hm
    have hsym : sym ∈ Grammar.rhsSymbols g := hsyms sym (List.mem_cons_self sym rest)
    have hrest : ∀ s ∈ rest, s ∈ Grammar.rhsSymbols g :=
      fun s hs => hsyms s (List.mem_cons_of_mem _ hs)
    simp only [firstsRuleStep]
    by_cases hvar : Grammar.isVariable g sym = true
    · rw [if_neg (by simp [hvar])]
      have hfs := mget_FV hm sym
      by_cases heps : (mget m sym).contains epsSign = true
      · rw [if_pos heps]
        have hm1 : FV g (mset m lhs (jsUnion (mget m lhs)
            ((mget m sym).filter (fun f => f ≠ epsSign)))) := by
          refine mset_FV hm (jsUnion_FV (mget_FV hm lhs) ?_)
          intro x hx
          exact hfs x (List.mem_of_mem_filter hx)
        by_cases hre : rest.isEmpty = true
        · rw [if_pos hre]
          by_cases hceps : (mget (mset m lhs (jsUnion (mget m lhs)
              ((mget m sym).filter (fun f => f ≠ epsSign)))) lhs).contains epsSign = true
          · rw [if_pos hceps]
            exact ih _ _ hrest hm1
          · rw [if_neg hceps]
            refine ih _ _ hrest (mset_FV hm1 ?_)
            intro x hx
            rcases List.mem_append.mp hx with h1 | h2
            · exact mget_FV hm1 lhs x h1
            · rw [List.mem_singleton] at h2
              exact Or.inr h2
        · rw [if_neg hre]
          exact ih _ _ hrest hm1
      · rw [if_neg heps]
        exact mset_FV hm (jsUnion_FV (mget_FV hm lhs) hfs)
    · rw [if_pos (by simp only [Bool.not_eq_true] at hvar ⊢; rw [hvar]; rfl)]
      by_cases hc : (mget m lhs).contains sym = true
      · rw [if_pos hc]
        exact hm
      · rw [if_neg hc]
        refine mset_FV hm ?_
        intro x hx
        rcases List.mem_append.mp hx with h1 | h2
        · exact mget_FV hm lhs x h1
        · rw [List.mem_singleton] at h2
          subst h2
          by_cases hxe : x = epsSign
          · exact Or.inr hxe
          · exact Or.inl (rhsSym_terminal hsym hxe (by
              simp only [Bool.not_eq_true] at hvar
              exact hvar))


theorem firstsPass_FV (g : Grammar) {m : List (String × List String)} (hm : FV g m) :
    FV g (firstsPass g m).1 := by
  unfold firstsPass
  have key : ∀ (rs : List GrammarProductionRule) (acc : List (String × List String) × Bool),
      (∀ r ∈ rs, r ∈ g.rules) → FV g acc.1 →
      FV g (rs.foldl (fun acc r => firstsRuleStep g r.lhs r.rhs acc.1 acc.2) acc).1 := by
    intro rs
    induction rs with
    | nil => intro acc _ h; exact h
    | cons r rest ih =>
      intro acc hrs h
      rw [List.foldl_cons]
      refine ih _ (fun q hq => hrs q (List.mem_cons_of_mem _ hq)) ?_
      refine firstsRuleStep_FV g r.lhs r.rhs acc.1 acc.2 ?_ h
      intro s hs
      exact List.mem_flatMap.mpr ⟨r, hrs r (List.mem_cons_self r rest), hs⟩
  exact key g.rules (m, false) (fun r hr => hr) hm

theorem firstsIter_FV (g : Grammar) :
    ∀ (fuel : Nat) (m : List (String × List String)), FV g m →
      FV g (firstsIter g fuel m) := by
  intro fuel
  induction fuel with
  | zero => intro m hm; exact hm
  | succ f ih =>
    intro m hm
    simp only [firstsIter]
    by_cases hch : (firstsPass g m).2 = true
    · rw [if_pos hch]
      exact ih _ (firstsPass_FV g hm)
    · rw [if_neg hch]
      exact firstsPass_FV g hm

theorem firstsMap_FV (g : Grammar) (fuel : Nat) : FV g (firstsMap g fuel) := by
  unfold firstsMap
  refine firstsIter_FV g fuel _ ?_
  intro p hp x hx
  obtain ⟨v, _, he⟩ := List.mem_map.mp hp
  rw [← he] at hx
  simp at hx

theorem firstOfSeqGo_good (g : Grammar) (m : List (String × List String)) (seq : List String)
    (hm : FV g m) :
    ∀ (rest acc : List String),
      (∀ s ∈ rest, s ∈ Grammar.rhsSymbols g) →
      (∀ x ∈ acc, x ∈ Grammar.terminals g ∨ x = epsSign) →
      ∀ x ∈ firstOfSeqGo g m seq acc rest, x ∈ Grammar.terminals g ∨ x = epsSign := by
  intro rest
  induction rest with
  | nil => intro acc _ hacc x hx; exact hacc x hx
  | cons sym rest ih =>
    intro acc hsyms hacc x hx
    have hsym : sym ∈ Grammar.rhsSymbols g := hsyms sym (List.mem_cons_self sym rest)
    have hrest : ∀ s ∈ rest, s ∈ Grammar.rhsSymbols g :=
      fun s hs => hsyms s (List.mem_cons_of_mem _ hs)
    simp only [firstOfSeqGo] at hx
    by_cases hvar : Grammar.isVariable g sym = true
    · rw [if_neg (by simp [hvar])] at hx
      have hfs := mget_FV hm sym
      by_cases heps : (mget m sym).contains epsSign = true
      · rw [if_pos heps] at hx
        have hacc1 : ∀ y ∈ acc ++ (mget m sym).filter (fun f => f ≠ epsSign),
            y ∈ Grammar.terminals g ∨ y = epsSign := by
          intro y hy
          rcases List.mem_append.mp hy with h1 | h2
          · exact hacc y h1
          · exact hfs y (List.mem_of_mem_filter h2)
        by_cases hlast : seq.indexOf sym = seq.length - 1
        · rw [if_pos hlast] at hx
          by_cases hca : (acc ++ (mget m sym).filter (fun f => f ≠ epsSign)).contains
              epsSign = true
          · rw [if_pos hca] at hx
            exact ih _ hrest hacc1 x hx
          · rw [if_neg hca] at hx
            refine ih _ hrest ?_ x hx
            intro y hy
            rcases List.mem_append.mp hy with h1 | h2
            · exact hacc1 y h1
            · rw [List.mem_singleton] at h2
              exact Or.inr h2
        · rw [if_neg hlast] at hx
          exact ih _ hrest hacc1 x hx
      · rw [if_neg heps] at hx
        rcases List.mem_append.mp hx with h1 | h2
        · exact hacc x h1
        · exact hfs x h2
    · rw [if_pos (by simp only [Bool.not_eq_true] at hvar ⊢; rw [hvar]; rfl)] at hx
      by_cases hc : acc.contains sym = true
      · rw [if_pos hc] at hx
        exact hacc x hx
      · rw [if_neg hc] at hx
        rcases List.mem_append.mp hx with h1 | h2
        · exact hacc x h1
        · rw [List.mem_singleton] at h2
          subst h2
          by_cases hxe : x = epsSign
          · exact Or.inr hxe
          · exact Or.inl (rhsSym_terminal hsym hxe (by
              simp only [Bool.not_eq_true] at hvar
              exact hvar))

theorem firstOfSequence_good {g : Grammar} {m : List (String × List String)}
    {seq : List String} (hm : FV g m) (hs : ∀ s ∈ seq, s ∈ Grammar.rhsSymbols g) :
    ∀ x ∈ firstOfSequence g m seq, x ∈ Grammar.terminals g ∨ x = epsSign := by
  intro x hx
  exact firstOfSeqGo_good g m seq hm seq [] hs
    (fun y hy => absurd hy (List.not_mem_nil y)) x hx


theorem laProcessOne_good (g : Grammar) (m : List (String × List String))
    (kernel closure : List Item) (cache : Cache) (pit : Item)
    (hm : FV g m) (hcl : ∀ it ∈ closure, GoodItem g it) (hc : GoodCache g cache)
    (hpit : GoodItem g pit) :
    (∀ it ∈ (laProcessOne g m kernel closure cache pit).1, GoodItem g it) ∧
    GoodCache g (laProcessOne g m kernel closure cache pit).2.1 ∧
    (∀ e ∈ (laProcessOne g m kernel closure cache pit).2.2, ∀ it : Item,
      e = Sum.inl it → False) := by
  cases hns : pit.nextSymbol with
  | none =>
    simp only [laProcessOne, hns]
    exact ⟨hcl, hc, fun e he it _ => absurd he (List.not_mem_nil e)⟩
  | some nextSym =>
    have hbeta : ∀ s ∈ pit.rhs.drop (pit.index + 1), s ∈ Grammar.rhsSymbols g := by
      rcases hpit.2 with ⟨_, hrhs⟩ | ⟨r, hr, hrhs⟩
      · intro s hs
        rw [hrhs] at hs
        rw [List.drop_eq_nil_of_le (by simp)] at hs
        exact absurd hs (List.not_mem_nil s)
      · intro s hs
        rw [hrhs] at hs
        exact List.mem_flatMap.mpr ⟨r, hr, List.drop_subset _ _ hs⟩
    have hlas : ∀ x ∈ (if (pit.rhs.drop (pit.index + 1)).length = 0 ||
        (firstOfSequence g m (pit.rhs.drop (pit.index + 1))).contains epsSign then
          pit.lookaheads ++ (firstOfSequence g m (pit.rhs.drop (pit.index + 1))).filter
            (fun f => f ≠ epsSign)
        else firstOfSequence g m (pit.rhs.drop (pit.index + 1))), goodLA g x := by
      intro x hx
      by_cases hcond : ((pit.rhs.drop (pit.index + 1)).length = 0 ||
          (firstOfSequence g m (pit.rhs.drop (pit.index + 1))).contains epsSign) = true
      · rw [if_pos hcond] at hx
        rcases List.mem_append.mp hx with h1 | h2
        · exact hpit.1 x h1
        · have hxm := List.mem_of_mem_filter h2
          have hxne : x ≠ epsSign := by
            have := List.of_mem_filter h2
            simpa using this
          rcases firstOfSequence_good hm hbeta x hxm with ht | he
          · exact Or.inl ht
          · exact absurd he hxne
      · rw [if_neg hcond] at hx
        simp only [Bool.or_eq_true, not_or, Bool.not_eq_true] at hcond
        rcases firstOfSequence_good hm hbeta x hx with ht | he
        · exact Or.inl ht
        · exfalso
          rw [he] at hx
          have hnm : epsSign ∉ firstOfSequence g m (pit.rhs.drop (pit.index + 1)) := by
            simpa using hcond.2
          exact absurd hx hnm
    have key : ∀ (ts : List Nat) (las : List String)
        (hlg : ∀ x ∈ las, goodLA g x)
        (acc : List Item × List (Sum Item Nat)),
        (∀ it ∈ acc.1, GoodItem g it) →
        (∀ e ∈ acc.2, ∀ it : Item, e = Sum.inl it → False) →
        (∀ it ∈ (ts.foldl
          (fun (acc : List Item × List (Sum Item Nat)) i =>
            match acc.1.get? i with
            | some it =>
              let newLA := jsDedup (it.lookaheads ++ las)
              let cl' := acc.1.set i { it with lookaheads := newLA }
              if newLA.length ≠ it.lookaheads.length then (cl', acc.2 ++ [Sum.inr i])
              else (cl', acc.2)
            | Option.none => acc) acc).1, GoodItem g it) ∧
        (∀ e ∈ (ts.foldl
          (fun (acc : List Item × List (Sum Item Nat)) i =>
            match acc.1.get? i with
            | some it =>
              let newLA := jsDedup (it.lookaheads ++ las)
              let cl' := acc.1.set i { it with lookaheads := newLA }
              if newLA.length ≠ it.lookaheads.length then (cl', acc.2 ++ [Sum.inr i])
              else (cl', acc.2)
            | Option.none => acc) acc).2, ∀ it : Item, e = Sum.inl it → False) := by
      intro ts las hlg
      induction ts with
      | nil => intro acc h1 h2; exact ⟨h1, h2⟩
      | cons i rest ih =>
        intro acc h1 h2
        rw [List.foldl_cons]
        cases hgi : acc.1.get? i with
        | none =>
          simp only [hgi]
          exact ih acc h1 h2
        | some it =>
          simp only [hgi]
          have hit : GoodItem g it := h1 it (List.get?_mem hgi)
          have hnew : GoodItem g { it with lookaheads := jsDedup (it.lookaheads ++ las) } := by
            constructor
            · intro la hla
              simp only at hla
              rw [mem_jsDedup] at hla
              rcases List.mem_append.mp hla with ha | hb
              · exact hit.1 la ha
              · exact hlg la hb
            · rcases hit.2 with h | h
              · exact Or.inl h
              · exact Or.inr h
          have hset : ∀ x ∈ acc.1.set i { it with lookaheads := jsDedup (it.lookaheads ++ las) },
              GoodItem g x := by
            intro x hx
            rcases List.mem_or_eq_of_mem_set hx with hm1 | hm2
            · exact h1 x hm1
            · rw [hm2]; exact hnew
          by_cases hne : (jsDedup (it.lookaheads ++ las)).length ≠ it.lookaheads.length
          · rw [if_pos hne]
            refine ih _ hset ?_
            intro e he it' hinl
            rcases List.mem_append.mp he with ha | hb
            · exact h2 e ha it' hinl
            · rw [List.mem_singleton] at hb
              rw [hb] at hinl
              exact Sum.noConfusion hinl
          · rw [if_neg hne]
            exact ih _ hset h2
    cases hcf : cacheFind cache (laKeyOf pit) with
    | some v =>
      have hv : ∀ x ∈ v, goodLA g x := by
        intro x hx
        unfold cacheFind at hcf
        cases hf : cache.find? (fun p => p.1 = laKeyOf pit) with
        | none => rw [hf] at hcf; exact absurd hcf (Option.noConfusion)
        | some p =>
          rw [hf] at hcf
          simp only [Option.map_some', Option.some.injEq] at hcf
          rw [← hcf] at hx
          exact hc p (List.mem_of_find?_eq_some hf) x hx
      simp only [laProcessOne, hns, hcf]
      exact ⟨(key _ v hv (closure, []) hcl
          (fun e he it _ => absurd he (List.not_mem_nil e))).1,
        hc,
        (key _ v hv (closure, []) hcl
          (fun e he it _ => absurd he (List.not_mem_nil e))).2⟩
    | none =>
      simp only [laProcessOne, hns, hcf]
      refine ⟨(key _ _ hlas (closure, []) hcl
          (fun e he it _ => absurd he (List.not_mem_nil e))).1, ?_,
        (key _ _ hlas (closure, []) hcl
          (fun e he it _ => absurd he (List.not_mem_nil e))).2⟩
      intro p hp x hx
      rcases List.mem_append.mp hp with h1 | h2
      · exact hc p h1 x hx
      · rw [List.mem_singleton] at h2
        rw [h2] at hx
        exact hlas x hx

theorem computeLAGo_good (g : Grammar) (m : List (String × List String))
    (kernel : List Item) (hm : FV g m) :
    ∀ (fuel : Nat) (closure : List Item) (cache : Cache) (queue : List (Sum Item Nat)),
      (∀ it ∈ closure, GoodItem g it) → GoodCache g cache →
      (∀ e ∈ queue, ∀ it : Item, e = Sum.inl it → GoodItem g it) →
      (∀ it ∈ (computeLAGo g m kernel fuel closure cache queue).1, GoodItem g it) ∧
      GoodCache g (computeLAGo g m kernel fuel closure cache queue).2 := by
  intro fuel
  induction fuel with
  | zero => intro closure cache queue h1 h2 _; exact ⟨h1, h2⟩
  | succ f ih =>
    intro closure cache queue h1 h2 h3
    cases queue with
    | nil => exact ⟨h1, h2⟩
    | cons e rest =>
      cases e with
      | inl it =>
        simp only [computeLAGo]
        have hit : GoodItem g it := h3 (Sum.inl it) (List.mem_cons_self _ rest) it rfl
        have hone := laProcessOne_good g m kernel closure cache it hm h1 h2 hit
        refine ih _ _ _ hone.1 hone.2.1 ?_
        intro e he it' hinl
        rcases List.mem_append.mp he with ha | hb
        · exact h3 e (List.mem_cons_of_mem _ ha) it' hinl
        · exact absurd hinl (by
            intro hcontra
            exact hone.2.2 e hb it' hcontra)
      | inr i =>
        simp only [computeLAGo]
        cases hgi : closure.get? i with
        | none =>
          simp only [hgi]
          refine ih _ _ _ h1 h2 ?_
          intro e he it' hinl
          exact h3 e (List.mem_cons_of_mem _ he) it' hinl
        | some pit =>
          simp only [hgi]
          have hpit : GoodItem g pit := h1 pit (List.get?_mem hgi)
          have hone := laProcessOne_good g m kernel closure cache pit hm h1 h2 hpit
          refine ih _ _ _ hone.1 hone.2.1 ?_
          intro e he it' hinl
          rcases List.mem_append.mp he with ha | hb
          · exact h3 e (List.mem_cons_of_mem _ ha) it' hinl
          · exact absurd hinl (by
              intro hcontra
              exact hone.2.2 e hb it' hcontra)


theorem computeClosure_good (autoRules : List Item) (g : Grammar)
    (hr : ∀ it ∈ autoRules, GoodItem g it) :
    ∀ (fuel : Nat) (closure queue : List Item),
      (∀ it ∈ closure, GoodItem g it) →
      ∀ it ∈ computeClosure autoRules g fuel closure queue, GoodItem g it := by
  intro fuel
  induction fuel with
  | zero => intro closure queue h it hit; exact h it hit
  | succ f ih =>
    intro closure queue h it hit
    cases queue with
    | nil => exact h it hit
    | cons item rest =>
      cases hns : item.nextSymbol with
      | none =>
        simp only [computeClosure, hns] at hit
        exact ih closure rest h it hit
      | some sym =>
        simp only [computeClosure, hns] at hit
        by_cases hvar : Grammar.isVariable g sym = true
        · rw [if_pos hvar] at hit
          have key : ∀ (nis : List Item) (acc : List Item × List Item),
              (∀ x ∈ nis, GoodItem g x) → (∀ x ∈ acc.1, GoodItem g x) →
              ∀ x ∈ (nis.foldl
                (fun (acc : List Item × List Item) ni =>
                  if acc.1.any (fun r => Item.itemEq r ni false) then acc
                  else (acc.1 ++ [ni], acc.2 ++ [ni])) acc).1, GoodItem g x := by
            intro nis
            induction nis with
            | nil => intro acc _ hacc x hx; exact hacc x hx
            | cons ni nrest ihn =>
              intro acc hnis hacc x hx
              rw [List.foldl_cons] at hx
              by_cases hany : acc.1.any (fun r => Item.itemEq r ni false) = true
              · rw [if_pos hany] at hx
                exact ihn _ (fun y hy => hnis y (List.mem_cons_of_mem _ hy)) hacc x hx
              · rw [if_neg hany] at hx
                refine ihn _ (fun y hy => hnis y (List.mem_cons_of_mem _ hy)) ?_ x hx
                intro y hy
                rcases List.mem_append.mp hy with h1 | h2
                · exact hacc y h1
                · rw [List.mem_singleton] at h2
                  rw [h2]
                  exact hnis ni (List.mem_cons_self ni nrest)
          refine ih _ _ ?_ it hit
          intro x hx
          refine key (autoRules.filter (fun r => r.lhs = sym)) (closure, rest) ?_ h x hx
          intro y hy
          exact hr y (List.mem_of_mem_filter hy)
        · rw [if_neg hvar] at hit
          exact ih closure rest h it hit

theorem resolveState_good (autoRules : List Item) (g : Grammar)
    (m : List (String × List String)) (fuel : Nat) (kernel : List Item) (cache : Cache)
    (hm : FV g m) (hr : ∀ it ∈ autoRules, GoodItem g it)
    (hk : ∀ it ∈ kernel, GoodItem g it) (hc : GoodCache g cache) :
    (∀ it ∈ (resolveState autoRules g m fuel kernel cache).1, GoodItem g it) ∧
    GoodCache g (resolveState autoRules g m fuel kernel cache).2 := by
  unfold resolveState
  have hclg : ∀ it ∈ computeClosure autoRules g fuel kernel kernel, GoodItem g it :=
    computeClosure_good autoRules g hr fuel kernel kernel hk
  refine computeLAGo_good g m kernel hm fuel _ cache _ hclg hc ?_
  intro e he it hinl
  obtain ⟨x, hx, hxe⟩ := List.mem_map.mp he
  rw [← hxe] at hinl
  have hxit : x = it := Sum.inl.inj hinl
  rw [← hxit]
  exact hk x hx

theorem register_good (g : Grammar) (m : List (String × List String)) (fuel : Nat)
    (a : Automaton) (kernel : List Item)
    (hm : FV g m) (ha : GoodAuto g a) (hk : ∀ it ∈ kernel, GoodItem g it) :
    GoodAuto g (register g m fuel a kernel) := by
  have hres := resolveState_good a.rules g m fuel kernel a.cache hm ha.2.2 hk ha.2.1
  refine ⟨?_, hres.2, ha.2.2⟩
  intro st hst
  simp only [register] at hst
  rcases List.mem_append.mp hst with h1 | h2
  · exact ha.1 st h1
  · rw [List.mem_singleton] at h2
    rw [h2]
    exact ⟨hk, hres.1⟩

theorem setTransition_good {g : Grammar} {a : Automaton} {id : Nat} {sym : String}
    {target : Nat} (ha : GoodAuto g a) : GoodAuto g (setTransition a id sym target) := by
  unfold setTransition
  cases hget : a.states.get? id with
  | none => exact ha
  | some st =>
    refine ⟨?_, ha.2.1, ha.2.2⟩
    intro st' hst'
    simp only at hst'
    rcases List.mem_or_eq_of_mem_set hst' with h1 | h2
    · exact ha.1 st' h1
    · rw [h2]
      have hstg := ha.1 st (List.get?_mem hget)
      exact ⟨hstg.1, hstg.2⟩

theorem advanceKernel_good {g : Grammar} {closure : List Item} {sym : String}
    (hcl : ∀ it ∈ closure, GoodItem g it) :
    ∀ it ∈ advanceKernel closure sym, GoodItem g it := by
  intro it hit
  unfold advanceKernel at hit
  obtain ⟨x, hx, hxe⟩ := List.mem_map.mp hit
  have hxg : GoodItem g x := hcl x (List.mem_of_mem_filter hx)
  rw [← hxe]
  refine ⟨hxg.1, ?_⟩
  rcases hxg.2 with h | ⟨r, hr, hrhs⟩
  · exact Or.inl h
  · exact Or.inr ⟨r, hr, hrhs⟩


theorem updateLA_fold_good (g : Grammar) (id : Nat) :
    ∀ (items : List Item) (acc : Automaton × Bool),
      (∀ it ∈ items, GoodItem g it) → GoodAuto g acc.1 →
      GoodAuto g (items.foldl
        (fun (acc : Automaton × Bool) item =>
          match acc.1.states.get? id with
          | Option.none => acc
          | some st =>
            match st.closure.findIdx? (fun r => Item.itemEq r item true) with
            | Option.none => acc
            | some ci =>
              match st.closure.get? ci with
              | Option.none => acc
              | some cit =>
                let newLA := jsDedup (cit.lookaheads ++ item.lookaheads)
                if newLA.length ≠ cit.lookaheads.length then
                  let cl1 := st.closure.set ci { cit with lookaheads := newLA }
                  let k1 :=
                    match st.kernel.findIdx? (fun r => Item.itemEq r item true) with
                    | some ki =>
                      match st.kernel.get? ki with
                      | some kit => st.kernel.set ki { kit with lookaheads := newLA }
                      | Option.none => st.kernel
                    | Option.none => st.kernel
                  ({ acc.1 with
                      states := acc.1.states.set id { st with closure := cl1, kernel := k1 } },
                    true)
                else acc) acc).1 := by
  intro items
  induction items with
  | nil => intro acc _ h; exact h
  | cons item rest ih =>
    intro acc hits h
    rw [List.foldl_cons]
    refine ih _ (fun y hy => hits y (List.mem_cons_of_mem _ hy)) ?_
    have hitg : GoodItem g item := hits item (List.mem_cons_self item rest)
    cases hget : acc.1.states.get? id with
    | none => simp only [hget]; exact h
    | some st =>
      simp only [hget]
      cases hci : st.closure.findIdx? (fun r => Item.itemEq r item true) with
      | none => simp only [hci]; exact h
      | some ci =>
        simp only [hci]
        cases hcit : st.closure.get? ci with
        | none => simp only [hcit]; exact h
        | some cit =>
          simp only [hcit]
          have hstg := h.1 st (List.get?_mem hget)
          have hcitg : GoodItem g cit := hstg.2 cit (List.get?_mem hcit)
          have hnewLA : ∀ la ∈ jsDedup (cit.lookaheads ++ item.lookaheads), goodLA g la := by
            intro la hla
            rw [mem_jsDedup] at hla
            rcases List.mem_append.mp hla with h1 | h2
            · exact hcitg.1 la h1
            · exact hitg.1 la h2
          by_cases hne : (jsDedup (cit.lookaheads ++ item.lookaheads)).length ≠
              cit.lookaheads.length
          · rw [if_pos hne]
            have hnewItem : GoodItem g { cit with
                lookaheads := jsDedup (cit.lookaheads ++ item.lookaheads) } := by
              refine ⟨hnewLA, ?_⟩
              rcases hcitg.2 with h1 | h1
              · exact Or.inl h1
              · exact Or.inr h1
            have hcl1 : ∀ x ∈ st.closure.set ci { cit with
                lookaheads := jsDedup (cit.lookaheads ++ item.lookaheads) }, GoodItem g x := by
              intro x hx
              rcases List.mem_or_eq_of_mem_set hx with h1 | h2
              · exact hstg.2 x h1
              · rw [h2]; exact hnewItem
            have hk1 : ∀ x ∈ (match st.kernel.findIdx? (fun r => Item.itemEq r item true) with
                | some ki =>
                  match st.kernel.get? ki with
                  | some kit => st.kernel.set ki { kit with
                      lookaheads := jsDedup (cit.lookaheads ++ item.lookaheads) }
                  | Option.none => st.kernel
                | Option.none => st.kernel), GoodItem g x := by
              cases hki : st.kernel.findIdx? (fun r => Item.itemEq r item true) with
              | none => simp only [hki]; exact hstg.1
              | some ki =>
                simp only [hki]
                cases hkit : st.kernel.get? ki with
                | none => simp only [hkit]; exact hstg.1
                | some kit =>
                  simp only [hkit]
                  intro x hx
                  rcases List.mem_or_eq_of_mem_set hx with h1 | h2
                  · exact hstg.1 x h1
                  · rw [h2]
                    have hkitg : GoodItem g kit := hstg.1 kit (List.get?_mem hkit)
                    refine ⟨hnewLA, ?_⟩
                    rcases hkitg.2 with h3 | h3
                    · exact Or.inl h3
                    · exact Or.inr h3
            refine ⟨?_, h.2.1, h.2.2⟩
            intro st' hst'
            simp only at hst'
            rcases List.mem_or_eq_of_mem_set hst' with h1 | h2
            · exact h.1 st' h1
            · rw [h2]
              exact ⟨hk1, hcl1⟩
          · rw [if_neg hne]
            exact h

theorem lalr_good (g : Grammar) (m : List (String × List String)) (hm : FV g m) :
    ∀ fuel : Nat,
      (∀ (a : Automaton) (id : Nat) (syms : List String), GoodAuto g a →
        GoodAuto g (lalrExpandGo g m fuel a id syms)) ∧
      (∀ (a : Automaton) (id : Nat), GoodAuto g a →
        GoodAuto g (lalrExpand g m fuel a id)) ∧
      (∀ (a : Automaton) (id : Nat) (refClosure : List Item), GoodAuto g a →
        (∀ it ∈ refClosure, GoodItem g it) →
        GoodAuto g (lalrUpdateLA g m fuel a id refClosure)) := by
  intro fuel
  induction fuel with
  | zero =>
    refine ⟨?_, ?_, ?_⟩
    · intro a id syms ha
      simp only [lalrExpandGo]
      exact ha
    · intro a id ha
      simp only [lalrExpand]
      exact ha
    · intro a id refClosure ha _
      simp only [lalrUpdateLA]
      exact ha
  | succ f ih =>
    obtain ⟨ihGo, ihEx, ihUp⟩ := ih
    refine ⟨?_, ?_, ?_⟩
    · intro a id syms ha
      cases syms with
      | nil =>
        simp only [lalrExpandGo]
        exact ha
      | cons sym rest =>
        simp only [lalrExpandGo]
        cases hget : a.states.get? id with
        | none => simp only [hget]; exact ha
        | some st =>
          simp only [hget]
          have hstg := ha.1 st (List.get?_mem hget)
          have hnk : ∀ it ∈ advanceKernel st.closure sym, GoodItem g it :=
            advanceKernel_good hstg.2
          cases hfind : findStateByKernel a.states (advanceKernel st.closure sym) true with
          | none =>
            simp only [hfind]
            exact ihGo _ id rest (register_good g m f (setTransition a id sym a.states.length)
              (advanceKernel st.closure sym) hm (setTransition_good ha) hnk)
          | some fid =>
            simp only [hfind]
            have ha1 : GoodAuto g (setTransition a id sym fid) := setTransition_good ha
            by_cases hexact : findStateByKernel (setTransition a id sym fid).states
                (advanceKernel st.closure sym) false = some fid
            · rw [if_pos hexact]
              exact ihGo _ id rest ha1
            · rw [if_neg hexact]
              cases hrs : resolveState (setTransition a id sym fid).rules g m f
                  (advanceKernel st.closure sym) (setTransition a id sym fid).cache with
              | mk cl' c' =>
                simp only [hrs]
                have hres := resolveState_good (setTransition a id sym fid).rules g m f
                  (advanceKernel st.closure sym) (setTransition a id sym fid).cache hm
                  ha1.2.2 hnk ha1.2.1
                rw [hrs] at hres
                exact ihGo _ id rest (ihUp _ fid cl' ⟨ha1.1, hres.2, ha1.2.2⟩ hres.1)
    · intro a id ha
      simp only [lalrExpand]
      cases hget : a.states.get? id with
      | none => simp only [hget]; exact ha
      | some st =>
        simp only [hget]
        exact ihGo a id (expandables st) ha
    · intro a id refClosure ha hrc
      simp only [lalrUpdateLA]
      have hfold := updateLA_fold_good g id refClosure (a, false) hrc ha
      by_cases hb : (refClosure.foldl
          (fun (acc : Automaton × Bool) item =>
            match acc.1.states.get? id with
            | Option.none => acc
            | some st =>
              match st.closure.findIdx? (fun r => Item.itemEq r item true) with
              | Option.none => acc
              | some ci =>
                match st.closure.get? ci with
                | Option.none => acc
                | some cit =>
                  let newLA := jsDedup (cit.lookaheads ++ item.lookaheads)
                  if newLA.length ≠ cit.lookaheads.length then
                    let cl1 := st.closure.set ci { cit with lookaheads := newLA }
                    let k1 :=
                      match st.kernel.findIdx? (fun r => Item.itemEq r item true) with
                      | some ki =>
                        match st.kernel.get? ki with
                        | some kit => st.kernel.set ki { kit with lookaheads := newLA }
                        | Option.none => st.kernel
                      | Option.none => st.kernel
                    ({ acc.1 with
                        states := acc.1.states.set id { st with closure := cl1, kernel := k1 } },
                      true)
                  else acc) (a, false)).2 = true
      · rw [if_pos hb]
        exact ihEx _ id hfold
      · rw [if_neg hb]
        exact hfold


theorem clr_good (g : Grammar) (m : List (String × List String)) (hm : FV g m) :
    ∀ fuel : Nat,
      (∀ (a : Automaton) (id : Nat) (syms : List String), GoodAuto g a →
        GoodAuto g (clrExpandGo g m fuel a id syms)) ∧
      (∀ (a : Automaton) (id : Nat), GoodAuto g a →
        GoodAuto g (clrExpand g m fuel a id)) := by
  intro fuel
  induction fuel with
  | zero =>
    refine ⟨?_, ?_⟩
    · intro a id syms ha
      simp only [clrExpandGo]
      exact ha
    · intro a id ha
      simp only [clrExpand]
      exact ha
  | succ f ih =>
    obtain ⟨ihGo, ihEx⟩ := ih
    refine ⟨?_, ?_⟩
    · intro a id syms ha
      cases syms with
      | nil =>
        simp only [clrExpandGo]
        exact ha
      | cons sym rest =>
        simp only [clrExpandGo]
        cases hget : a.states.get? id with
        | none => simp only [hget]; exact ha
        | some st =>
          simp only [hget]
          have hstg := ha.1 st (List.get?_mem hget)
          have hnk : ∀ it ∈ advanceKernel st.closure sym, GoodItem g it :=
            advanceKernel_good hstg.2
          cases hfind : findStateByKernel a.states (advanceKernel st.closure sym) false with
          | none =>
            simp only [hfind]
            exact ihGo _ id rest (register_good g m f (setTransition a id sym a.states.length)
              (advanceKernel st.closure sym) hm (setTransition_good ha) hnk)
          | some fid =>
            simp only [hfind]
            exact ihGo _ id rest (setTransition_good ha)
    · intro a id ha
      simp only [clrExpand]
      cases hget : a.states.get? id with
      | none => simp only [hget]; exact ha
      | some st =>
        simp only [hget]
        exact ihGo a id (expandables st) ha

theorem populateLoop_good (v : Variant) (g : Grammar) (m : List (String × List String))
    (hm : FV g m) :
    ∀ (fuel : Nat) (a : Automaton), GoodAuto g a →
      GoodAuto g (populateLoop v g m fuel a) := by
  intro fuel
  induction fuel with
  | zero => intro a ha; exact ha
  | succ f ih =>
    intro a ha
    simp only [populateLoop]
    cases hq : a.queue with
    | nil => exact ha
    | cons id rest =>
      refine ih _ ?_
      have hqueue : GoodAuto g { a with queue := rest } := ⟨ha.1, ha.2.1, ha.2.2⟩
      cases v with
      | clr => exact (clr_good g m hm f).2 _ id hqueue
      | lalr => exact (lalr_good g m hm f).2.1 _ id hqueue

theorem mkAutoRules_good (g : Grammar) : ∀ it ∈ mkAutoRules g, GoodItem g it := by
  intro it hit
  unfold mkAutoRules at hit
  rcases List.mem_cons.mp hit with h1 | h2
  · rw [h1]
    refine ⟨?_, Or.inl ⟨rfl, rfl⟩⟩
    intro la hla
    simp only [augItemOf] at hla
    rw [List.mem_singleton] at hla
    exact Or.inr hla
  · obtain ⟨r, hr, hre⟩ := List.mem_map.mp h2
    rw [← hre]
    refine ⟨?_, Or.inr ⟨r, hr, rfl⟩⟩
    intro la hla
    exact absurd hla (List.not_mem_nil la)

theorem buildAutomaton_good (v : Variant) (g : Grammar) (fuel : Nat) :
    GoodAuto g (buildAutomaton v g fuel) := by
  unfold buildAutomaton
  refine populateLoop_good v g _ (firstsMap_FV g fuel) fuel _ ?_
  refine register_good g _ fuel _ _ (firstsMap_FV g fuel) ?_ ?_
  · refine ⟨?_, ?_, ?_⟩
    · intro st hst
      exact absurd hst (List.not_mem_nil st)
    · intro p hp
      exact absurd hp (List.not_mem_nil p)
    · exact mkAutoRules_good g
  · intro it hit
    rw [List.mem_singleton] at hit
    rw [hit]
    refine ⟨?_, Or.inl ⟨rfl, rfl⟩⟩
    intro la hla
    simp only [augItemOf] at hla
    rw [List.mem_singleton] at hla
    exact Or.inr hla

/-- C9: in a fully built automaton (CLR or LALR), every lookahead of every
closure item of every state is a grammar terminal or the `$` sign — never ε,
and (as long as no grammar variable is named by the reserved `$` string)
never a variable. -/
theorem C9_lookaheads (v : Variant) (g : Grammar) (fuel : Nat)
    (heofv : Grammar.isVariable g eofSign = false) :
    ∀ st ∈ (buildAutomaton v g fuel).states, ∀ it ∈ st.closure, ∀ la ∈ it.lookaheads,
      (la ∈ Grammar.terminals g ∨ la = eofSign) ∧
      Grammar.isVariable g la = false ∧ la ≠ epsSign := by
  intro st hst it hit la hla
  have hgood := (buildAutomaton_good v g fuel).1 st hst
  have hla' := (hgood.2 it hit).1 la hla
  refine ⟨hla', ?_, ?_⟩
  · rcases hla' with ht | he
    · exact mem_terminals_not_var ht
    · rw [he]
      exact heofv
  · rcases hla' with ht | he
    · exact mem_terminals_ne_eps ht
    · rw [he]
      intro hcontra
      exact absurd hcontra (by decide)

/-- C9, witness: lookahead hygiene holds on the concrete `gC1` LALR
automaton. -/
theorem C9_witness :
    Grammar.isVariable gC1 eofSign = false ∧
    ∀ st ∈ (buildAutomaton Variant.lalr gC1 12).states, ∀ it ∈ st.closure,
      ∀ la ∈ it.lookaheads, (la ∈ Grammar.terminals gC1 ∨ la = eofSign) ∧
        Grammar.isVariable gC1 la = false ∧ la ≠ epsSign :=
  ⟨by decide, C9_lookaheads Variant.lalr gC1 12 (by decide)⟩

end Liquid
